import Mathlib

/-! # Cursor-Crisis: the gameplay state and its session bookkeeping

A shallow embedding of `PlayState` (frontend/src/PlayState.cpp, src/PlayState.h), of the
request queue and the response handling of `AuthNetworkManager`
(frontend/src/src/AuthNetworkManager.cpp) and of the email registration of `AuthChoiceState`
(frontend/src/AuthChoiceState.cpp).

Conventions of the embedding.

* A C++ `float` is an element of a linearly ordered field `F` with a floor function and
  arithmetic is exact.  Every definition is polymorphic in `F`: it runs at `ℚ` and the
  geometric statements are proved at `ℝ`.
* The point system is embedded a second time with the rounding of each 32-bit float addition
  explicit (`fadd32`, `accrue32`), for the statements that compare the point totals with the
  elapsed time.
* `sqrt` of `<cmath>` is an argument `sqrt : F → F` of the functions that call it.  At `ℝ` it is
  `Real.sqrt`; at `ℚ` the examples use `Rat.sqrt`, exact on squares.
* A C++ `int` is an `Int`; counters are assumed to stay inside the 32-bit range.
  `static_cast<int>` of a float truncates toward zero (`toInt`).  The comparison of an `int`
  with a `size_t` converts the `int` to 64-bit unsigned first (`intGtSize`).
* `rand()` results are inputs of a tick (`Draws`).
* `std::cout` is the field `console` of the state, one `Line` per message.
* A `std::function` callback stored in a request is the tag `HttpCallback`; running the
  callback on the worker thread is the atomic step `HttpCallback.run`.
* `nlohmann::json::parse` is an argument `parse : String → Option Json` of the functions that
  call it, `none` when it throws; the conversions `get<T>()` throw on a value of another type.
* An `ImGui::Button` call returns true for the button clicked in the frame, an argument of
  `RenderUI`.
-/

set_option linter.unusedSectionVars false

namespace CursorCrisis

/-! ## Data model -/

/-- The `Enemy` struct of PlayState.h. -/
structure Enemy (F : Type) where
  x : F
  y : F
  vx : F
  vy : F
  type : Int
  active : Bool
  size : F
deriving DecidableEq

/-- The `PowerUp` struct of PlayState.h. -/
structure PowerUp (F : Type) where
  x : F
  y : F
  active : Bool
  type : Int
  pulseTime : F
deriving DecidableEq

/-- The `HttpResponse` struct of NetworkManager.h. -/
structure HttpResponse where
  success : Bool
  statusCode : Int
  data : String
  error : String
deriving DecidableEq

/-- A value stored under a key of a JSON request body. -/
inductive JVal (F : Type) where
  | str (s : String)
  | int (i : Int)
  | num (x : F)
deriving DecidableEq

/-- The response handlers of non-auth requests: the three that `PlayState` hands to the
network manager, and the wrapper that `AuthNetworkManager::CheckEmailExists` builds around the
callback of `AuthChoiceState::CheckEmailAndRegister`. -/
inductive HttpCallback where
  | startSession
  | saveProgress
  | endSession
  | emailCheck
deriving DecidableEq

/-- The response handlers that `AuthChoiceState` hands to the network manager with its auth
requests: Steam login, Steam account creation, linked account creation, email login and email
registration. -/
inductive AuthCallback where
  | steamLogin
  | steamCreate
  | linkedCreate
  | emailLogin
  | emailRegister
deriving DecidableEq

/-- The `AuthRequest` struct of AuthNetworkManager.cpp.  The body is the JSON object before
`dump()`; a callback that was never assigned is `none`. -/
structure AuthRequest (F : Type) where
  url : String
  method : String
  body : List (String × JVal F)
  headers : String := ""
  authCallback : Option AuthCallback := none
  httpCallback : Option HttpCallback := none
  isAuthRequest : Bool
deriving DecidableEq

/-- The request queue of `AuthNetworkManager::Impl`, oldest request first, and the requests
already handed to a worker thread, in dispatch order. -/
structure AuthNetworkManager (F : Type) where
  requestQueue : List (AuthRequest F)
  dispatched : List (AuthRequest F)
deriving DecidableEq

/-- One message written to `std::cout`. -/
inductive Line (F : Type) where
  | noNetworkManager
  | startingSession
  | sessionStarted (sessionId : String)
  | noSessionId
  | sessionParseError
  | sessionStartFailed (error : String)
  | gameOver (score leaderboardPoints skillPoints : Int) (gameTime : F)
  | continueAvailable (savedGameTime : F)
  | gameStateSaved (gameTime : F)
  | gameStateRestored (gameTime : F)
  | gameRestarted
  | hitByEnemy (lives : Int)
  | powerUpCollected (score : Int)
  | leaderboardPoints (points : Int)
  | skillPoints (points : Int)
  | cannotSaveProgress
  | savingProgress (score leaderboardPoints skillPoints : Int) (gameTime : F) (lives : Int)
  | progressSaved
  | progressSaveFailed (error : String)
  | noActiveSession
  | endingSession (score leaderboardPoints skillPoints : Int) (gameTime : F)
  | sessionEnded
  | sessionEndFailed (error : String)
  | startingGameplay
  | useMouse
  | pressEsc
  | authTokenSet
deriving DecidableEq

/-- The data members of `PlayState` (PlayState.h), and the console. -/
structure PlayState (F : Type) where
  m_playerX : F
  m_playerY : F
  m_paused : Bool
  m_gameTime : F
  m_score : Int
  m_lives : Int
  m_leaderboardPoints : Int
  m_skillPoints : Int
  m_leaderboardTimer : F
  m_skillPointTimer : F
  m_saveTimer : F
  m_sessionId : String
  m_sessionStarted : Bool
  m_savedGameTime : F
  m_savedScore : Int
  m_savedLeaderboardPoints : Int
  m_savedSkillPoints : Int
  m_savedEnemies : List (Enemy F)
  m_savedPowerUps : List (PowerUp F)
  m_enemies : List (Enemy F)
  m_powerUps : List (PowerUp F)
  m_showPauseMenu : Bool
  m_showGameOver : Bool
  m_canContinue : Bool
  m_authNetworkManager : Option (AuthNetworkManager F)
  console : List (Line F)
deriving DecidableEq

/-- The results of the `rand()` calls of one tick: five consumed by `SpawnEnemies`
(type, side, and the three of the chosen side in statement order), three by
`SpawnPowerUps` (type, x, y). -/
structure Draws where
  e0 : Nat
  e1 : Nat
  e2 : Nat
  e3 : Nat
  e4 : Nat
  p0 : Nat
  p1 : Nat
  p2 : Nat
deriving DecidableEq

section Model

variable {F : Type} [LinearOrderedField F] [FloorRing F]

/-! ## Conversions -/

/-- The conversion `static_cast<int>(x)` of a float: truncation toward zero. -/
def toInt (x : F) : Int :=
  if 0 ≤ x then Int.floor x else Int.ceil x

/-- The comparison `i > n` of an `int` with a `size_t`: the usual arithmetic conversions turn
`i` into a 64-bit unsigned value first, so a negative `i` counts as `i + 2 ^ 64`. -/
def intGtSize (i : Int) (n : Nat) : Bool :=
  if 0 ≤ i then decide ((n : Int) < i) else decide ((n : Int) < i + 2 ^ 64)

/-! ## Construction -/

/-- The constructor `PlayState::PlayState`. -/
def PlayState.init : PlayState F where
  m_playerX := 640
  m_playerY := 360
  m_paused := false
  m_gameTime := 0
  m_score := 0
  m_lives := 3
  m_leaderboardPoints := 0
  m_skillPoints := 0
  m_leaderboardTimer := 0
  m_skillPointTimer := 0
  m_saveTimer := 0
  m_sessionId := ""
  m_sessionStarted := false
  m_savedGameTime := 0
  m_savedScore := 0
  m_savedLeaderboardPoints := 0
  m_savedSkillPoints := 0
  m_savedEnemies := []
  m_savedPowerUps := []
  m_enemies := []
  m_powerUps := []
  m_showPauseMenu := false
  m_showGameOver := false
  m_canContinue := false
  m_authNetworkManager := some { requestQueue := [], dispatched := [] }
  console := []

/-! ## The request queue (AuthNetworkManager.cpp) -/

/-- The method `AuthNetworkManager::MakeHttpRequest`: push a non-auth request at the back of the
queue. -/
def AuthNetworkManager.MakeHttpRequest (endpoint method : String) (body : List (String × JVal F))
    (callback : HttpCallback) (m : AuthNetworkManager F) : AuthNetworkManager F :=
  { m with requestQueue := m.requestQueue ++
      [{ url := endpoint, method := method, body := body, httpCallback := some callback,
         isAuthRequest := false }] }

/-- The method `AuthNetworkManager::MakeAuthRequest`: push an auth request at the back of the
queue. -/
def AuthNetworkManager.MakeAuthRequest (endpoint : String) (jsonBody : List (String × JVal F))
    (callback : AuthCallback) (method : String) (m : AuthNetworkManager F) :
    AuthNetworkManager F :=
  { m with requestQueue := m.requestQueue ++
      [{ url := endpoint, method := method, body := jsonBody, authCallback := some callback,
         isAuthRequest := true }] }

/-- The method `AuthNetworkManager::Update`: pop the front request, if any, and hand it to a
detached worker thread. -/
def AuthNetworkManager.Update (m : AuthNetworkManager F) : AuthNetworkManager F :=
  match m.requestQueue with
  | [] => m
  | request :: rest => { requestQueue := rest, dispatched := m.dispatched ++ [request] }

/-- What the worker thread gets back from `curl_easy_perform`: either `CURLE_OK` with the
HTTP status of `curl_easy_getinfo` and the body collected by `WriteCallback`, or an error whose
text is `curl_easy_strerror(res)`. -/
inductive CurlResult where
  | ok (httpCode : Int) (data : String)
  | failed (error : String)
deriving DecidableEq

/-- The `HttpResponse` that the worker thread of `AuthNetworkManager::Update` builds for a
non-auth request and passes to `request.httpCallback` (lines 177-184 and 193-196).  In the
failure branch `statusCode` is never assigned: its value is `indeterminate`. -/
def AuthNetworkManager.httpResponseOf (indeterminate : Int) : CurlResult → HttpResponse
  | CurlResult.ok httpCode data =>
    let success : Bool := decide (200 ≤ httpCode ∧ httpCode < 300)
    { success := success
      statusCode := httpCode
      data := data
      error := if !success then "HTTP " ++ toString httpCode else "" }
  | CurlResult.failed error =>
    { success := false, statusCode := indeterminate, data := "", error := error }

/-- The manager as `AuthNetworkManager::AuthNetworkManager` leaves it: nothing queued, nothing
dispatched. -/
def AuthNetworkManager.empty : AuthNetworkManager F :=
  { requestQueue := [], dispatched := [] }

/-- A call on the request queue: one of the two enqueueing methods, or `Update`. -/
inductive QueueOp (F : Type) where
  | http (endpoint method : String) (body : List (String × JVal F)) (callback : HttpCallback)
  | auth (endpoint : String) (jsonBody : List (String × JVal F)) (callback : AuthCallback)
      (method : String)
  | update

/-- Perform a call on the request queue. -/
def QueueOp.apply : QueueOp F → AuthNetworkManager F → AuthNetworkManager F
  | QueueOp.http endpoint method body callback, m =>
    m.MakeHttpRequest endpoint method body callback
  | QueueOp.auth endpoint jsonBody callback method, m =>
    m.MakeAuthRequest endpoint jsonBody callback method
  | QueueOp.update, m => m.Update

/-- The requests a call hands to the queue: what it leaves in the queue of a fresh manager. -/
def QueueOp.enqueued (op : QueueOp F) : List (AuthRequest F) :=
  (op.apply AuthNetworkManager.empty).requestQueue

/-- Whether a call on the request queue is `Update`. -/
def QueueOp.isUpdate : QueueOp F → Bool
  | QueueOp.update => true
  | _ => false

/-- A sequence of calls on the request queue, first call first. -/
def AuthNetworkManager.runOps (ops : List (QueueOp F)) (m : AuthNetworkManager F) :
    AuthNetworkManager F :=
  ops.foldl (fun m op => op.apply m) m

/-- The method `AuthNetworkManager::StartGameSession`. -/
def AuthNetworkManager.StartGameSession (callback : HttpCallback) (m : AuthNetworkManager F) :
    AuthNetworkManager F :=
  m.MakeHttpRequest "/api/game/session/start" "POST" [("gameMode", JVal.str "normal")] callback

/-- The method `AuthNetworkManager::SaveGameProgress`. -/
def AuthNetworkManager.SaveGameProgress (sessionId : String) (currentScore leaderboardPoints
    skillPoints : Int) (survivalTime : F) (livesRemaining : Int) (callback : HttpCallback)
    (m : AuthNetworkManager F) : AuthNetworkManager F :=
  m.MakeHttpRequest "/api/game/progress/save" "POST"
    [("sessionId", JVal.str sessionId), ("currentScore", JVal.int currentScore),
     ("leaderboardPoints", JVal.int leaderboardPoints), ("skillPoints", JVal.int skillPoints),
     ("survivalTime", JVal.num survivalTime), ("livesRemaining", JVal.int livesRemaining)]
    callback

/-- The method `AuthNetworkManager::EndGameSession`. -/
def AuthNetworkManager.EndGameSession (sessionId : String) (finalScore finalLeaderboardPoints
    finalSkillPoints : Int) (survivalTime : F) (kills damageDealt damageTaken waveReached : Int)
    (callback : HttpCallback) (m : AuthNetworkManager F) : AuthNetworkManager F :=
  m.MakeHttpRequest "/api/game/session/end" "POST"
    [("sessionId", JVal.str sessionId), ("finalScore", JVal.int finalScore),
     ("leaderboardPointsEarned", JVal.int finalLeaderboardPoints),
     ("skillPointsEarned", JVal.int finalSkillPoints), ("survivalTime", JVal.num survivalTime),
     ("kills", JVal.int kills), ("damageDealt", JVal.int damageDealt),
     ("damageTaken", JVal.int damageTaken), ("waveReached", JVal.int waveReached),
     ("endReason", JVal.str "player_death")]
    callback

/-! ## Session management (PlayState.cpp) -/

/-- Append one message to the console. -/
def PlayState.print (l : Line F) (s : PlayState F) : PlayState F :=
  { s with console := s.console ++ [l] }

/-- The method `PlayState::StartGameSession`. -/
def PlayState.StartGameSession (s : PlayState F) : PlayState F :=
  match s.m_authNetworkManager with
  | none => s.print Line.noNetworkManager
  | some m =>
    let s := s.print Line.startingSession
    { s with m_authNetworkManager := some (m.StartGameSession HttpCallback.startSession) }

/-- The method `PlayState::SaveProgressToServer`. -/
def PlayState.SaveProgressToServer (s : PlayState F) : PlayState F :=
  match s.m_authNetworkManager with
  | none => s.print Line.cannotSaveProgress
  | some m =>
    if !s.m_sessionStarted || s.m_sessionId.isEmpty then s.print Line.cannotSaveProgress
    else
      let s := s.print (Line.savingProgress s.m_score s.m_leaderboardPoints s.m_skillPoints
        s.m_gameTime s.m_lives)
      { s with m_authNetworkManager := some (m.SaveGameProgress s.m_sessionId s.m_score
          s.m_leaderboardPoints s.m_skillPoints s.m_gameTime s.m_lives
          HttpCallback.saveProgress) }

/-- The method `PlayState::EndGameSession`. -/
def PlayState.EndGameSession (s : PlayState F) : PlayState F :=
  match s.m_authNetworkManager with
  | none => s.print Line.noActiveSession
  | some m =>
    if !s.m_sessionStarted || s.m_sessionId.isEmpty then s.print Line.noActiveSession
    else
      let s := s.print (Line.endingSession s.m_score s.m_leaderboardPoints s.m_skillPoints
        s.m_gameTime)
      let totalKills : Int := 0
      let damageDealt : Int := 0
      let damageTaken : Int := (3 - s.m_lives) * 100
      let waveReached : Int := toInt (s.m_gameTime / 30) + 1
      { s with m_authNetworkManager := some (m.EndGameSession s.m_sessionId s.m_score
          s.m_leaderboardPoints s.m_skillPoints s.m_gameTime totalKills damageDealt damageTaken
          waveReached HttpCallback.endSession) }

/-- What nlohmann::json makes of a response body as far as the key `sessionId` goes. -/
inductive SessionIdField where
  | invalid
  | missing
  | notString
  | str (sessionId : String)
deriving DecidableEq

/-- The response handler that `PlayState::StartGameSession` installs (lines 68-103).  `json`
stands for `nlohmann::json::parse` followed by the look-up of `sessionId`: `invalid` when the
parse throws, `missing` when the key is absent or null, `notString` when `get<std::string>`
throws.  The extra `Error details` message of the failure branch is not recorded. -/
def PlayState.onStartSessionResponse (json : String → SessionIdField) (response : HttpResponse)
    (s : PlayState F) : PlayState F :=
  if response.success then
    match json response.data with
    | SessionIdField.str sessionId =>
      let s := { s with m_sessionId := sessionId, m_sessionStarted := true }
      s.print (Line.sessionStarted sessionId)
    | SessionIdField.missing =>
      let s := s.print Line.noSessionId
      { s with m_sessionStarted := false }
    | _ =>
      let s := s.print Line.sessionParseError
      { s with m_sessionStarted := false }
  else
    let s := s.print (Line.sessionStartFailed response.error)
    { s with m_sessionStarted := false }

/-- The response handler that `PlayState::SaveProgressToServer` installs (lines 593-599). -/
def PlayState.onSaveProgressResponse (response : HttpResponse) (s : PlayState F) : PlayState F :=
  if response.success then s.print Line.progressSaved
  else s.print (Line.progressSaveFailed response.error)

/-- The response handler that `PlayState::EndGameSession` installs (lines 631-642). -/
def PlayState.onEndSessionResponse (response : HttpResponse) (s : PlayState F) : PlayState F :=
  let s := if response.success then s.print Line.sessionEnded
    else s.print (Line.sessionEndFailed response.error)
  { s with m_sessionStarted := false, m_sessionId := "" }

/-- Run the stored callback of a request on a response.  The email check belongs to
`AuthChoiceState` and touches no member of `PlayState`. -/
def HttpCallback.run (json : String → SessionIdField) (callback : HttpCallback)
    (response : HttpResponse) (s : PlayState F) : PlayState F :=
  match callback with
  | HttpCallback.startSession => s.onStartSessionResponse json response
  | HttpCallback.saveProgress => s.onSaveProgressResponse response
  | HttpCallback.endSession => s.onEndSessionResponse response
  | HttpCallback.emailCheck => s

/-! ## Checkpoint and restart -/

/-- The method `PlayState::SaveGameState`. -/
def PlayState.SaveGameState (s : PlayState F) : PlayState F :=
  let s := { s with
    m_savedGameTime := s.m_gameTime
    m_savedScore := s.m_score
    m_savedLeaderboardPoints := s.m_leaderboardPoints
    m_savedSkillPoints := s.m_skillPoints
    m_savedEnemies := s.m_enemies
    m_savedPowerUps := s.m_powerUps }
  s.print (Line.gameStateSaved s.m_gameTime)

/-- The method `PlayState::RestoreGameState`. -/
def PlayState.RestoreGameState (s : PlayState F) : PlayState F :=
  let s := { s with
    m_gameTime := s.m_savedGameTime
    m_score := s.m_savedScore
    m_leaderboardPoints := s.m_savedLeaderboardPoints
    m_skillPoints := s.m_savedSkillPoints
    m_enemies := s.m_savedEnemies
    m_powerUps := s.m_savedPowerUps
    m_lives := 3
    m_showGameOver := false
    m_paused := false }
  s.print (Line.gameStateRestored s.m_gameTime)

/-- The method `PlayState::RestartGame`. -/
def PlayState.RestartGame (s : PlayState F) : PlayState F :=
  let s := if s.m_sessionStarted && !s.m_sessionId.isEmpty then s.EndGameSession else s
  let s := { s with
    m_gameTime := 0
    m_score := 0
    m_lives := 3
    m_leaderboardPoints := 0
    m_skillPoints := 0
    m_leaderboardTimer := 0
    m_skillPointTimer := 0
    m_saveTimer := 0
    m_enemies := []
    m_powerUps := []
    m_savedGameTime := 0
    m_savedScore := 0
    m_savedLeaderboardPoints := 0
    m_savedSkillPoints := 0
    m_savedEnemies := []
    m_savedPowerUps := []
    m_showGameOver := false
    m_paused := false
    m_canContinue := false }
  let s := s.print Line.gameRestarted
  s.StartGameSession

/-! ## Entity simulation -/

/-- The method `PlayState::SpawnEnemies`: one enemy at a screen edge, pushed at the back. -/
def PlayState.SpawnEnemies (d : Draws) (s : PlayState F) : PlayState F :=
  let type : Int := (d.e0 % 4 : Nat)
  let size : F := 20 + (type : F) * 5
  let side : Nat := d.e1 % 4
  let small (r : Nat) : F := (((r % 100 : Nat) : F) - 50) / 10
  let fast (r : Nat) : F := 50 + ((r % 50 : Nat) : F)
  let enemy : Enemy F :=
    match side with
    | 0 => { type := type, active := true, size := size,
             x := ((d.e2 % 1280 : Nat) : F), y := -size, vx := small d.e3, vy := fast d.e4 }
    | 1 => { type := type, active := true, size := size,
             x := 1280 + size, y := ((d.e2 % 720 : Nat) : F), vx := -(fast d.e3),
             vy := small d.e4 }
    | 2 => { type := type, active := true, size := size,
             x := ((d.e2 % 1280 : Nat) : F), y := 720 + size, vx := small d.e3,
             vy := -(fast d.e4) }
    | _ => { type := type, active := true, size := size,
             x := -size, y := ((d.e2 % 720 : Nat) : F), vx := fast d.e3, vy := small d.e4 }
  { s with m_enemies := s.m_enemies ++ [enemy] }

/-- The method `PlayState::SpawnPowerUps`: one power-up, pushed at the back. -/
def PlayState.SpawnPowerUps (d : Draws) (s : PlayState F) : PlayState F :=
  let powerUp : PowerUp F :=
    { active := true, type := (d.p0 % 3 : Nat), x := 100 + ((d.p1 % 1080 : Nat) : F),
      y := 100 + ((d.p2 % 520 : Nat) : F), pulseTime := 0 }
  { s with m_powerUps := s.m_powerUps ++ [powerUp] }

/-- The body of the loop of `PlayState::UpdateEnemies` for one enemy: steer toward the player,
move, and mark the enemy inactive when it is far off screen. -/
def stepEnemy (sqrt : F → F) (playerX playerY deltaTime : F) (enemy : Enemy F) : Enemy F :=
  if !enemy.active then enemy
  else
    let dx := playerX - enemy.x
    let dy := playerY - enemy.y
    let distance := sqrt (dx * dx + dy * dy)
    let enemy :=
      if distance > 0 then
        { enemy with vx := enemy.vx + (dx / distance) * 20 * deltaTime
                     vy := enemy.vy + (dy / distance) * 20 * deltaTime }
      else enemy
    let enemy := { enemy with x := enemy.x + enemy.vx * deltaTime
                              y := enemy.y + enemy.vy * deltaTime }
    if enemy.x < -100 ∨ enemy.x > 1380 ∨ enemy.y < -100 ∨ enemy.y > 820 then
      { enemy with active := false }
    else enemy

/-- The method `PlayState::UpdateEnemies`: the loop, then the erase of the inactive enemies. -/
def PlayState.UpdateEnemies (sqrt : F → F) (deltaTime : F) (s : PlayState F) : PlayState F :=
  let moved := s.m_enemies.map (stepEnemy sqrt s.m_playerX s.m_playerY deltaTime)
  { s with m_enemies := moved.filter (fun e => e.active) }

/-- The method `PlayState::UpdatePowerUps`. -/
def PlayState.UpdatePowerUps (deltaTime : F) (s : PlayState F) : PlayState F :=
  { s with m_powerUps := s.m_powerUps.map (fun powerUp =>
      if !powerUp.active then powerUp
      else { powerUp with pulseTime := powerUp.pulseTime + deltaTime }) }

/-- The method `PlayState::CircleCollision`. -/
def CircleCollision (sqrt : F → F) (x1 y1 r1 x2 y2 r2 : F) : Bool :=
  let dx := x1 - x2
  let dy := y1 - y2
  let distance := sqrt (dx * dx + dy * dy)
  decide (distance < r1 + r2)

/-- The first loop of `PlayState::CheckCollisions`, run over the enemies that are left:
a hit deactivates the enemy, takes a life and prints the lives that remain. -/
def checkEnemies (sqrt : F → F) (s : PlayState F) : List (Enemy F) → PlayState F
  | [] => { s with m_enemies := [] }
  | enemy :: rest =>
    if !enemy.active then
      let s := checkEnemies sqrt s rest
      { s with m_enemies := enemy :: s.m_enemies }
    else if CircleCollision sqrt s.m_playerX s.m_playerY 8 enemy.x enemy.y (enemy.size / 2) then
      let s := { s with m_lives := s.m_lives - 1 }
      let s := s.print (Line.hitByEnemy s.m_lives)
      let s := checkEnemies sqrt s rest
      { s with m_enemies := { enemy with active := false } :: s.m_enemies }
    else
      let s := checkEnemies sqrt s rest
      { s with m_enemies := enemy :: s.m_enemies }

/-- The second loop of `PlayState::CheckCollisions`, run over the power-ups that are left:
a pickup deactivates the power-up, adds 50 to the score and prints the score. -/
def checkPowerUps (sqrt : F → F) (s : PlayState F) : List (PowerUp F) → PlayState F
  | [] => { s with m_powerUps := [] }
  | powerUp :: rest =>
    if !powerUp.active then
      let s := checkPowerUps sqrt s rest
      { s with m_powerUps := powerUp :: s.m_powerUps }
    else if CircleCollision sqrt s.m_playerX s.m_playerY 8 powerUp.x powerUp.y 20 then
      let s := { s with m_score := s.m_score + 50 }
      let s := s.print (Line.powerUpCollected s.m_score)
      let s := checkPowerUps sqrt s rest
      { s with m_powerUps := { powerUp with active := false } :: s.m_powerUps }
    else
      let s := checkPowerUps sqrt s rest
      { s with m_powerUps := powerUp :: s.m_powerUps }

/-- The method `PlayState::CheckCollisions`: both loops, then the erase of the inactive
power-ups (the inactive enemies stay in the list until the next `UpdateEnemies`). -/
def PlayState.CheckCollisions (sqrt : F → F) (s : PlayState F) : PlayState F :=
  let s := checkEnemies sqrt s s.m_enemies
  let s := checkPowerUps sqrt s s.m_powerUps
  { s with m_powerUps := s.m_powerUps.filter (fun p => p.active) }

/-! ## Point system -/

/-- The method `PlayState::UpdatePointSystem`. -/
def PlayState.UpdatePointSystem (deltaTime : F) (s : PlayState F) : PlayState F :=
  let s : PlayState F := { s with
    m_leaderboardTimer := s.m_leaderboardTimer + deltaTime
    m_skillPointTimer := s.m_skillPointTimer + deltaTime
    m_saveTimer := s.m_saveTimer + deltaTime }
  let s : PlayState F :=
    if s.m_leaderboardTimer ≥ 1 / 2 then
      let s := { s with m_leaderboardPoints := s.m_leaderboardPoints + 1, m_leaderboardTimer := 0 }
      s.print (Line.leaderboardPoints s.m_leaderboardPoints)
    else s
  let s : PlayState F :=
    if s.m_skillPointTimer ≥ 1 then
      let s := { s with m_skillPoints := s.m_skillPoints + 1, m_skillPointTimer := 0 }
      s.print (Line.skillPoints s.m_skillPoints)
    else s
  if s.m_saveTimer ≥ 5 then
    let s := s.SaveProgressToServer
    let s := s.SaveGameState
    { s with m_saveTimer := 0 }
  else s

/-! ## The frame tick -/

/-- The call `m_authNetworkManager->Update()` behind its null check. -/
def PlayState.pollNetwork (s : PlayState F) : PlayState F :=
  { s with m_authNetworkManager := s.m_authNetworkManager.map AuthNetworkManager.Update }

/-- Lines 162-166 of `PlayState::Update`: advance the game time, run the point system. -/
def PlayState.accrue (deltaTime : F) (s : PlayState F) : PlayState F :=
  let s := { s with m_gameTime := s.m_gameTime + deltaTime }
  s.UpdatePointSystem deltaTime

/-- Lines 168-176 of `PlayState::Update`: the two spawn decisions. -/
def PlayState.spawn (d : Draws) (s : PlayState F) : PlayState F :=
  let s := if intGtSize (toInt (s.m_gameTime * 2)) s.m_enemies.length then s.SpawnEnemies d else s
  if intGtSize (toInt (s.m_gameTime / 5)) s.m_powerUps.length then s.SpawnPowerUps d else s

/-- Lines 185-204 of `PlayState::Update`: recompute the score, then the game-over check. -/
def PlayState.settle (s : PlayState F) : PlayState F :=
  let score : Int :=
    toInt (s.m_gameTime * 25) + (s.m_enemies.length : Int) * 10 + s.m_leaderboardPoints * 2
  let s := { s with m_score := score }
  if s.m_lives ≤ 0 then
    let s := { s with m_showGameOver := true, m_canContinue := decide (s.m_savedGameTime > 0) }
    let s := s.EndGameSession
    let s := s.print (Line.gameOver s.m_score s.m_leaderboardPoints s.m_skillPoints s.m_gameTime)
    if s.m_canContinue then s.print (Line.continueAvailable s.m_savedGameTime) else s
  else s

/-- The method `PlayState::Update`. -/
def PlayState.Update (sqrt : F → F) (deltaTime : F) (d : Draws) (s : PlayState F) :
    PlayState F :=
  if s.m_paused || s.m_showGameOver then s.pollNetwork
  else
    let s := s.pollNetwork
    let s := s.accrue deltaTime
    let s := s.spawn d
    let s := s.UpdateEnemies sqrt deltaTime
    let s := s.UpdatePowerUps deltaTime
    let s := s.CheckCollisions sqrt
    s.settle

/-! ## Vocabulary of the properties -/

/-- The session state `NoSession`: `m_sessionStarted` is false and `m_sessionId` is empty. -/
def PlayState.NoSession (s : PlayState F) : Prop :=
  s.m_sessionStarted = false ∧ s.m_sessionId = ""

/-- The requests that wait in the queue of the network manager, oldest first. -/
def PlayState.queued (s : PlayState F) : List (AuthRequest F) :=
  match s.m_authNetworkManager with
  | none => []
  | some m => m.requestQueue

/-- A run of unpaused ticks as the point system sees it: lines 162-166 of `Update`, once per
frame time.  A run of `Update` whose ticks all start unpaused and not game over shows the same
point system (`run_accrues`). -/
def PlayState.accrueAll (deltas : List F) (s : PlayState F) : PlayState F :=
  deltas.foldl (fun s deltaTime => s.accrue deltaTime) s

/-- A run of frame ticks: `Update` once per frame, each with its frame time and draws. -/
def PlayState.run (sqrt : F → F) (frames : List (F × Draws)) (s : PlayState F) : PlayState F :=
  frames.foldl (fun s frame => s.Update sqrt frame.1 frame.2) s

/-- Every tick of the run starts unpaused and not game over. -/
def PlayState.allActive (sqrt : F → F) : List (F × Draws) → PlayState F → Prop
  | [], _ => True
  | frame :: rest, s =>
    s.m_paused = false ∧ s.m_showGameOver = false ∧
      PlayState.allActive sqrt rest (s.Update sqrt frame.1 frame.2)

/-- The console message of a leaderboard-timer fire. -/
def Line.isLeaderboardFire : Line F → Bool
  | Line.leaderboardPoints _ => true
  | _ => false

/-- The console message of a skill-timer fire. -/
def Line.isSkillFire : Line F → Bool
  | Line.skillPoints _ => true
  | _ => false

/-- The console message of `SaveGameState`, which runs once per save-timer fire. -/
def Line.isSave : Line F → Bool
  | Line.gameStateSaved _ => true
  | _ => false

/-- The console message of a power-up pickup. -/
def Line.isPickup : Line F → Bool
  | Line.powerUpCollected _ => true
  | _ => false

/-- A call on the play state while it plays offline: a frame tick, `SaveProgressToServer` or
`EndGameSession`. -/
inductive PlayOp (F : Type) where
  | tick (deltaTime : F) (d : Draws)
  | saveProgress
  | endSession

/-- Perform a call on the play state. -/
def PlayOp.apply (sqrt : F → F) : PlayOp F → PlayState F → PlayState F
  | PlayOp.tick deltaTime d, s => s.Update sqrt deltaTime d
  | PlayOp.saveProgress, s => s.SaveProgressToServer
  | PlayOp.endSession, s => s.EndGameSession

/-- A sequence of calls on the play state, first call first. -/
def PlayState.runOps (sqrt : F → F) (ops : List (PlayOp F)) (s : PlayState F) : PlayState F :=
  ops.foldl (fun s op => op.apply sqrt s) s

/-- Reading the console from the start: does a checkpoint exist after this message, given
whether one existed before it?  `Game restarted` discards it, `Game state saved` makes one. -/
def Line.snapshotAfter (before : Bool) : Line F → Bool
  | Line.gameRestarted => false
  | Line.gameStateSaved _ => true
  | _ => before

/-- `SaveGameState` has run since construction or since the last `RestartGame`: the console
shows a `Game state saved` message with no `Game restarted` after it. -/
def PlayState.snapshotExists (s : PlayState F) : Bool :=
  s.console.foldl Line.snapshotAfter false

/-- Two states show the same point system: game time, the three timers, the two point totals
and the numbers of timer fires printed so far. -/
def PlayState.sameAccrual (s t : PlayState F) : Prop :=
  s.m_gameTime = t.m_gameTime ∧
  s.m_leaderboardTimer = t.m_leaderboardTimer ∧
  s.m_leaderboardPoints = t.m_leaderboardPoints ∧
  s.m_skillPointTimer = t.m_skillPointTimer ∧
  s.m_skillPoints = t.m_skillPoints ∧
  s.m_saveTimer = t.m_saveTimer ∧
  s.console.countP Line.isLeaderboardFire = t.console.countP Line.isLeaderboardFire ∧
  s.console.countP Line.isSkillFire = t.console.countP Line.isSkillFire ∧
  s.console.countP Line.isSave = t.console.countP Line.isSave

/-- A value of `nlohmann::json` as `json::parse` delivers it.  A number carries its value;
an object carries its members, each key once. -/
inductive Json where
  | null
  | boolean (b : Bool)
  | number (q : ℚ)
  | string (s : String)
  | array (items : List Json)
  | object (members : List (String × Json))

/-- The call `j.contains(key)`: true only on an object that has the key. -/
def Json.contains (key : String) : Json → Bool
  | Json.object members => members.any (fun member => member.1 == key)
  | _ => false

/-- The look-up `j[key]`, used on a value that contains the key. -/
def Json.get (key : String) : Json → Json
  | Json.object members =>
    match members.find? (fun member => member.1 == key) with
    | some member => member.2
    | none => Json.null
  | _ => Json.null

/-- The conversion `get<bool>()`: `none` when it throws, on every value but a boolean. -/
def Json.getBool : Json → Option Bool
  | Json.boolean b => some b
  | _ => none

/-- The conversion `get<std::string>()`: `none` when it throws, on every value but a string. -/
def Json.getString : Json → Option String
  | Json.string s => some s
  | _ => none

/-- The conversion `get<int>()`: a number is truncated, a boolean counts 0 or 1; `none` when it
throws, on every other value. -/
def Json.getInt : Json → Option Int
  | Json.number q => some (toInt q)
  | Json.boolean b => some (if b then 1 else 0)
  | _ => none

/-- The `AuthResponse` struct of AuthNetworkManager.h. -/
structure AuthResponse where
  success : Bool
  error : String
  token : String
  userId : String
  username : String
  email : String
  steamId : String
  authMethod : String
  level : Int
  experience : Int
  skillPoints : Int
  coins : Int
deriving DecidableEq

/-- The right-hand side `j.contains(key) ? j[key].get<std::string>() : fallback`. -/
def Json.stringOr (key fallback : String) (j : Json) : Option String :=
  if j.contains key then (j.get key).getString else some fallback

/-- The right-hand side `j.contains(key) ? j[key].get<int>() : fallback`. -/
def Json.intOr (key : String) (fallback : Int) (j : Json) : Option Int :=
  if j.contains key then (j.get key).getInt else some fallback

/-- The statements of a `try` block run in order on the response; a statement that throws
(`none`) ends the block and leaves the response as the statements before it made it.  The
result is that response and whether the block threw. -/
def tryBlock : List (AuthResponse → Option AuthResponse) → AuthResponse → AuthResponse × Bool
  | [], response => (response, false)
  | statement :: rest, response =>
    match statement response with
    | none => (response, true)
    | some response => tryBlock rest response

/-- The assignments of the `try` block of `ParseAuthResponse` after `json::parse` (lines
242-258), in statement order. -/
def parseStatements (root : Json) : List (AuthResponse → Option AuthResponse) :=
  [fun response =>
      (if root.contains "success" then (root.get "success").getBool else some false).map
        (fun v => { response with success := v }),
   fun response => (root.stringOr "error" "").map (fun v => { response with error := v }),
   fun response => (root.stringOr "token" "").map (fun v => { response with token := v })] ++
  (if root.contains "user" then
    let user := root.get "user"
    [fun response => (user.stringOr "id" "").map (fun v => { response with userId := v }),
     fun response =>
       (user.stringOr "username" "").map (fun v => { response with username := v }),
     fun response => (user.stringOr "email" "").map (fun v => { response with email := v }),
     fun response =>
       (user.stringOr "steam_id" "").map (fun v => { response with steamId := v }),
     fun response =>
       (user.stringOr "auth_method" "").map (fun v => { response with authMethod := v }),
     fun response => (user.intOr "level" 1).map (fun v => { response with level := v }),
     fun response =>
       (user.intOr "experience" 0).map (fun v => { response with experience := v }),
     fun response =>
       (user.intOr "skill_points" 0).map (fun v => { response with skillPoints := v }),
     fun response => (user.intOr "coins" 50).map (fun v => { response with coins := v })]
  else [])

/-- The `AuthResponse` of a default construction: the strings are empty, the numbers are not
initialised and hold `indeterminate`.  The `success` member is passed in because every caller
assigns it at once. -/
def AuthResponse.default (success : Bool) (indeterminate : Int) : AuthResponse :=
  { success := success, error := "", token := "", userId := "", username := "", email := "",
    steamId := "", authMethod := "", level := indeterminate, experience := indeterminate,
    skillPoints := indeterminate, coins := indeterminate }

/-- The method `AuthNetworkManager::ParseAuthResponse`.  `parse` stands for `json::parse`,
`none` when it throws. -/
def AuthNetworkManager.ParseAuthResponse (parse : String → Option Json) (indeterminate : Int)
    (jsonData : String) : AuthResponse :=
  let response := AuthResponse.default false indeterminate
  match parse jsonData with
  | none => { response with error := "Failed to parse server response" }
  | some root =>
    let result := tryBlock (parseStatements root) response
    if result.2 then { result.1 with error := "Failed to parse server response" }
    else result.1

/-- The `AuthResponse` that the worker thread of `AuthNetworkManager::Update` builds for an
auth request and passes to `request.authCallback` (lines 168-176 and 187-191). -/
def AuthNetworkManager.authResponseOf (parse : String → Option Json) (indeterminate : Int) :
    CurlResult → AuthResponse
  | CurlResult.ok httpCode data =>
    let authResponse := AuthNetworkManager.ParseAuthResponse parse indeterminate data
    let authResponse :=
      { authResponse with success := decide (httpCode ≥ 200 ∧ httpCode < 300) }
    if !authResponse.success && authResponse.error.isEmpty then
      { authResponse with error := "HTTP " ++ toString httpCode }
    else authResponse
  | CurlResult.failed error =>
    { AuthResponse.default false indeterminate with error := error }

/-! ## Email registration (AuthChoiceState.cpp) -/

/-- The method `AuthNetworkManager::CheckEmailExists`: a GET request without body, the email
appended to the endpoint. -/
def AuthNetworkManager.CheckEmailExists (email : String) (m : AuthNetworkManager F) :
    AuthNetworkManager F :=
  m.MakeHttpRequest ("/api/auth/check-email?email=" ++ email) "GET" [] HttpCallback.emailCheck

/-- The data members of `AuthChoiceState` (AuthChoiceState.h) that the email registration
reads or writes.  The manager is created by the constructor and never reset. -/
structure AuthChoiceState (F : Type) where
  m_username : String
  m_email : String
  m_password : String
  m_confirmPassword : String
  m_isLoading : Bool
  m_errorMessage : String
  m_statusMessage : String
  m_authNetworkManager : AuthNetworkManager F

/-- The method `AuthChoiceState::ValidateEmailForm`: the result and the state it leaves.
`std::string::length` counts the chars of the string, the bytes of its UTF-8 text;
`find` of the ASCII char `@` succeeds exactly when the text contains that character. -/
def AuthChoiceState.ValidateEmailForm (s : AuthChoiceState F) : Bool × AuthChoiceState F :=
  if s.m_username.utf8ByteSize < 3 then
    (false, { s with m_errorMessage := "Username must be at least 3 characters long" })
  else if s.m_email.isEmpty || !s.m_email.toList.contains '@' then
    (false, { s with m_errorMessage := "Please enter a valid email address" })
  else if s.m_password.utf8ByteSize < 6 then
    (false, { s with m_errorMessage := "Password must be at least 6 characters long" })
  else if s.m_password != s.m_confirmPassword then
    (false, { s with m_errorMessage := "Passwords do not match" })
  else (true, s)

/-- The method `AuthChoiceState::CheckEmailAndRegister`. -/
def AuthChoiceState.CheckEmailAndRegister (s : AuthChoiceState F) : AuthChoiceState F :=
  let s := { s with m_isLoading := true, m_statusMessage := "Checking email...",
                    m_errorMessage := "" }
  { s with m_authNetworkManager := s.m_authNetworkManager.CheckEmailExists s.m_email }

/-- The method `AuthChoiceState::OnEmailRegister`. -/
def AuthChoiceState.OnEmailRegister (s : AuthChoiceState F) : AuthChoiceState F :=
  let checked := s.ValidateEmailForm
  if checked.1 then checked.2.CheckEmailAndRegister else checked.2

/-! ## Input and menus (PlayState.cpp) -/

/-- The SDL events that `PlayState::HandleEvent` tells apart and that leave the play state in
place: a press of ESC, a mouse motion, and any event it ignores.  (The Q key changes to the
home state.) -/
inductive Event where
  | keyEscape
  | mouseMotion (x y : Int)
  | other
deriving DecidableEq

/-- The method `PlayState::HandleEvent`. -/
def PlayState.HandleEvent (event : Event) (s : PlayState F) : PlayState F :=
  match event with
  | Event.keyEscape =>
    if !s.m_showGameOver then
      let s := { s with m_paused := !s.m_paused }
      { s with m_showPauseMenu := s.m_paused }
    else s
  | Event.mouseMotion x y =>
    if !s.m_showGameOver then { s with m_playerX := (x : F), m_playerY := (y : F) } else s
  | Event.other => s

/-- The buttons of `PlayState::RenderUI` that leave the play state in place: `Resume` and
`Restart Game` of the pause menu, `Continue from Save` and `Restart Game` of the game-over
screen.  (The two `Main Menu` buttons change to the home state.) -/
inductive Button where
  | resume
  | pauseRestart
  | continueFromSave
  | gameOverRestart
deriving DecidableEq

/-- The method `PlayState::RenderUI` as far as it changes the state: `clicked` is the button
for which `ImGui::Button` returns true in this frame, if any. -/
def PlayState.RenderUI (clicked : Option Button) (s : PlayState F) : PlayState F :=
  let s :=
    if s.m_showPauseMenu then
      let s :=
        if clicked = some Button.resume then { s with m_paused := false, m_showPauseMenu := false }
        else s
      if clicked = some Button.pauseRestart then s.RestartGame else s
    else s
  if s.m_showGameOver then
    let s :=
      if s.m_canContinue then
        (if clicked = some Button.continueFromSave then s.RestoreGameState else s)
      else s
    if clicked = some Button.gameOverRestart then s.RestartGame else s
  else s

/-- States reachable from construction by presses of ESC, frames of `RenderUI` with or
without a click on one of its buttons, and frame ticks. -/
inductive UiReachable (sqrt : F → F) : PlayState F → Prop where
  | init : UiReachable sqrt PlayState.init
  | escape (s : PlayState F) : UiReachable sqrt s →
      UiReachable sqrt (s.HandleEvent Event.keyEscape)
  | render (s : PlayState F) (clicked : Option Button) : UiReachable sqrt s →
      UiReachable sqrt (s.RenderUI clicked)
  | tick (s : PlayState F) (deltaTime : F) (d : Draws) : UiReachable sqrt s →
      UiReachable sqrt (s.Update sqrt deltaTime d)

/-- The method `PlayState::OnEnter`: three lines of help, then the start of a session. -/
def PlayState.OnEnter (s : PlayState F) : PlayState F :=
  let s := s.print Line.startingGameplay
  let s := s.print Line.useMouse
  let s := s.print Line.pressEsc
  s.StartGameSession

/-- The method `PlayState::SetAuthToken`, which `HomeState` calls on the new play state before
it enters.  The token goes to the `Impl` of the network manager, into the header of later
requests; the embedding of the manager carries the queue only, so what is left here is the
console line. -/
def PlayState.SetAuthToken (_token : String) (s : PlayState F) : PlayState F :=
  match s.m_authNetworkManager with
  | none => s
  | some _ => s.print Line.authTokenSet

/-- States reachable from construction by the calls that the other game states, the game loop
and the network worker make on the play state: `SetAuthToken`, `OnEnter`, `HandleEvent` with
any event, `Update` with a non-negative frame time, `RenderUI` with or without a click on one
of its buttons, and the delivery of a response to a stored callback.  `Render` draws and
changes no member. -/
inductive GameReachable (sqrt : F → F) (json : String → SessionIdField) :
    PlayState F → Prop where
  | init : GameReachable sqrt json PlayState.init
  | setToken (s : PlayState F) (token : String) : GameReachable sqrt json s →
      GameReachable sqrt json (s.SetAuthToken token)
  | enter (s : PlayState F) : GameReachable sqrt json s → GameReachable sqrt json s.OnEnter
  | event (s : PlayState F) (event : Event) : GameReachable sqrt json s →
      GameReachable sqrt json (s.HandleEvent event)
  | tick (s : PlayState F) (deltaTime : F) (d : Draws) : GameReachable sqrt json s →
      0 ≤ deltaTime → GameReachable sqrt json (s.Update sqrt deltaTime d)
  | render (s : PlayState F) (clicked : Option Button) : GameReachable sqrt json s →
      GameReachable sqrt json (s.RenderUI clicked)
  | response (s : PlayState F) (callback : HttpCallback) (r : HttpResponse) :
      GameReachable sqrt json s → GameReachable sqrt json (callback.run json r s)

/-! ## The point system in 32-bit float arithmetic -/

/-- Round to the nearest integer, a tie to the even one. -/
def roundEven (y : F) : Int :=
  let f := Int.floor y
  if y - f < 1 / 2 then f
  else if 1 / 2 < y - f then f + 1
  else if f % 2 = 0 then f else f + 1

/-- The spacing of the binary32 numbers around `x`, for `x` of the normal range: `2 ^ (e - 23)`
where `2 ^ e <= x < 2 ^ (e + 1)`, found by halving or doubling `x` into `[1, 2)` in at most
`fuel` steps. -/
def ulp32 : Nat → F → F
  | 0, _ => 1 / 2 ^ 23
  | fuel + 1, x =>
    if 2 ≤ x then 2 * ulp32 fuel (x / 2)
    else if x < 1 then ulp32 fuel (2 * x) / 2
    else 1 / 2 ^ 23

/-- Rounding to the nearest binary32 number, a tie to the even mantissa; below `2 ^ (-126)`
the spacing is that of the subnormal numbers, `2 ^ (-149)`.  Overflow is not modelled. -/
def roundF32 (x : F) : F :=
  let q := max (ulp32 200 |x|) (1 / 2 ^ 149)
  q * (roundEven (x / q) : F)

/-- The float sum `a + b` of two floats: the exact sum rounded; adding zero leaves `a` as it
is. -/
def fadd32 (a b : F) : F :=
  if b = 0 then a else roundF32 (a + b)

/-- The method `PlayState::UpdatePointSystem` with the rounding of its three float additions
explicit; the thresholds 0.5, 1 and 5 are binary32 numbers. -/
def PlayState.UpdatePointSystem32 (deltaTime : F) (s : PlayState F) : PlayState F :=
  let s : PlayState F := { s with
    m_leaderboardTimer := fadd32 s.m_leaderboardTimer deltaTime
    m_skillPointTimer := fadd32 s.m_skillPointTimer deltaTime
    m_saveTimer := fadd32 s.m_saveTimer deltaTime }
  let s : PlayState F :=
    if s.m_leaderboardTimer ≥ 1 / 2 then
      let s := { s with m_leaderboardPoints := s.m_leaderboardPoints + 1, m_leaderboardTimer := 0 }
      s.print (Line.leaderboardPoints s.m_leaderboardPoints)
    else s
  let s : PlayState F :=
    if s.m_skillPointTimer ≥ 1 then
      let s := { s with m_skillPoints := s.m_skillPoints + 1, m_skillPointTimer := 0 }
      s.print (Line.skillPoints s.m_skillPoints)
    else s
  if s.m_saveTimer ≥ 5 then
    let s := s.SaveProgressToServer
    let s := s.SaveGameState
    { s with m_saveTimer := 0 }
  else s

/-- Lines 162-166 of `PlayState::Update` with the rounding of the float additions explicit:
advance the game time, run the point system. -/
def PlayState.accrue32 (deltaTime : F) (s : PlayState F) : PlayState F :=
  let s := { s with m_gameTime := fadd32 s.m_gameTime deltaTime }
  s.UpdatePointSystem32 deltaTime

/-- A run of unpaused ticks as the point system sees it in float arithmetic: `accrue32` once
per frame time. -/
def PlayState.accrueAll32 (deltas : List F) (s : PlayState F) : PlayState F :=
  deltas.foldl (fun s deltaTime => s.accrue32 deltaTime) s

/-- The method `PlayState::Update` with the rounding of the float additions of lines 162-166
explicit (`accrue32` for `accrue`).  The steps after them are those of `Update`; they write
neither the game time nor the timers and totals of the point system. -/
def PlayState.Update32 (sqrt : F → F) (deltaTime : F) (d : Draws) (s : PlayState F) :
    PlayState F :=
  if s.m_paused || s.m_showGameOver then s.pollNetwork
  else
    let s := s.pollNetwork
    let s := s.accrue32 deltaTime
    let s := s.spawn d
    let s := s.UpdateEnemies sqrt deltaTime
    let s := s.UpdatePowerUps deltaTime
    let s := s.CheckCollisions sqrt
    s.settle

/-- A run of frame ticks with float accrual: `Update32` once per frame. -/
def PlayState.run32 (sqrt : F → F) (frames : List (F × Draws)) (s : PlayState F) :
    PlayState F :=
  frames.foldl (fun s frame => s.Update32 sqrt frame.1 frame.2) s

/-- Every tick of the run with float accrual starts unpaused and not game over. -/
def PlayState.allActive32 (sqrt : F → F) : List (F × Draws) → PlayState F → Prop
  | [], _ => True
  | frame :: rest, s =>
    s.m_paused = false ∧ s.m_showGameOver = false ∧
      PlayState.allActive32 sqrt rest (s.Update32 sqrt frame.1 frame.2)

end Model

/-- The point `(x, y)` of the Euclidean plane. -/
def point (x y : ℝ) : EuclideanSpace ℝ (Fin 2) := ![x, y]

/-- A fresh game whose session the server has acknowledged under the identifier `abc`. -/
def activeExample {F : Type} [LinearOrderedField F] : PlayState F :=
  { (PlayState.init : PlayState F) with m_sessionStarted := true, m_sessionId := "abc" }

/-- A game with one active power-up right under the cursor. -/
def pickupExample {F : Type} [LinearOrderedField F] : PlayState F :=
  { (PlayState.init : PlayState F) with
    m_powerUps := [{ x := 640, y := 360, active := true, type := 0, pulseTime := 0 }] }

/-- No `rand()` result matters: all draws zero. -/
def Draws.zero : Draws := ⟨0, 0, 0, 0, 0, 0, 0, 0⟩

/-- A JSON library for the examples: it finds the identifier `abc` in the first body below,
the empty identifier in the second, and rejects every other body. -/
def exampleJson (data : String) : SessionIdField :=
  if data = "\x7b\"sessionId\":\"abc\"\x7d" then SessionIdField.str "abc"
  else if data = "\x7b\"sessionId\":\"\"\x7d" then SessionIdField.str ""
  else SessionIdField.invalid

/-- The body of a start-session answer that carries the identifier `abc`. -/
def bodyAbc : String := "\x7b\"sessionId\":\"abc\"\x7d"

/-- The body of a start-session answer that carries an empty identifier. -/
def bodyEmptyId : String := "\x7b\"sessionId\":\"\"\x7d"

/-- A restart that races its own requests: the game starts and the server acknowledges session
`abc`; the player restarts, which enqueues the end of `abc` and the start of a new session;
two frames dispatch both; the answer to the start request comes back first and is an HTTP 500,
while the end request is still in flight. -/
def raceExample : PlayState ℚ :=
  let s : PlayState ℚ := PlayState.init
  let s := s.StartGameSession
  let s := s.Update Rat.sqrt (1 / 100) Draws.zero
  let s := HttpCallback.startSession.run exampleJson
    (AuthNetworkManager.httpResponseOf 0 (CurlResult.ok 200 bodyAbc)) s
  let s := s.RestartGame
  let s := s.Update Rat.sqrt (1 / 100) Draws.zero
  let s := s.Update Rat.sqrt (1 / 100) Draws.zero
  HttpCallback.startSession.run exampleJson
    (AuthNetworkManager.httpResponseOf 0 (CurlResult.ok 500 "")) s

/-- A fresh game that has no network manager. -/
def offlineExample {F : Type} [LinearOrderedField F] : PlayState F :=
  { (PlayState.init : PlayState F) with m_authNetworkManager := none }

/-- A fresh game that the player has paused. -/
def pausedExample {F : Type} [LinearOrderedField F] : PlayState F :=
  { (PlayState.init : PlayState F) with m_paused := true, m_showPauseMenu := true }

/-- A JSON parser for the examples: it reads the body `errorBody` below as an object whose
`success` member is true and whose `error` member is the string `taken`, and rejects every
other body. -/
def exampleParse (data : String) : Option Json :=
  if data = "\x7b\"success\":true,\"error\":\"taken\"\x7d" then
    some (Json.object [("success", Json.boolean true), ("error", Json.string "taken")])
  else none

/-- Half a second into a game, one enemy 6 units from the cursor and flying at it at about
100 units per second. -/
def collidingExample : PlayState ℚ :=
  { (PlayState.init : PlayState ℚ) with
    m_gameTime := 1 / 2
    m_enemies := [{ x := 3218 / 5, y := 1824 / 5, vx := -1497 / 25, vy := -1996 / 25,
                    type := 0, active := true, size := 20 }] }

/-- The registration form filled in correctly, nothing queued. -/
def filledForm : AuthChoiceState ℚ :=
  { m_username := "alice", m_email := "alice@example.org", m_password := "secret1",
    m_confirmPassword := "secret1", m_isLoading := false, m_errorMessage := "",
    m_statusMessage := "", m_authNetworkManager := AuthNetworkManager.empty }

/-- The registration form with a confirmation that differs from the password. -/
def mismatchedForm : AuthChoiceState ℚ :=
  { filledForm with m_confirmPassword := "secret2" }

/-- A fresh game; the player presses ESC, then clicks `Restart Game` in the pause menu. -/
def menuRestartExample : PlayState ℚ :=
  ((PlayState.init : PlayState ℚ).HandleEvent Event.keyEscape).RenderUI
    (some Button.pauseRestart)

/-- The draws that spawn an enemy of type 0 at the top edge above `x = 640`, flying straight
down at 59 units per second. -/
def hitDraws : Draws := ⟨0, 0, 640, 50, 9, 0, 0, 0⟩

/-- A game that is about to be lost: the play state gets its token and is entered, the player
holds the cursor at the top edge at `(640, 0)` and plays thirteen frames of 50 ms, in which
two enemies spawn right above the cursor and hit it. -/
def lastLifeExample : PlayState ℚ :=
  ((((PlayState.init : PlayState ℚ).SetAuthToken "token").OnEnter).HandleEvent
    (Event.mouseMotion 640 0)).run Rat.sqrt (List.replicate 13 (1 / 20, hitDraws))

/-- The frame time `20 / 1000.0f` of a frame of 20 ms, as `Game::CalculateDeltaTime` computes
it. -/
def frame20ms : ℚ := roundF32 (20 / 1000)

/-! # Properties -/

section Lemmas

variable {F : Type} [LinearOrderedField F] [FloorRing F]

theorem toInt_of_nonneg {x : F} (h : 0 ≤ x) : toInt x = Int.floor x := by
  simp [toInt, h]

theorem euclid_dist (x1 y1 x2 y2 : ℝ) :
    dist (point x1 y1) (point x2 y2)
      = Real.sqrt ((x1 - x2) * (x1 - x2) + (y1 - y2) * (y1 - y2)) := by
  rw [EuclideanSpace.dist_eq]
  simp [Fin.sum_univ_two, sq, point, Real.dist_eq, abs_mul_abs_self]

theorem sqrt_of_square {a b : ℝ} (hb : 0 ≤ b) (h : a = b ^ 2) : Real.sqrt a = b := by
  rw [h]; exact Real.sqrt_sq hb

end Lemmas

/-! ## Collision test -/

/-- C5: over the reals `CircleCollision` holds exactly when the Euclidean distance of the two
centres is strictly below the sum of the radii; the player at (100,100) with radius 8 hits
the enemy at (105,100) with radius 10 and misses the one at (130,100); two circles at distance
exactly `r1 + r2` (centres (0,0) and (3,4), radii 2 and 3) do not collide. -/
theorem circleCollision_iff_dist_lt (x1 y1 r1 x2 y2 r2 : ℝ) :
    (CircleCollision Real.sqrt x1 y1 r1 x2 y2 r2 = true ↔
      dist (point x1 y1) (point x2 y2) < r1 + r2) ∧
    CircleCollision Real.sqrt (100 : ℝ) 100 8 105 100 10 = true ∧
    CircleCollision Real.sqrt (100 : ℝ) 100 8 130 100 10 = false ∧
    CircleCollision Real.sqrt (0 : ℝ) 0 2 3 4 3 = false := by
  refine ⟨?_, ?_, ?_, ?_⟩
  · rw [euclid_dist]; simp [CircleCollision]
  · have h : Real.sqrt ((100 - 105) * (100 - 105) + (100 - 100) * (100 - 100)) = 5 :=
      sqrt_of_square (by norm_num) (by norm_num)
    simp only [CircleCollision, h]; norm_num
  · have h : Real.sqrt ((100 - 130) * (100 - 130) + (100 - 100) * (100 - 100)) = 30 :=
      sqrt_of_square (by norm_num) (by norm_num)
    simp only [CircleCollision, h]; norm_num
  · have h : Real.sqrt ((0 - 3) * (0 - 3) + (0 - 4) * (0 - 4)) = 5 :=
      sqrt_of_square (by norm_num) (by norm_num)
    simp only [CircleCollision, h]; norm_num

/-! ## Session end -/

section Session

variable {F : Type} [LinearOrderedField F] [FloorRing F]

theorem isEmpty_empty : ("" : String).isEmpty = true := rfl

theorem endGameSession_of_inactive (s : PlayState F)
    (h : s.m_sessionStarted = false ∨ s.m_sessionId = "" ∨ s.m_authNetworkManager = none) :
    s.EndGameSession = s.print Line.noActiveSession := by
  unfold PlayState.EndGameSession
  cases hm : s.m_authNetworkManager with
  | none => rfl
  | some m =>
    rcases h with h | h | h
    · simp [h]
    · simp [h, isEmpty_empty]
    · simp [hm] at h

theorem saveProgressToServer_of_inactive (s : PlayState F)
    (h : s.m_sessionStarted = false ∨ s.m_sessionId = "" ∨ s.m_authNetworkManager = none) :
    s.SaveProgressToServer = s.print Line.cannotSaveProgress := by
  unfold PlayState.SaveProgressToServer
  cases hm : s.m_authNetworkManager with
  | none => rfl
  | some m =>
    rcases h with h | h | h
    · simp [h]
    · simp [h, isEmpty_empty]
    · simp [hm] at h

theorem onEndSessionResponse_noSession (response : HttpResponse) (s : PlayState F) :
    (s.onEndSessionResponse response).NoSession := by
  unfold PlayState.onEndSessionResponse PlayState.NoSession
  exact ⟨rfl, rfl⟩

theorem onEndSessionResponse_manager (response : HttpResponse) (s : PlayState F) :
    (s.onEndSessionResponse response).m_authNetworkManager = s.m_authNetworkManager := by
  unfold PlayState.onEndSessionResponse PlayState.print
  split <;> rfl

theorem endGameSession_queued_of_active (s : PlayState F) (m : AuthNetworkManager F)
    (hm : s.m_authNetworkManager = some m) (hs : s.m_sessionStarted = true)
    (hid : s.m_sessionId ≠ "") :
    s.EndGameSession.queued = s.queued ++
      [{ url := "/api/game/session/end", method := "POST",
         body := [("sessionId", JVal.str s.m_sessionId), ("finalScore", JVal.int s.m_score),
           ("leaderboardPointsEarned", JVal.int s.m_leaderboardPoints),
           ("skillPointsEarned", JVal.int s.m_skillPoints),
           ("survivalTime", JVal.num s.m_gameTime),
           ("kills", JVal.int 0), ("damageDealt", JVal.int 0),
           ("damageTaken", JVal.int ((3 - s.m_lives) * 100)),
           ("waveReached", JVal.int (toInt (s.m_gameTime / 30) + 1)),
           ("endReason", JVal.str "player_death")],
         httpCallback := some HttpCallback.endSession, isAuthRequest := false }] := by
  have hid' : s.m_sessionId.isEmpty = false := by
    rw [Bool.eq_false_iff]; intro h; exact hid ((String.isEmpty_iff _).1 h)
  simp [PlayState.EndGameSession, hm, hs, hid', PlayState.queued, PlayState.print,
    AuthNetworkManager.EndGameSession, AuthNetworkManager.MakeHttpRequest]

/-- C8: when `EndGameSession` finds an active session it enqueues one request, for
`/api/game/session/end`, whose stored callback is the end-session handler, and that handler,
run on any response at all and in whatever state the game then is, leaves `m_sessionStarted`
false and `m_sessionId` empty. -/
theorem endSession_handler_always_clears (json : String → SessionIdField) (s : PlayState F)
    (m : AuthNetworkManager F) (hm : s.m_authNetworkManager = some m)
    (hs : s.m_sessionStarted = true) (hid : s.m_sessionId ≠ "") :
    ∃ (request : AuthRequest F) (callback : HttpCallback),
      s.EndGameSession.queued = s.queued ++ [request] ∧
      request.url = "/api/game/session/end" ∧
      request.httpCallback = some callback ∧
      ∀ (response : HttpResponse) (st : PlayState F),
        (callback.run json response st).m_sessionStarted = false ∧
        (callback.run json response st).m_sessionId = "" := by
  refine ⟨_, HttpCallback.endSession, endGameSession_queued_of_active s m hm hs hid, rfl, rfl, ?_⟩
  intro response st
  exact onEndSessionResponse_noSession response st

/-- Witness of C8: the acknowledged session `abc`, a JSON library that rejects every body. -/
theorem endSession_handler_always_clears_witness :
    ∃ (request : AuthRequest ℚ) (callback : HttpCallback),
      (activeExample : PlayState ℚ).EndGameSession.queued
        = (activeExample : PlayState ℚ).queued ++ [request] ∧
      request.url = "/api/game/session/end" ∧
      request.httpCallback = some callback ∧
      ∀ (response : HttpResponse) (st : PlayState ℚ),
        (callback.run (fun _ => SessionIdField.invalid) response st).m_sessionStarted
          = false ∧
        (callback.run (fun _ => SessionIdField.invalid) response st).m_sessionId
          = "" :=
  endSession_handler_always_clears (fun _ => SessionIdField.invalid) activeExample
    { requestQueue := [], dispatched := [] } rfl rfl (by decide)

/-- C9, as stated, fails: with an acknowledged session, `EndGameSession` called twice in a row
leaves the session started under its identifier after the first call and after the second,
and two end-session requests wait in the queue. -/
theorem endGameSession_twice_not_noSession :
    ¬ (activeExample : PlayState ℚ).EndGameSession.NoSession ∧
    ¬ (activeExample : PlayState ℚ).EndGameSession.EndGameSession.NoSession ∧
    ((activeExample : PlayState ℚ).EndGameSession.EndGameSession.queued.map
      (fun request => request.url)) = ["/api/game/session/end", "/api/game/session/end"] := by
  refine ⟨?_, ?_, ?_⟩
  · intro h; have h1 := h.1; revert h1; decide
  · intro h; have h1 := h.1; revert h1; decide
  · decide

/-- C9, amended: from any state, once the end-session handler has run on the response to the
first `EndGameSession` the session is `NoSession`, and the second `EndGameSession` then
enqueues nothing and leaves it `NoSession`; from `NoSession`, both calls leave `NoSession`. -/
theorem endGameSession_twice_after_response (s : PlayState F) (response : HttpResponse) :
    ((s.EndGameSession.onEndSessionResponse response).NoSession ∧
      (s.EndGameSession.onEndSessionResponse response).EndGameSession.NoSession ∧
      (s.EndGameSession.onEndSessionResponse response).EndGameSession.queued
        = s.EndGameSession.queued) ∧
    (s.NoSession → s.EndGameSession.NoSession ∧ s.EndGameSession.EndGameSession.NoSession) := by
  have key : ∀ t : PlayState F, t.NoSession →
      t.EndGameSession = t.print Line.noActiveSession := fun t ht =>
    endGameSession_of_inactive t (Or.inl ht.1)
  have h0 := onEndSessionResponse_noSession response s.EndGameSession
  refine ⟨⟨h0, ?_, ?_⟩, ?_⟩
  · rw [key _ h0]
    exact h0
  · rw [key _ h0]
    unfold PlayState.queued
    rw [show (PlayState.print Line.noActiveSession
      (s.EndGameSession.onEndSessionResponse response)).m_authNetworkManager
        = s.EndGameSession.m_authNetworkManager from
      onEndSessionResponse_manager response s.EndGameSession]
  · intro h
    have h1 : s.EndGameSession.NoSession := by rw [key s h]; exact h
    refine ⟨h1, ?_⟩
    rw [key _ h1]; exact h1

/-- Witness of C9 amended: the fresh game, which has no session, and a failed response. -/
theorem endGameSession_twice_after_response_witness :
    (PlayState.init : PlayState ℚ).EndGameSession.NoSession ∧
    (PlayState.init : PlayState ℚ).EndGameSession.EndGameSession.NoSession :=
  (endGameSession_twice_after_response (PlayState.init : PlayState ℚ)
    { success := false, statusCode := 500, data := "", error := "HTTP 500" }).2 ⟨rfl, rfl⟩

/-- C10: without an active session (not started, or no identifier, or no network manager)
`EndGameSession` and `SaveProgressToServer` change no data member of the play state, they only
print their notice, and the request queue is as it was. -/
theorem no_active_session_calls_do_nothing (s : PlayState F)
    (h : s.m_sessionStarted = false ∨ s.m_sessionId = "" ∨ s.m_authNetworkManager = none) :
    s.EndGameSession = { s with console := s.console ++ [Line.noActiveSession] } ∧
    s.SaveProgressToServer = { s with console := s.console ++ [Line.cannotSaveProgress] } ∧
    s.EndGameSession.queued = s.queued ∧
    s.SaveProgressToServer.queued = s.queued := by
  rw [endGameSession_of_inactive s h, saveProgressToServer_of_inactive s h]
  exact ⟨rfl, rfl, rfl, rfl⟩

/-- Witness of C10: the fresh game, whose session has not started. -/
theorem no_active_session_calls_do_nothing_witness :
    (PlayState.init : PlayState ℚ).EndGameSession
      = { (PlayState.init : PlayState ℚ) with console := [Line.noActiveSession] } ∧
    (PlayState.init : PlayState ℚ).SaveProgressToServer
      = { (PlayState.init : PlayState ℚ) with console := [Line.cannotSaveProgress] } ∧
    (PlayState.init : PlayState ℚ).EndGameSession.queued = [] ∧
    (PlayState.init : PlayState ℚ).SaveProgressToServer.queued = [] :=
  no_active_session_calls_do_nothing (PlayState.init : PlayState ℚ) (Or.inl rfl)

end Session

/-! ## Frame lemmas of the tick -/

section Frames

variable {F : Type} [LinearOrderedField F] [FloorRing F]

theorem endGameSession_frame (s : PlayState F) :
    ∃ m c, s.EndGameSession = { s with m_authNetworkManager := m, console := c } := by
  unfold PlayState.EndGameSession
  split
  · exact ⟨_, _, rfl⟩
  · split
    · exact ⟨_, _, rfl⟩
    · exact ⟨_, _, rfl⟩

theorem saveProgressToServer_frame (s : PlayState F) :
    ∃ m l, s.SaveProgressToServer
        = { s with m_authNetworkManager := m, console := s.console ++ [l] } ∧
      l.isSave = false ∧ l.isLeaderboardFire = false ∧ l.isSkillFire = false ∧
      l.isPickup = false := by
  unfold PlayState.SaveProgressToServer
  split
  · exact ⟨_, _, rfl, rfl, rfl, rfl, rfl⟩
  · split
    · exact ⟨_, _, rfl, rfl, rfl, rfl, rfl⟩
    · exact ⟨_, _, rfl, rfl, rfl, rfl, rfl⟩

theorem checkEnemies_frame (sqrt : F → F) (l : List (Enemy F)) (s : PlayState F) :
    ∃ e n c, checkEnemies sqrt s l = { s with m_enemies := e, m_lives := n, console := c } ∧
      e.length = l.length := by
  induction l generalizing s with
  | nil => exact ⟨_, _, _, rfl, rfl⟩
  | cons enemy rest ih =>
    unfold checkEnemies
    split
    · obtain ⟨e, n, c, h, hl⟩ := ih s
      exact ⟨enemy :: e, n, c, by simp only [h], by simp [hl]⟩
    · split
      · obtain ⟨e, n, c, h, hl⟩ := ih
          (PlayState.print (Line.hitByEnemy (s.m_lives - 1)) { s with m_lives := s.m_lives - 1 })
        exact ⟨{ enemy with active := false } :: e, n, c, by simp only [h]; rfl, by simp [hl]⟩
      · obtain ⟨e, n, c, h, hl⟩ := ih s
        exact ⟨enemy :: e, n, c, by simp only [h], by simp [hl]⟩

theorem checkPowerUps_frame (sqrt : F → F) (l : List (PowerUp F)) (s : PlayState F) :
    ∃ p n c, checkPowerUps sqrt s l = { s with m_powerUps := p, m_score := n, console := c } := by
  induction l generalizing s with
  | nil => exact ⟨_, _, _, rfl⟩
  | cons powerUp rest ih =>
    unfold checkPowerUps
    split
    · obtain ⟨p, n, c, h⟩ := ih s
      exact ⟨powerUp :: p, n, c, by simp only [h]⟩
    · split
      · obtain ⟨p, n, c, h⟩ := ih
          (PlayState.print (Line.powerUpCollected (s.m_score + 50))
            { s with m_score := s.m_score + 50 })
        exact ⟨{ powerUp with active := false } :: p, n, c, by simp only [h]; rfl⟩
      · obtain ⟨p, n, c, h⟩ := ih s
        exact ⟨powerUp :: p, n, c, by simp only [h]⟩

theorem checkCollisions_frame (sqrt : F → F) (s : PlayState F) :
    ∃ e n p k c, s.CheckCollisions sqrt
        = { s with m_enemies := e, m_lives := n, m_powerUps := p, m_score := k, console := c } ∧
      e.length = s.m_enemies.length := by
  obtain ⟨e, n, c, h, hl⟩ := checkEnemies_frame sqrt s.m_enemies s
  obtain ⟨p, k, c2, h2⟩ := checkPowerUps_frame sqrt (checkEnemies sqrt s s.m_enemies).m_powerUps
    (checkEnemies sqrt s s.m_enemies)
  refine ⟨e, n, p.filter (fun q => q.active), k, c2, ?_, hl⟩
  unfold PlayState.CheckCollisions
  simp only [h2]
  simp only [h]

theorem updatePointSystem_frame (deltaTime : F) (s : PlayState F) :
    ∃ m c, s.UpdatePointSystem deltaTime = { s with
        m_leaderboardTimer :=
          if 1 / 2 ≤ s.m_leaderboardTimer + deltaTime then 0 else s.m_leaderboardTimer + deltaTime
        m_leaderboardPoints :=
          if 1 / 2 ≤ s.m_leaderboardTimer + deltaTime then s.m_leaderboardPoints + 1
          else s.m_leaderboardPoints
        m_skillPointTimer :=
          if 1 ≤ s.m_skillPointTimer + deltaTime then 0 else s.m_skillPointTimer + deltaTime
        m_skillPoints :=
          if 1 ≤ s.m_skillPointTimer + deltaTime then s.m_skillPoints + 1 else s.m_skillPoints
        m_saveTimer := if 5 ≤ s.m_saveTimer + deltaTime then 0 else s.m_saveTimer + deltaTime
        m_savedGameTime :=
          if 5 ≤ s.m_saveTimer + deltaTime then s.m_gameTime else s.m_savedGameTime
        m_savedScore := if 5 ≤ s.m_saveTimer + deltaTime then s.m_score else s.m_savedScore
        m_savedLeaderboardPoints :=
          if 5 ≤ s.m_saveTimer + deltaTime then
            (if 1 / 2 ≤ s.m_leaderboardTimer + deltaTime then s.m_leaderboardPoints + 1
             else s.m_leaderboardPoints)
          else s.m_savedLeaderboardPoints
        m_savedSkillPoints :=
          if 5 ≤ s.m_saveTimer + deltaTime then
            (if 1 ≤ s.m_skillPointTimer + deltaTime then s.m_skillPoints + 1 else s.m_skillPoints)
          else s.m_savedSkillPoints
        m_savedEnemies := if 5 ≤ s.m_saveTimer + deltaTime then s.m_enemies else s.m_savedEnemies
        m_savedPowerUps :=
          if 5 ≤ s.m_saveTimer + deltaTime then s.m_powerUps else s.m_savedPowerUps
        m_authNetworkManager := m
        console := c } ∧
      c.countP Line.isLeaderboardFire = s.console.countP Line.isLeaderboardFire
        + (if 1 / 2 ≤ s.m_leaderboardTimer + deltaTime then 1 else 0) ∧
      c.countP Line.isSkillFire = s.console.countP Line.isSkillFire
        + (if 1 ≤ s.m_skillPointTimer + deltaTime then 1 else 0) ∧
      c.countP Line.isSave = s.console.countP Line.isSave
        + (if 5 ≤ s.m_saveTimer + deltaTime then 1 else 0) ∧
      c.countP Line.isPickup = s.console.countP Line.isPickup := by
  unfold PlayState.UpdatePointSystem
  by_cases h1 : 1 / 2 ≤ s.m_leaderboardTimer + deltaTime <;>
  by_cases h2 : 1 ≤ s.m_skillPointTimer + deltaTime <;>
  by_cases h3 : 5 ≤ s.m_saveTimer + deltaTime <;>
  simp only [ge_iff_le, h1, h2, h3, if_true, if_false, PlayState.print, PlayState.SaveGameState,
    PlayState.SaveProgressToServer]
  all_goals first
    | refine ⟨_, _, rfl, ?_, ?_, ?_, ?_⟩ <;>
        simp [List.countP_append, Line.isLeaderboardFire, Line.isSkillFire, Line.isSave,
          Line.isPickup]
    | (split
       · refine ⟨_, _, rfl, ?_, ?_, ?_, ?_⟩ <;>
           simp [List.countP_append, Line.isLeaderboardFire, Line.isSkillFire, Line.isSave,
             Line.isPickup]
       · split
         · refine ⟨_, _, rfl, ?_, ?_, ?_, ?_⟩ <;>
             simp [List.countP_append, Line.isLeaderboardFire, Line.isSkillFire, Line.isSave,
               Line.isPickup]
         · refine ⟨_, _, rfl, ?_, ?_, ?_, ?_⟩ <;>
             simp [List.countP_append, Line.isLeaderboardFire, Line.isSkillFire, Line.isSave,
               Line.isPickup])

theorem settle_frame (s : PlayState F) :
    ∃ g k m c, s.settle = { s with
      m_score :=
        toInt (s.m_gameTime * 25) + (s.m_enemies.length : Int) * 10 + s.m_leaderboardPoints * 2
      m_showGameOver := g
      m_canContinue := k
      m_authNetworkManager := m
      console := c } := by
  unfold PlayState.settle
  simp only []
  split
  · obtain ⟨m, c, h⟩ := endGameSession_frame { s with
      m_score :=
        toInt (s.m_gameTime * 25) + (s.m_enemies.length : Int) * 10 + s.m_leaderboardPoints * 2
      m_showGameOver := true
      m_canContinue := decide (s.m_savedGameTime > 0) }
    simp only [h, PlayState.print]
    split
    · exact ⟨_, _, _, _, rfl⟩
    · exact ⟨_, _, _, _, rfl⟩
  · exact ⟨_, _, _, _, rfl⟩

theorem update_of_active (sqrt : F → F) (deltaTime : F) (d : Draws) (s : PlayState F)
    (hp : s.m_paused = false) (hg : s.m_showGameOver = false) :
    s.Update sqrt deltaTime d
      = ((((s.pollNetwork.accrue deltaTime).spawn d).UpdateEnemies sqrt deltaTime).UpdatePowerUps
          deltaTime |>.CheckCollisions sqrt).settle := by
  simp [PlayState.Update, hp, hg]

theorem update_of_inactive (sqrt : F → F) (deltaTime : F) (d : Draws) (s : PlayState F)
    (h : s.m_paused = true ∨ s.m_showGameOver = true) :
    s.Update sqrt deltaTime d = s.pollNetwork := by
  rcases h with h | h <;> simp [PlayState.Update, h]

theorem spawn_frame (d : Draws) (s : PlayState F) :
    s.spawn d = { s with
      m_enemies :=
        if intGtSize (toInt (s.m_gameTime * 2)) s.m_enemies.length then
          (s.SpawnEnemies d).m_enemies
        else s.m_enemies
      m_powerUps :=
        if intGtSize (toInt (s.m_gameTime / 5)) s.m_powerUps.length then
          (s.SpawnPowerUps d).m_powerUps
        else s.m_powerUps } := by
  unfold PlayState.spawn
  by_cases h1 : intGtSize (toInt (s.m_gameTime * 2)) s.m_enemies.length = true <;>
  by_cases h2 : intGtSize (toInt (s.m_gameTime / 5)) s.m_powerUps.length = true <;>
  simp [h1, h2, PlayState.SpawnEnemies, PlayState.SpawnPowerUps]

theorem updateEnemies_length_le (sqrt : F → F) (deltaTime : F) (s : PlayState F) :
    (s.UpdateEnemies sqrt deltaTime).m_enemies.length ≤ s.m_enemies.length := by
  unfold PlayState.UpdateEnemies
  simp only []
  exact (List.length_filter_le _ _).trans (by simp)

theorem update_active_frame (sqrt : F → F) (deltaTime : F) (d : Draws) (s : PlayState F)
    (hp : s.m_paused = false) (hg : s.m_showGameOver = false) :
    ∃ e p n k g b m c, s.Update sqrt deltaTime d = { s.pollNetwork.accrue deltaTime with
        m_enemies := e, m_powerUps := p, m_lives := n, m_score := k, m_showGameOver := g,
        m_canContinue := b, m_authNetworkManager := m, console := c } ∧
      e.length ≤ ((s.pollNetwork.accrue deltaTime).spawn d).m_enemies.length := by
  obtain ⟨g, k, m, c, h⟩ := settle_frame
    ((((s.pollNetwork.accrue deltaTime).spawn d).UpdateEnemies sqrt deltaTime).UpdatePowerUps
        deltaTime |>.CheckCollisions sqrt)
  obtain ⟨e, n, p, k2, c2, h2, hl⟩ := checkCollisions_frame sqrt
    ((((s.pollNetwork.accrue deltaTime).spawn d).UpdateEnemies sqrt deltaTime).UpdatePowerUps
        deltaTime)
  have hlen : e.length ≤ ((s.pollNetwork.accrue deltaTime).spawn d).m_enemies.length := by
    rw [hl]
    exact updateEnemies_length_le sqrt deltaTime ((s.pollNetwork.accrue deltaTime).spawn d)
  refine ⟨e, p, n, (s.Update sqrt deltaTime d).m_score, g, k, m, c, ?_, hlen⟩
  rw [update_of_active sqrt deltaTime d s hp hg, h, h2, spawn_frame]
  rfl

theorem startGameSession_frame (s : PlayState F) :
    ∃ m c, s.StartGameSession = { s with m_authNetworkManager := m, console := c } := by
  unfold PlayState.StartGameSession
  split
  · exact ⟨_, _, rfl⟩
  · exact ⟨_, _, rfl⟩

theorem callback_frame (json : String → SessionIdField) (callback : HttpCallback)
    (r : HttpResponse) (s : PlayState F) :
    ∃ i b c, callback.run json r s
      = { s with m_sessionId := i, m_sessionStarted := b, console := c } := by
  cases callback
  · simp only [HttpCallback.run, PlayState.onStartSessionResponse]
    split
    · split <;> exact ⟨_, _, _, rfl⟩
    · exact ⟨_, _, _, rfl⟩
  · simp only [HttpCallback.run, PlayState.onSaveProgressResponse]
    split <;> exact ⟨_, _, _, rfl⟩
  · simp only [HttpCallback.run, PlayState.onEndSessionResponse]
    split <;> exact ⟨_, _, _, rfl⟩
  · exact ⟨_, _, _, rfl⟩

theorem restartGame_frame (s : PlayState F) :
    (s.RestartGame).m_gameTime = 0 ∧ (s.RestartGame).m_savedGameTime = 0 ∧
    (s.RestartGame).m_enemies = [] ∧ (s.RestartGame).m_savedEnemies = [] := by
  unfold PlayState.RestartGame
  simp only []
  split
  · obtain ⟨m, c, h⟩ := endGameSession_frame s
    obtain ⟨m2, c2, h2⟩ := startGameSession_frame (PlayState.print Line.gameRestarted
      { s.EndGameSession with
        m_gameTime := 0, m_score := 0, m_lives := 3, m_leaderboardPoints := 0,
        m_skillPoints := 0, m_leaderboardTimer := 0, m_skillPointTimer := 0, m_saveTimer := 0,
        m_enemies := [], m_powerUps := [], m_savedGameTime := 0, m_savedScore := 0,
        m_savedLeaderboardPoints := 0, m_savedSkillPoints := 0, m_savedEnemies := [],
        m_savedPowerUps := [], m_showGameOver := false, m_paused := false,
        m_canContinue := false })
    rw [h2]
    exact ⟨rfl, rfl, rfl, rfl⟩
  · obtain ⟨m2, c2, h2⟩ := startGameSession_frame (PlayState.print Line.gameRestarted
      { s with
        m_gameTime := 0, m_score := 0, m_lives := 3, m_leaderboardPoints := 0,
        m_skillPoints := 0, m_leaderboardTimer := 0, m_skillPointTimer := 0, m_saveTimer := 0,
        m_enemies := [], m_powerUps := [], m_savedGameTime := 0, m_savedScore := 0,
        m_savedLeaderboardPoints := 0, m_savedSkillPoints := 0, m_savedEnemies := [],
        m_savedPowerUps := [], m_showGameOver := false, m_paused := false,
        m_canContinue := false })
    rw [h2]
    exact ⟨rfl, rfl, rfl, rfl⟩

end Frames

/-! ## Score -/

section Score

variable {F : Type} [LinearOrderedField F] [FloorRing F]

/-- C2, the code at the failing input: the cursor sits on an active power-up and a 10 ms tick
runs.  The pickup happens (one `Power-up collected! Score: 50` message, the power-up is gone)
but the score after the tick is `floor(0.01 * 25) + 10 * 0 + 2 * 0 = 0`: the 50 points of
`CheckCollisions` are overwritten by the recomputation at line 186. -/
theorem pickup_bonus_is_overwritten :
    ((pickupExample : PlayState ℚ).Update Rat.sqrt (1 / 100) Draws.zero).console
      = [Line.powerUpCollected 50] ∧
    ((pickupExample : PlayState ℚ).Update Rat.sqrt (1 / 100) Draws.zero).m_powerUps = [] ∧
    ((pickupExample : PlayState ℚ).Update Rat.sqrt (1 / 100) Draws.zero).m_gameTime = 1 / 100 ∧
    ((pickupExample : PlayState ℚ).Update Rat.sqrt (1 / 100) Draws.zero).m_enemies = [] ∧
    ((pickupExample : PlayState ℚ).Update Rat.sqrt (1 / 100) Draws.zero).m_leaderboardPoints
      = 0 ∧
    ((pickupExample : PlayState ℚ).Update Rat.sqrt (1 / 100) Draws.zero).m_score = 0 := by
  decide!

end Score

/-! ## Enemy count -/

section EnemyCount

variable {F : Type} [LinearOrderedField F] [FloorRing F]

end EnemyCount

/-! ## Point timers -/

section Timers

variable {F : Type} [LinearOrderedField F] [FloorRing F]

theorem accrue_points (deltaTime : F) (s : PlayState F) :
    (s.accrue deltaTime).m_gameTime = s.m_gameTime + deltaTime ∧
    (s.accrue deltaTime).m_leaderboardTimer
      = (if 1 / 2 ≤ s.m_leaderboardTimer + deltaTime then 0
         else s.m_leaderboardTimer + deltaTime) ∧
    (s.accrue deltaTime).m_leaderboardPoints
      = (if 1 / 2 ≤ s.m_leaderboardTimer + deltaTime then s.m_leaderboardPoints + 1
         else s.m_leaderboardPoints) ∧
    (s.accrue deltaTime).m_skillPointTimer
      = (if 1 ≤ s.m_skillPointTimer + deltaTime then 0 else s.m_skillPointTimer + deltaTime) ∧
    (s.accrue deltaTime).m_skillPoints
      = (if 1 ≤ s.m_skillPointTimer + deltaTime then s.m_skillPoints + 1
         else s.m_skillPoints) ∧
    (s.accrue deltaTime).m_saveTimer
      = (if 5 ≤ s.m_saveTimer + deltaTime then 0 else s.m_saveTimer + deltaTime) ∧
    (s.accrue deltaTime).console.countP Line.isLeaderboardFire
      = s.console.countP Line.isLeaderboardFire
        + (if 1 / 2 ≤ s.m_leaderboardTimer + deltaTime then 1 else 0) ∧
    (s.accrue deltaTime).console.countP Line.isSkillFire
      = s.console.countP Line.isSkillFire
        + (if 1 ≤ s.m_skillPointTimer + deltaTime then 1 else 0) ∧
    (s.accrue deltaTime).console.countP Line.isSave
      = s.console.countP Line.isSave + (if 5 ≤ s.m_saveTimer + deltaTime then 1 else 0) := by
  unfold PlayState.accrue
  obtain ⟨m, c, h, h1, h2, h3, -⟩ := updatePointSystem_frame deltaTime
    { s with m_gameTime := s.m_gameTime + deltaTime }
  simp only [h]
  exact ⟨trivial, trivial, trivial, trivial, trivial, trivial, h1, h2, h3⟩

theorem accrueAll_snoc (deltas : List F) (deltaTime : F) (s : PlayState F) :
    s.accrueAll (deltas ++ [deltaTime]) = (s.accrueAll deltas).accrue deltaTime := by
  simp [PlayState.accrueAll, List.foldl_append]

theorem accrueAll_cons (deltas : List F) (deltaTime : F) (s : PlayState F) :
    s.accrueAll (deltaTime :: deltas) = (s.accrue deltaTime).accrueAll deltas := rfl

theorem succ_mod_div (n p : ℕ) (hp : 0 < p) :
    (n % p + 1 = p → (n + 1) % p = 0 ∧ (n + 1) / p = n / p + 1) ∧
    (n % p + 1 ≠ p → (n + 1) % p = n % p + 1 ∧ (n + 1) / p = n / p) := by
  have hlt := Nat.mod_lt n hp
  have hn := Nat.div_add_mod n p
  constructor
  · intro h
    have e : n + 1 = p * (n / p + 1) := by rw [Nat.mul_add, Nat.mul_one]; omega
    rw [e]
    exact ⟨Nat.mul_mod_right _ _, Nat.mul_div_cancel_left _ hp⟩
  · intro h
    have h' : n % p + 1 < p := by omega
    have e : n + 1 = p * (n / p) + (n % p + 1) := by omega
    constructor
    · rw [e, Nat.mul_add_mod, Nat.mod_eq_of_lt h']
    · rw [e, Nat.mul_add_div hp, Nat.div_eq_of_lt h', Nat.add_zero]

theorem timer_fires_iff (deltaTime threshold : F) (p n : ℕ) (hp : 0 < p) (hd : 0 < deltaTime)
    (ha : ((p : F) - 1) * deltaTime < threshold) (hb : threshold ≤ (p : F) * deltaTime) :
    threshold ≤ ((n % p : ℕ) : F) * deltaTime + deltaTime ↔ n % p + 1 = p := by
  have hlt := Nat.mod_lt n hp
  constructor
  · intro h
    by_contra hne
    have h' : n % p + 1 ≤ p - 1 := by omega
    have h2 : (((n % p : ℕ) : F) + 1) ≤ (p : F) - 1 := by
      have : ((n % p + 1 : ℕ) : F) ≤ ((p - 1 : ℕ) : F) := Nat.cast_le.2 h'
      rw [Nat.cast_sub hp] at this
      simpa using this
    have h3 : ((n % p : ℕ) : F) * deltaTime + deltaTime ≤ ((p : F) - 1) * deltaTime := by
      have := mul_le_mul_of_nonneg_right h2 hd.le
      linarith
    linarith
  · intro h
    have h2 : ((n % p : ℕ) : F) + 1 = (p : F) := by
      have : ((n % p + 1 : ℕ) : F) = (p : F) := by rw [h]
      simpa using this
    have h3 : ((n % p : ℕ) : F) * deltaTime + deltaTime = (p : F) * deltaTime := by
      rw [← h2]; ring
    rw [h3]; exact hb

theorem timer_step (deltaTime threshold : F) (p n : ℕ) (hp : 0 < p) (hd : 0 < deltaTime)
    (ha : ((p : F) - 1) * deltaTime < threshold) (hb : threshold ≤ (p : F) * deltaTime) :
    (if threshold ≤ ((n % p : ℕ) : F) * deltaTime + deltaTime then (0 : F)
      else ((n % p : ℕ) : F) * deltaTime + deltaTime) = (((n + 1) % p : ℕ) : F) * deltaTime ∧
    (if threshold ≤ ((n % p : ℕ) : F) * deltaTime + deltaTime then ((n / p : ℕ) : Int) + 1
      else ((n / p : ℕ) : Int)) = (((n + 1) / p : ℕ) : Int) ∧
    n / p + (if threshold ≤ ((n % p : ℕ) : F) * deltaTime + deltaTime then 1 else 0)
      = (n + 1) / p := by
  have hs := succ_mod_div n p hp
  by_cases c : n % p + 1 = p
  · obtain ⟨h1, h2⟩ := hs.1 c
    have hf := (timer_fires_iff deltaTime threshold p n hp hd ha hb).2 c
    simp [hf, h1, h2]
  · obtain ⟨h1, h2⟩ := hs.2 c
    have hf : ¬ threshold ≤ ((n % p : ℕ) : F) * deltaTime + deltaTime := fun h =>
      c ((timer_fires_iff deltaTime threshold p n hp hd ha hb).1 h)
    simp [hf, h1, h2]
    ring

theorem accrueAll_periodic (deltaTime : F) (hd : 0 < deltaTime) (p1 p2 p3 : ℕ)
    (hp1 : 0 < p1) (hp2 : 0 < p2) (hp3 : 0 < p3)
    (a1 : ((p1 : F) - 1) * deltaTime < 1 / 2) (b1 : 1 / 2 ≤ (p1 : F) * deltaTime)
    (a2 : ((p2 : F) - 1) * deltaTime < 1) (b2 : 1 ≤ (p2 : F) * deltaTime)
    (a3 : ((p3 : F) - 1) * deltaTime < 5) (b3 : 5 ≤ (p3 : F) * deltaTime) (n : ℕ) :
    ((PlayState.init : PlayState F).accrueAll (List.replicate n deltaTime)).m_gameTime
      = (n : F) * deltaTime ∧
    ((PlayState.init : PlayState F).accrueAll (List.replicate n deltaTime)).m_leaderboardTimer
      = ((n % p1 : ℕ) : F) * deltaTime ∧
    ((PlayState.init : PlayState F).accrueAll (List.replicate n deltaTime)).m_leaderboardPoints
      = ((n / p1 : ℕ) : Int) ∧
    ((PlayState.init : PlayState F).accrueAll (List.replicate n deltaTime)).m_skillPointTimer
      = ((n % p2 : ℕ) : F) * deltaTime ∧
    ((PlayState.init : PlayState F).accrueAll (List.replicate n deltaTime)).m_skillPoints
      = ((n / p2 : ℕ) : Int) ∧
    ((PlayState.init : PlayState F).accrueAll (List.replicate n deltaTime)).m_saveTimer
      = ((n % p3 : ℕ) : F) * deltaTime ∧
    ((PlayState.init : PlayState F).accrueAll (List.replicate n deltaTime)).console.countP
      Line.isLeaderboardFire = n / p1 ∧
    ((PlayState.init : PlayState F).accrueAll (List.replicate n deltaTime)).console.countP
      Line.isSkillFire = n / p2 ∧
    ((PlayState.init : PlayState F).accrueAll (List.replicate n deltaTime)).console.countP
      Line.isSave = n / p3 := by
  induction n with
  | zero => simp [PlayState.accrueAll, PlayState.init]
  | succ n ih =>
    obtain ⟨i0, i1, i2, i3, i4, i5, i6, i7, i8⟩ := ih
    rw [List.replicate_succ', accrueAll_snoc]
    obtain ⟨g0, g1, g2, g3, g4, g5, g6, g7, g8⟩ :=
      accrue_points deltaTime ((PlayState.init : PlayState F).accrueAll (List.replicate n deltaTime))
    obtain ⟨t1, t2, t3⟩ := timer_step deltaTime (1 / 2) p1 n hp1 hd a1 b1
    obtain ⟨u1, u2, u3⟩ := timer_step deltaTime 1 p2 n hp2 hd a2 b2
    obtain ⟨v1, -, v3⟩ := timer_step deltaTime 5 p3 n hp3 hd a3 b3
    rw [g0, g1, g2, g3, g4, g5, g6, g7, g8, i0, i1, i2, i3, i4, i5, i6, i7, i8]
    refine ⟨by push_cast; ring, t1, t2, u1, u2, v1, t3, u3, v3⟩

theorem floor_natCast_div (n p : ℕ) (hp : 0 < p) :
    Int.floor ((n : F) / (p : F)) = ((n / p : ℕ) : Int) := by
  have hpF : (0 : F) < (p : F) := Nat.cast_pos.2 hp
  have hn := Nat.div_add_mod n p
  have hlt := Nat.mod_lt n hp
  have e : (n : F) = (p : F) * ((n / p : ℕ) : F) + ((n % p : ℕ) : F) := by
    exact_mod_cast hn.symm
  have hr0 : (0 : F) ≤ ((n % p : ℕ) : F) := Nat.cast_nonneg _
  have hr1 : ((n % p : ℕ) : F) < (p : F) := Nat.cast_lt.2 hlt
  rw [Int.floor_eq_iff, Int.cast_natCast]
  constructor
  · rw [le_div_iff₀ hpF]
    nlinarith
  · rw [div_lt_iff₀ hpF]
    nlinarith

theorem update_accrues (sqrt : F → F) (deltaTime : F) (d : Draws) (s : PlayState F)
    (hp : s.m_paused = false) (hg : s.m_showGameOver = false) :
    (s.Update sqrt deltaTime d).m_gameTime = (s.accrue deltaTime).m_gameTime ∧
    (s.Update sqrt deltaTime d).m_leaderboardTimer = (s.accrue deltaTime).m_leaderboardTimer ∧
    (s.Update sqrt deltaTime d).m_leaderboardPoints = (s.accrue deltaTime).m_leaderboardPoints ∧
    (s.Update sqrt deltaTime d).m_skillPointTimer = (s.accrue deltaTime).m_skillPointTimer ∧
    (s.Update sqrt deltaTime d).m_skillPoints = (s.accrue deltaTime).m_skillPoints ∧
    (s.Update sqrt deltaTime d).m_saveTimer = (s.accrue deltaTime).m_saveTimer := by
  obtain ⟨e, p, n, k, g, b, m, c, hu, -⟩ := update_active_frame sqrt deltaTime d s hp hg
  obtain ⟨g0, g1, g2, g3, g4, g5, -⟩ := accrue_points deltaTime s
  obtain ⟨q0, q1, q2, q3, q4, q5, -⟩ := accrue_points deltaTime s.pollNetwork
  rw [hu, g0, g1, g2, g3, g4, g5]
  exact ⟨q0, q1, q2, q3, q4, q5⟩

theorem accrueAll_bound (deltas : List F) (h : ∀ deltaTime ∈ deltas, 0 ≤ deltaTime)
    (s : PlayState F) (T : F)
    (h1 : 0 ≤ s.m_leaderboardTimer) (h2 : 0 ≤ s.m_skillPointTimer)
    (h3 : (s.m_leaderboardPoints : F) * (1 / 2) + s.m_leaderboardTimer ≤ T)
    (h4 : (s.m_skillPoints : F) + s.m_skillPointTimer ≤ T)
    (h5 : (s.console.countP Line.isLeaderboardFire : Int) = s.m_leaderboardPoints)
    (h6 : (s.console.countP Line.isSkillFire : Int) = s.m_skillPoints) :
    (s.accrueAll deltas).m_gameTime = s.m_gameTime + deltas.sum ∧
    ((s.accrueAll deltas).m_leaderboardPoints : F) * (1 / 2) ≤ T + deltas.sum ∧
    ((s.accrueAll deltas).m_skillPoints : F) ≤ T + deltas.sum ∧
    ((s.accrueAll deltas).console.countP Line.isLeaderboardFire : Int)
      = (s.accrueAll deltas).m_leaderboardPoints ∧
    ((s.accrueAll deltas).console.countP Line.isSkillFire : Int)
      = (s.accrueAll deltas).m_skillPoints := by
  induction deltas generalizing s T with
  | nil =>
    simp only [PlayState.accrueAll, List.foldl_nil, List.sum_nil, add_zero]
    exact ⟨trivial, by linarith, by linarith, h5, h6⟩
  | cons deltaTime rest ih =>
    have hd : 0 ≤ deltaTime := h deltaTime (List.mem_cons_self _ _)
    have hr : ∀ x ∈ rest, 0 ≤ x := fun x hx => h x (List.mem_cons_of_mem _ hx)
    obtain ⟨g0, g1, g2, g3, g4, -, g6, g7, -⟩ := accrue_points deltaTime s
    rw [accrueAll_cons, List.sum_cons]
    have key := ih hr (s.accrue deltaTime) (T + deltaTime)
      (by rw [g1]; split <;> [exact le_rfl; exact add_nonneg h1 hd])
      (by rw [g3]; split <;> [exact le_rfl; exact add_nonneg h2 hd])
      (by
        rw [g1, g2]
        split
        · push_cast; linarith
        · linarith)
      (by
        rw [g3, g4]
        split
        · push_cast; linarith
        · linarith)
      (by
        rw [g6, g2]
        split
        · push_cast; rw [h5]
        · push_cast; rw [h5]; ring)
      (by
        rw [g7, g4]
        split
        · push_cast; rw [h6]
        · push_cast; rw [h6]; ring)
    rw [g0] at key
    obtain ⟨k0, k1, k2, k3, k4⟩ := key
    exact ⟨by rw [k0]; ring, by linarith, by linarith, k3, k4⟩

theorem checkEnemies_console (sqrt : F → F) (p : Line F → Bool)
    (hp : ∀ n, p (Line.hitByEnemy n) = false) (l : List (Enemy F)) (s : PlayState F) :
    (checkEnemies sqrt s l).console.countP p = s.console.countP p := by
  induction l generalizing s with
  | nil => rfl
  | cons enemy rest ih =>
    unfold checkEnemies
    split
    · exact ih s
    · split
      · show (checkEnemies sqrt _ rest).console.countP p = _
        rw [ih]
        simp [PlayState.print, List.countP_append, hp]
      · exact ih s

theorem checkPowerUps_console (sqrt : F → F) (p : Line F → Bool)
    (hp : ∀ n, p (Line.powerUpCollected n) = false) (l : List (PowerUp F)) (s : PlayState F) :
    (checkPowerUps sqrt s l).console.countP p = s.console.countP p := by
  induction l generalizing s with
  | nil => rfl
  | cons powerUp rest ih =>
    unfold checkPowerUps
    split
    · exact ih s
    · split
      · show (checkPowerUps sqrt _ rest).console.countP p = _
        rw [ih]
        simp [PlayState.print, List.countP_append, hp]
      · exact ih s

theorem endGameSession_console (p : Line F → Bool) (h1 : p Line.noActiveSession = false)
    (h2 : ∀ a b c g, p (Line.endingSession a b c g) = false) (s : PlayState F) :
    s.EndGameSession.console.countP p = s.console.countP p := by
  unfold PlayState.EndGameSession
  split
  · simp [PlayState.print, List.countP_append, h1]
  · split
    · simp [PlayState.print, List.countP_append, h1]
    · simp [PlayState.print, List.countP_append, h2]

theorem settle_console (p : Line F → Bool) (h1 : p Line.noActiveSession = false)
    (h2 : ∀ a b c g, p (Line.endingSession a b c g) = false)
    (h3 : ∀ a b c g, p (Line.gameOver a b c g) = false)
    (h4 : ∀ g, p (Line.continueAvailable g) = false) (s : PlayState F) :
    s.settle.console.countP p = s.console.countP p := by
  unfold PlayState.settle
  simp only []
  split
  · have he := endGameSession_console p h1 h2 { s with
      m_score :=
        toInt (s.m_gameTime * 25) + (s.m_enemies.length : Int) * 10 + s.m_leaderboardPoints * 2
      m_showGameOver := true
      m_canContinue := decide (s.m_savedGameTime > 0) }
    split
    · simp only [PlayState.print, List.countP_append, he]
      simp [h3, h4]
    · simp only [PlayState.print, List.countP_append, he]
      simp [h3]
  · rfl

theorem update_console (sqrt : F → F) (deltaTime : F) (d : Draws) (p : Line F → Bool)
    (h0 : ∀ n, p (Line.hitByEnemy n) = false) (h0' : ∀ n, p (Line.powerUpCollected n) = false)
    (h1 : p Line.noActiveSession = false)
    (h2 : ∀ a b c g, p (Line.endingSession a b c g) = false)
    (h3 : ∀ a b c g, p (Line.gameOver a b c g) = false)
    (h4 : ∀ g, p (Line.continueAvailable g) = false) (s : PlayState F)
    (hp : s.m_paused = false) (hg : s.m_showGameOver = false) :
    (s.Update sqrt deltaTime d).console.countP p
      = (s.pollNetwork.accrue deltaTime).console.countP p := by
  rw [update_of_active sqrt deltaTime d s hp hg, settle_console p h1 h2 h3 h4]
  unfold PlayState.CheckCollisions
  show (checkPowerUps sqrt _ _).console.countP p = _
  rw [checkPowerUps_console sqrt p h0', checkEnemies_console sqrt p h0, spawn_frame]
  rfl

theorem accrue_sameAccrual (deltaTime : F) (s t : PlayState F) (h : s.sameAccrual t) :
    (s.accrue deltaTime).sameAccrual (t.accrue deltaTime) := by
  obtain ⟨h0, h1, h2, h3, h4, h5, h6, h7, h8⟩ := h
  obtain ⟨a0, a1, a2, a3, a4, a5, a6, a7, a8⟩ := accrue_points deltaTime s
  obtain ⟨b0, b1, b2, b3, b4, b5, b6, b7, b8⟩ := accrue_points deltaTime t
  unfold PlayState.sameAccrual
  rw [a0, a1, a2, a3, a4, a5, a6, a7, a8, b0, b1, b2, b3, b4, b5, b6, b7, b8,
    h0, h1, h2, h3, h4, h5, h6, h7, h8]
  exact ⟨rfl, rfl, rfl, rfl, rfl, rfl, rfl, rfl, rfl⟩

theorem update_sameAccrual (sqrt : F → F) (deltaTime : F) (d : Draws) (s : PlayState F)
    (hp : s.m_paused = false) (hg : s.m_showGameOver = false) :
    (s.Update sqrt deltaTime d).sameAccrual (s.accrue deltaTime) := by
  obtain ⟨u0, u1, u2, u3, u4, u5⟩ := update_accrues sqrt deltaTime d s hp hg
  have c1 := update_console sqrt deltaTime d Line.isLeaderboardFire (fun _ => rfl)
    (fun _ => rfl) rfl (fun _ _ _ _ => rfl) (fun _ _ _ _ => rfl) (fun _ => rfl) s hp hg
  have c2 := update_console sqrt deltaTime d Line.isSkillFire (fun _ => rfl)
    (fun _ => rfl) rfl (fun _ _ _ _ => rfl) (fun _ _ _ _ => rfl) (fun _ => rfl) s hp hg
  have c3 := update_console sqrt deltaTime d Line.isSave (fun _ => rfl)
    (fun _ => rfl) rfl (fun _ _ _ _ => rfl) (fun _ _ _ _ => rfl) (fun _ => rfl) s hp hg
  obtain ⟨-, -, -, -, -, -, a6, a7, a8⟩ := accrue_points deltaTime s
  obtain ⟨-, -, -, -, -, -, b6, b7, b8⟩ := accrue_points deltaTime s.pollNetwork
  refine ⟨u0, u1, u2, u3, u4, u5, ?_, ?_, ?_⟩
  · rw [c1, a6, b6]; rfl
  · rw [c2, a7, b7]; rfl
  · rw [c3, a8, b8]; rfl

theorem sameAccrual_trans {s t u : PlayState F} (h : s.sameAccrual t) (h' : t.sameAccrual u) :
    s.sameAccrual u := by
  obtain ⟨h0, h1, h2, h3, h4, h5, h6, h7, h8⟩ := h
  obtain ⟨k0, k1, k2, k3, k4, k5, k6, k7, k8⟩ := h'
  exact ⟨h0.trans k0, h1.trans k1, h2.trans k2, h3.trans k3, h4.trans k4, h5.trans k5,
    h6.trans k6, h7.trans k7, h8.trans k8⟩

theorem run_accrues (sqrt : F → F) (frames : List (F × Draws)) (s t : PlayState F)
    (ha : s.allActive sqrt frames) (h : s.sameAccrual t) :
    (s.run sqrt frames).sameAccrual (t.accrueAll (frames.map Prod.fst)) := by
  induction frames generalizing s t with
  | nil => exact h
  | cons frame rest ih =>
    obtain ⟨hp, hg, hr⟩ := ha
    exact ih (s.Update sqrt frame.1 frame.2) (t.accrue frame.1) hr
      (sameAccrual_trans (update_sameAccrual sqrt frame.1 frame.2 s hp hg)
        (accrue_sameAccrual frame.1 s t h))

end Timers

section TimerClaims

variable {F : Type} [LinearOrderedField F] [FloorRing F]

theorem sameAccrual_refl (s : PlayState F) : s.sameAccrual s :=
  ⟨rfl, rfl, rfl, rfl, rfl, rfl, rfl, rfl, rfl⟩

theorem sameAccrual_of_run (deltas : List F) (t : PlayState F)
    (ht : t = (PlayState.init : PlayState F).accrueAll deltas ∨
      ∃ (sqrt : F → F) (frames : List (F × Draws)), frames.map Prod.fst = deltas ∧
        (PlayState.init : PlayState F).allActive sqrt frames ∧
        t = (PlayState.init : PlayState F).run sqrt frames) :
    t.sameAccrual ((PlayState.init : PlayState F).accrueAll deltas) := by
  rcases ht with ht | ⟨sqrt, frames, hf, ha, ht⟩
  · rw [ht]; exact sameAccrual_refl _
  · rw [ht, ← hf]
    exact run_accrues sqrt frames _ _ ha (sameAccrual_refl _)

/-- With exact sums in place of the float additions (`accrueAll`), the fires of the two
point timers are at most `floor(T / 0.5)` and `floor(T / 1.0)`, with equality when every frame
lasts `1 / (2 k)` seconds. -/
theorem accrueAll_at_most_floor (deltas : List F) (h : ∀ deltaTime ∈ deltas, 0 ≤ deltaTime) :
    ((PlayState.init : PlayState F).accrueAll deltas).m_gameTime = deltas.sum ∧
    (((PlayState.init : PlayState F).accrueAll deltas).console.countP Line.isLeaderboardFire
        : Int)
      = ((PlayState.init : PlayState F).accrueAll deltas).m_leaderboardPoints ∧
    (((PlayState.init : PlayState F).accrueAll deltas).console.countP Line.isSkillFire : Int)
      = ((PlayState.init : PlayState F).accrueAll deltas).m_skillPoints ∧
    ((PlayState.init : PlayState F).accrueAll deltas).m_leaderboardPoints
      ≤ Int.floor (deltas.sum / (1 / 2)) ∧
    ((PlayState.init : PlayState F).accrueAll deltas).m_skillPoints
      ≤ Int.floor (deltas.sum / 1) ∧
    (∀ k n : ℕ, 0 < k → deltas = List.replicate n (1 / (2 * (k : F))) →
      ((PlayState.init : PlayState F).accrueAll deltas).m_leaderboardPoints
        = Int.floor (deltas.sum / (1 / 2)) ∧
      ((PlayState.init : PlayState F).accrueAll deltas).m_skillPoints
        = Int.floor (deltas.sum / 1)) := by
  obtain ⟨k0, k1, k2, k3, k4⟩ := accrueAll_bound deltas h (PlayState.init : PlayState F) 0
    (by simp [PlayState.init]) (by simp [PlayState.init]) (by simp [PlayState.init])
    (by simp [PlayState.init]) (by simp [PlayState.init]) (by simp [PlayState.init])
  refine ⟨?_, k3, k4, ?_, ?_, ?_⟩
  · rw [k0]; simp [PlayState.init]
  · rw [Int.le_floor, le_div_iff₀ (by norm_num)]
    linarith
  · rw [Int.le_floor, div_one]
    linarith
  · intro k n hk hdel
    subst hdel
    have hkF : (0 : F) < (k : F) := Nat.cast_pos.2 hk
    have hd : (0 : F) < 1 / (2 * (k : F)) := by positivity
    have e1 : (k : F) * (1 / (2 * (k : F))) = 1 / 2 := by field_simp; ring
    obtain ⟨-, -, q2, -, q4, -⟩ := accrueAll_periodic (1 / (2 * (k : F))) hd k (2 * k) (10 * k)
      hk (by omega) (by omega)
      (by rw [sub_mul, e1]; linarith)
      (by rw [e1])
      (by push_cast; rw [sub_mul, mul_assoc, e1]; linarith)
      (by push_cast; rw [mul_assoc, e1]; norm_num)
      (by push_cast; rw [sub_mul, mul_assoc, e1]; linarith)
      (by push_cast; rw [mul_assoc, e1]; norm_num) n
    have hsum : (List.replicate n (1 / (2 * (k : F)))).sum = (n : F) * (1 / (2 * (k : F))) := by
      rw [List.sum_replicate, nsmul_eq_mul]
    have f1 : (n : F) * (1 / (2 * (k : F))) / (1 / 2) = (n : F) / (k : F) := by
      field_simp; ring
    have f2 : (n : F) * (1 / (2 * (k : F))) / 1 = (n : F) / ((2 * k : ℕ) : F) := by
      push_cast; field_simp
    rw [q2, q4, hsum, f1, f2]
    exact ⟨(floor_natCast_div n k hk).symm, (floor_natCast_div n (2 * k) (by omega)).symm⟩

/-! ### Float additions

The rounding of one binary32 addition, and the point system under it. -/

theorem roundEven_near (y : F) : |((roundEven y : Int) : F) - y| ≤ 1 / 2 := by
  have h1 : (Int.floor y : F) ≤ y := Int.floor_le y
  have h2 : y < (Int.floor y : F) + 1 := Int.lt_floor_add_one y
  unfold roundEven
  simp only []
  rw [abs_le]
  split
  · constructor <;> linarith
  · split
    · push_cast
      constructor <;> linarith
    · rename_i h3 h4
      have h5 : y - (Int.floor y : F) = 1 / 2 := le_antisymm (not_lt.1 h4) (not_lt.1 h3)
      split
      · constructor <;> linarith
      · push_cast
        constructor <;> linarith

theorem ulp32_pos (n : ℕ) (x : F) : 0 < ulp32 n x := by
  induction n generalizing x with
  | zero => unfold ulp32; positivity
  | succ n ih =>
    unfold ulp32
    split
    · have := ih (x / 2); positivity
    · split
      · have := ih (2 * x); positivity
      · positivity

theorem ulp32_le (n : ℕ) (x : F) (h : (1 / 2 : F) ^ n ≤ x) : ulp32 n x ≤ x / 2 ^ 23 := by
  induction n generalizing x with
  | zero =>
    unfold ulp32
    simp only [pow_zero] at h
    rw [div_le_div_iff₀ (by positivity) (by positivity)]
    nlinarith [show (0 : F) < 2 ^ 23 by positivity]
  | succ n ih =>
    have hpos : (0 : F) < (1 / 2) ^ n := by positivity
    unfold ulp32
    split
    · rename_i h2
      have := ih (x / 2) (by
        have : (1 / 2 : F) ^ n ≤ 1 := pow_le_one₀ (by norm_num) (by norm_num)
        linarith)
      calc 2 * ulp32 n (x / 2) ≤ 2 * (x / 2 / 2 ^ 23) := by linarith
        _ = x / 2 ^ 23 := by ring
    · split
      · have := ih (2 * x) (by
          rw [pow_succ] at h
          linarith)
        calc ulp32 n (2 * x) / 2 ≤ (2 * x / 2 ^ 23) / 2 := by linarith
          _ = x / 2 ^ 23 := by ring
      · rename_i h1 h2
        have hx : (1 : F) ≤ x := not_lt.1 h2
        rw [div_le_div_iff₀ (by positivity) (by positivity)]
        nlinarith [show (0 : F) < 2 ^ 23 by positivity]

theorem roundF32_near (x : F) (h : (1 / 2 : F) ^ 126 ≤ x) :
    |roundF32 x - x| ≤ x / 2 ^ 24 := by
  have hx : 0 < x := lt_of_lt_of_le (by positivity) h
  have hq : max (ulp32 200 |x|) (1 / 2 ^ 149) ≤ x / 2 ^ 23 := by
    apply max_le
    · rw [abs_of_pos hx]
      apply ulp32_le
      have : (1 / 2 : F) ^ 200 ≤ (1 / 2) ^ 126 :=
        pow_le_pow_of_le_one (by norm_num) (by norm_num) (by norm_num)
      linarith
    · have e : (1 : F) / 2 ^ 149 = (1 / 2) ^ 126 / 2 ^ 23 := by
        rw [one_div_pow, div_div, ← pow_add]
      rw [e]
      exact div_le_div_of_nonneg_right h (by positivity)
  have hq0 : 0 < max (ulp32 200 |x|) (1 / 2 ^ 149) :=
    lt_of_lt_of_le (ulp32_pos 200 |x|) (le_max_left _ _)
  unfold roundF32
  simp only []
  generalize max (ulp32 200 |x|) (1 / 2 ^ 149) = q at hq hq0
  have hr := roundEven_near (x / q)
  have e : q * ((roundEven (x / q) : Int) : F) - x
      = q * (((roundEven (x / q) : Int) : F) - x / q) := by
    field_simp
    ring
  rw [e, abs_mul, abs_of_pos hq0]
  calc q * |((roundEven (x / q) : Int) : F) - x / q| ≤ q * (1 / 2) :=
        mul_le_mul_of_nonneg_left hr hq0.le
    _ ≤ x / 2 ^ 23 * (1 / 2) := by nlinarith
    _ = x / 2 ^ 24 := by ring

theorem fadd32_bounds (a b : F) (ha : 0 ≤ a) (hb : b = 0 ∨ (1 / 2 : F) ^ 126 ≤ b) :
    0 ≤ fadd32 a b ∧ fadd32 a b ≤ (a + b) * (1 + 1 / 2 ^ 24) := by
  unfold fadd32
  rcases hb with hb | hb
  · rw [if_pos hb, hb]
    constructor
    · exact ha
    · nlinarith [show (0 : F) < 1 / 2 ^ 24 by positivity]
  · have hbpos : 0 < b := lt_of_lt_of_le (by positivity) hb
    rw [if_neg hbpos.ne']
    have hab : (1 / 2 : F) ^ 126 ≤ a + b := by linarith
    have hn := roundF32_near (a + b) hab
    rw [abs_le] at hn
    have hs : 0 < a + b := by linarith
    have hu : (a + b) / 2 ^ 24 ≤ a + b := div_le_self hs.le (by norm_num)
    constructor
    · linarith
    · have : (a + b) * (1 + 1 / 2 ^ 24) = (a + b) + (a + b) / 2 ^ 24 := by ring
      linarith

theorem fadd32_lower (a b : F) (ha : 0 ≤ a) (hb : b = 0 ∨ (1 / 2 : F) ^ 126 ≤ b) :
    (a + b) * (1 - 1 / 2 ^ 24) ≤ fadd32 a b := by
  unfold fadd32
  rcases hb with hb | hb
  · rw [if_pos hb, hb]
    nlinarith [show (0 : F) < 1 / 2 ^ 24 by positivity]
  · have hbpos : 0 < b := lt_of_lt_of_le (by positivity) hb
    rw [if_neg hbpos.ne']
    have hab : (1 / 2 : F) ^ 126 ≤ a + b := by linarith
    have hn := roundF32_near (a + b) hab
    rw [abs_le] at hn
    have : (a + b) * (1 - 1 / 2 ^ 24) = (a + b) - (a + b) / 2 ^ 24 := by ring
    linarith

theorem updatePointSystem32_points (deltaTime : F) (s : PlayState F) :
    (s.UpdatePointSystem32 deltaTime).m_gameTime = s.m_gameTime ∧
    (s.UpdatePointSystem32 deltaTime).m_leaderboardTimer
      = (if 1 / 2 ≤ fadd32 s.m_leaderboardTimer deltaTime then 0
         else fadd32 s.m_leaderboardTimer deltaTime) ∧
    (s.UpdatePointSystem32 deltaTime).m_leaderboardPoints
      = (if 1 / 2 ≤ fadd32 s.m_leaderboardTimer deltaTime then s.m_leaderboardPoints + 1
         else s.m_leaderboardPoints) ∧
    (s.UpdatePointSystem32 deltaTime).m_skillPointTimer
      = (if 1 ≤ fadd32 s.m_skillPointTimer deltaTime then 0
         else fadd32 s.m_skillPointTimer deltaTime) ∧
    (s.UpdatePointSystem32 deltaTime).m_skillPoints
      = (if 1 ≤ fadd32 s.m_skillPointTimer deltaTime then s.m_skillPoints + 1
         else s.m_skillPoints) ∧
    (s.UpdatePointSystem32 deltaTime).m_saveTimer
      = (if 5 ≤ fadd32 s.m_saveTimer deltaTime then 0 else fadd32 s.m_saveTimer deltaTime) ∧
    (s.UpdatePointSystem32 deltaTime).console.countP Line.isLeaderboardFire
      = s.console.countP Line.isLeaderboardFire
        + (if 1 / 2 ≤ fadd32 s.m_leaderboardTimer deltaTime then 1 else 0) ∧
    (s.UpdatePointSystem32 deltaTime).console.countP Line.isSkillFire
      = s.console.countP Line.isSkillFire
        + (if 1 ≤ fadd32 s.m_skillPointTimer deltaTime then 1 else 0) ∧
    (s.UpdatePointSystem32 deltaTime).console.countP Line.isSave
      = s.console.countP Line.isSave
        + (if 5 ≤ fadd32 s.m_saveTimer deltaTime then 1 else 0) := by
  unfold PlayState.UpdatePointSystem32
  by_cases h1 : 1 / 2 ≤ fadd32 s.m_leaderboardTimer deltaTime <;>
  by_cases h2 : 1 ≤ fadd32 s.m_skillPointTimer deltaTime <;>
  by_cases h3 : 5 ≤ fadd32 s.m_saveTimer deltaTime <;>
  simp only [ge_iff_le, h1, h2, h3, if_true, if_false, PlayState.print, PlayState.SaveGameState,
    PlayState.SaveProgressToServer]
  all_goals first
    | (simp [List.countP_append, Line.isLeaderboardFire, Line.isSkillFire, Line.isSave]; done)
    | (split
       · simp [List.countP_append, Line.isLeaderboardFire, Line.isSkillFire, Line.isSave]
       · split
         · simp [List.countP_append, Line.isLeaderboardFire, Line.isSkillFire, Line.isSave]
         · simp [List.countP_append, Line.isLeaderboardFire, Line.isSkillFire, Line.isSave])

theorem accrue32_points (deltaTime : F) (s : PlayState F) :
    (s.accrue32 deltaTime).m_gameTime = fadd32 s.m_gameTime deltaTime ∧
    (s.accrue32 deltaTime).m_leaderboardTimer
      = (if 1 / 2 ≤ fadd32 s.m_leaderboardTimer deltaTime then 0
         else fadd32 s.m_leaderboardTimer deltaTime) ∧
    (s.accrue32 deltaTime).m_leaderboardPoints
      = (if 1 / 2 ≤ fadd32 s.m_leaderboardTimer deltaTime then s.m_leaderboardPoints + 1
         else s.m_leaderboardPoints) ∧
    (s.accrue32 deltaTime).m_skillPointTimer
      = (if 1 ≤ fadd32 s.m_skillPointTimer deltaTime then 0
         else fadd32 s.m_skillPointTimer deltaTime) ∧
    (s.accrue32 deltaTime).m_skillPoints
      = (if 1 ≤ fadd32 s.m_skillPointTimer deltaTime then s.m_skillPoints + 1
         else s.m_skillPoints) ∧
    (s.accrue32 deltaTime).m_saveTimer
      = (if 5 ≤ fadd32 s.m_saveTimer deltaTime then 0 else fadd32 s.m_saveTimer deltaTime) ∧
    (s.accrue32 deltaTime).console.countP Line.isLeaderboardFire
      = s.console.countP Line.isLeaderboardFire
        + (if 1 / 2 ≤ fadd32 s.m_leaderboardTimer deltaTime then 1 else 0) ∧
    (s.accrue32 deltaTime).console.countP Line.isSkillFire
      = s.console.countP Line.isSkillFire
        + (if 1 ≤ fadd32 s.m_skillPointTimer deltaTime then 1 else 0) ∧
    (s.accrue32 deltaTime).console.countP Line.isSave
      = s.console.countP Line.isSave
        + (if 5 ≤ fadd32 s.m_saveTimer deltaTime then 1 else 0) := by
  unfold PlayState.accrue32
  exact updatePointSystem32_points deltaTime
    { s with m_gameTime := fadd32 s.m_gameTime deltaTime }

theorem accrueAll32_cons (deltas : List F) (deltaTime : F) (s : PlayState F) :
    s.accrueAll32 (deltaTime :: deltas) = (s.accrue32 deltaTime).accrueAll32 deltas := rfl

theorem accrue32_step (deltaTime : F) (hd : deltaTime = 0 ∨ (1 / 2 : F) ^ 126 ≤ deltaTime)
    (s : PlayState F) (B : F)
    (h1 : 0 ≤ s.m_leaderboardTimer) (h2 : 0 ≤ s.m_skillPointTimer)
    (p1 : 0 ≤ s.m_leaderboardPoints) (p2 : 0 ≤ s.m_skillPoints)
    (h3 : (s.m_leaderboardPoints : F) * (1 / 2) + s.m_leaderboardTimer ≤ B)
    (h4 : (s.m_skillPoints : F) + s.m_skillPointTimer ≤ B) :
    0 ≤ (s.accrue32 deltaTime).m_leaderboardTimer ∧
    0 ≤ (s.accrue32 deltaTime).m_skillPointTimer ∧
    0 ≤ (s.accrue32 deltaTime).m_leaderboardPoints ∧
    0 ≤ (s.accrue32 deltaTime).m_skillPoints ∧
    ((s.accrue32 deltaTime).m_leaderboardPoints : F) * (1 / 2)
      + (s.accrue32 deltaTime).m_leaderboardTimer ≤ (B + deltaTime) * (1 + 1 / 2 ^ 24) ∧
    ((s.accrue32 deltaTime).m_skillPoints : F) + (s.accrue32 deltaTime).m_skillPointTimer
      ≤ (B + deltaTime) * (1 + 1 / 2 ^ 24) := by
  have hu : (0 : F) < 1 / 2 ^ 24 := by positivity
  obtain ⟨a1, a2⟩ := fadd32_bounds s.m_leaderboardTimer deltaTime h1 hd
  obtain ⟨b1, b2⟩ := fadd32_bounds s.m_skillPointTimer deltaTime h2 hd
  generalize (1 : F) / 2 ^ 24 = u at hu a2 b2 ⊢
  obtain ⟨-, g1, g2, g3, g4, -, -, -, -⟩ := accrue32_points deltaTime s
  have pl : (0 : F) ≤ (s.m_leaderboardPoints : F) := by exact_mod_cast p1
  have ps : (0 : F) ≤ (s.m_skillPoints : F) := by exact_mod_cast p2
  have hu1 : (0 : F) ≤ 1 + u := by linarith
  have e1 : (s.m_leaderboardPoints : F) * (1 / 2) + fadd32 s.m_leaderboardTimer deltaTime
      ≤ (B + deltaTime) * (1 + u) := by
    have x1 := mul_nonneg pl hu.le
    have x2 := mul_nonneg (sub_nonneg.2 h3) hu1
    nlinarith
  have e2 : (s.m_skillPoints : F) + fadd32 s.m_skillPointTimer deltaTime
      ≤ (B + deltaTime) * (1 + u) := by
    have x1 := mul_nonneg ps hu.le
    have x2 := mul_nonneg (sub_nonneg.2 h4) hu1
    nlinarith
  rw [g1, g2, g3, g4]
  refine ⟨?_, ?_, ?_, ?_, ?_, ?_⟩
  · split <;> [exact le_rfl; exact a1]
  · split <;> [exact le_rfl; exact b1]
  · split <;> omega
  · split <;> omega
  · split
    · rename_i hc
      push_cast
      linarith
    · exact e1
  · split
    · rename_i hc
      push_cast
      linarith
    · exact e2

theorem accrueAll32_bound (deltas : List F)
    (h : ∀ deltaTime ∈ deltas, deltaTime = 0 ∨ (1 / 2 : F) ^ 126 ≤ deltaTime)
    (s : PlayState F) (B : F)
    (h1 : 0 ≤ s.m_leaderboardTimer) (h2 : 0 ≤ s.m_skillPointTimer)
    (p1 : 0 ≤ s.m_leaderboardPoints) (p2 : 0 ≤ s.m_skillPoints)
    (h3 : (s.m_leaderboardPoints : F) * (1 / 2) + s.m_leaderboardTimer ≤ B)
    (h4 : (s.m_skillPoints : F) + s.m_skillPointTimer ≤ B) :
    ((s.accrueAll32 deltas).m_leaderboardPoints : F) * (1 / 2)
      ≤ (B + deltas.sum) * (1 + 1 / 2 ^ 24) ^ deltas.length ∧
    ((s.accrueAll32 deltas).m_skillPoints : F)
      ≤ (B + deltas.sum) * (1 + 1 / 2 ^ 24) ^ deltas.length := by
  have hu : (0 : F) < 1 / 2 ^ 24 := by positivity
  induction deltas generalizing s B with
  | nil =>
    simp only [PlayState.accrueAll32, List.foldl_nil, List.sum_nil, add_zero, List.length_nil,
      pow_zero, mul_one]
    exact ⟨by linarith, by linarith⟩
  | cons deltaTime rest ih =>
    have hd := h deltaTime (List.mem_cons_self _ _)
    have hr : ∀ x ∈ rest, x = 0 ∨ (1 / 2 : F) ^ 126 ≤ x :=
      fun x hx => h x (List.mem_cons_of_mem _ hx)
    have hrest : 0 ≤ rest.sum := by
      apply List.sum_nonneg
      intro x hx
      rcases hr x hx with hx | hx
      · rw [hx]
      · exact le_trans (by positivity) hx
    obtain ⟨q1, q2, q3, q4, q5, q6⟩ := accrue32_step deltaTime hd s B h1 h2 p1 p2 h3 h4
    obtain ⟨k1, k2⟩ := ih hr (s.accrue32 deltaTime) _ q1 q2 q3 q4 q5 q6
    rw [accrueAll32_cons, List.sum_cons, List.length_cons]
    generalize (1 : F) / 2 ^ 24 = u at hu k1 k2 ⊢
    have hu1 : (0 : F) ≤ 1 + u := by linarith
    have hpow : (0 : F) ≤ (1 + u) ^ rest.length := pow_nonneg hu1 _
    have hstep : ((B + deltaTime) * (1 + u) + rest.sum) * (1 + u) ^ rest.length
        ≤ (B + (deltaTime + rest.sum)) * (1 + u) ^ (rest.length + 1) := by
      rw [pow_succ]
      have x3 := mul_nonneg hrest hu.le
      have : (B + deltaTime) * (1 + u) + rest.sum
          ≤ (B + (deltaTime + rest.sum)) * (1 + u) := by nlinarith
      calc ((B + deltaTime) * (1 + u) + rest.sum) * (1 + u) ^ rest.length
          ≤ ((B + (deltaTime + rest.sum)) * (1 + u)) * (1 + u) ^ rest.length :=
            mul_le_mul_of_nonneg_right this hpow
        _ = (B + (deltaTime + rest.sum)) * ((1 + u) ^ rest.length * (1 + u)) := by
            ring
    exact ⟨k1.trans hstep, k2.trans hstep⟩

theorem update32_of_active (sqrt : F → F) (deltaTime : F) (d : Draws) (s : PlayState F)
    (hp : s.m_paused = false) (hg : s.m_showGameOver = false) :
    s.Update32 sqrt deltaTime d
      = ((((s.pollNetwork.accrue32 deltaTime).spawn d).UpdateEnemies sqrt
          deltaTime).UpdatePowerUps deltaTime |>.CheckCollisions sqrt).settle := by
  simp [PlayState.Update32, hp, hg]

theorem update32_active_frame (sqrt : F → F) (deltaTime : F) (d : Draws) (s : PlayState F)
    (hp : s.m_paused = false) (hg : s.m_showGameOver = false) :
    ∃ e p n k g b m c, s.Update32 sqrt deltaTime d = { s.pollNetwork.accrue32 deltaTime with
        m_enemies := e, m_powerUps := p, m_lives := n, m_score := k, m_showGameOver := g,
        m_canContinue := b, m_authNetworkManager := m, console := c } := by
  obtain ⟨g, k, m, c, h⟩ := settle_frame
    ((((s.pollNetwork.accrue32 deltaTime).spawn d).UpdateEnemies sqrt deltaTime).UpdatePowerUps
        deltaTime |>.CheckCollisions sqrt)
  obtain ⟨e, n, p, k2, c2, h2, -⟩ := checkCollisions_frame sqrt
    ((((s.pollNetwork.accrue32 deltaTime).spawn d).UpdateEnemies sqrt deltaTime).UpdatePowerUps
        deltaTime)
  refine ⟨e, p, n, (s.Update32 sqrt deltaTime d).m_score, g, k, m, c, ?_⟩
  rw [update32_of_active sqrt deltaTime d s hp hg, h, h2, spawn_frame]
  rfl

theorem update32_console (sqrt : F → F) (deltaTime : F) (d : Draws) (p : Line F → Bool)
    (h0 : ∀ n, p (Line.hitByEnemy n) = false) (h0' : ∀ n, p (Line.powerUpCollected n) = false)
    (h1 : p Line.noActiveSession = false)
    (h2 : ∀ a b c g, p (Line.endingSession a b c g) = false)
    (h3 : ∀ a b c g, p (Line.gameOver a b c g) = false)
    (h4 : ∀ g, p (Line.continueAvailable g) = false) (s : PlayState F)
    (hp : s.m_paused = false) (hg : s.m_showGameOver = false) :
    (s.Update32 sqrt deltaTime d).console.countP p
      = (s.pollNetwork.accrue32 deltaTime).console.countP p := by
  rw [update32_of_active sqrt deltaTime d s hp hg, settle_console p h1 h2 h3 h4]
  unfold PlayState.CheckCollisions
  show (checkPowerUps sqrt _ _).console.countP p = _
  rw [checkPowerUps_console sqrt p h0', checkEnemies_console sqrt p h0, spawn_frame]
  rfl

theorem accrue32_sameAccrual (deltaTime : F) (s t : PlayState F) (h : s.sameAccrual t) :
    (s.accrue32 deltaTime).sameAccrual (t.accrue32 deltaTime) := by
  obtain ⟨h0, h1, h2, h3, h4, h5, h6, h7, h8⟩ := h
  obtain ⟨a0, a1, a2, a3, a4, a5, a6, a7, a8⟩ := accrue32_points deltaTime s
  obtain ⟨b0, b1, b2, b3, b4, b5, b6, b7, b8⟩ := accrue32_points deltaTime t
  unfold PlayState.sameAccrual
  rw [a0, a1, a2, a3, a4, a5, a6, a7, a8, b0, b1, b2, b3, b4, b5, b6, b7, b8,
    h0, h1, h2, h3, h4, h5, h6, h7, h8]
  exact ⟨rfl, rfl, rfl, rfl, rfl, rfl, rfl, rfl, rfl⟩

theorem update32_sameAccrual (sqrt : F → F) (deltaTime : F) (d : Draws) (s : PlayState F)
    (hp : s.m_paused = false) (hg : s.m_showGameOver = false) :
    (s.Update32 sqrt deltaTime d).sameAccrual (s.accrue32 deltaTime) := by
  obtain ⟨e, p, n, k, g, b, m, c, hu⟩ := update32_active_frame sqrt deltaTime d s hp hg
  have c1 := update32_console sqrt deltaTime d Line.isLeaderboardFire (fun _ => rfl)
    (fun _ => rfl) rfl (fun _ _ _ _ => rfl) (fun _ _ _ _ => rfl) (fun _ => rfl) s hp hg
  have c2 := update32_console sqrt deltaTime d Line.isSkillFire (fun _ => rfl)
    (fun _ => rfl) rfl (fun _ _ _ _ => rfl) (fun _ _ _ _ => rfl) (fun _ => rfl) s hp hg
  have c3 := update32_console sqrt deltaTime d Line.isSave (fun _ => rfl)
    (fun _ => rfl) rfl (fun _ _ _ _ => rfl) (fun _ _ _ _ => rfl) (fun _ => rfl) s hp hg
  obtain ⟨a0, a1, a2, a3, a4, a5, a6, a7, a8⟩ := accrue32_points deltaTime s
  obtain ⟨b0, b1, b2, b3, b4, b5, b6, b7, b8⟩ := accrue32_points deltaTime s.pollNetwork
  unfold PlayState.sameAccrual
  rw [c1, c2, c3, hu, a0, a1, a2, a3, a4, a5, a6, a7, a8, b6, b7, b8]
  exact ⟨b0, b1, b2, b3, b4, b5, rfl, rfl, rfl⟩

theorem run32_accrues (sqrt : F → F) (frames : List (F × Draws)) (s t : PlayState F)
    (ha : s.allActive32 sqrt frames) (h : s.sameAccrual t) :
    (s.run32 sqrt frames).sameAccrual (t.accrueAll32 (frames.map Prod.fst)) := by
  induction frames generalizing s t with
  | nil => exact h
  | cons frame rest ih =>
    obtain ⟨hp, hg, hr⟩ := ha
    exact ih (s.Update32 sqrt frame.1 frame.2) (t.accrue32 frame.1) hr
      (sameAccrual_trans (update32_sameAccrual sqrt frame.1 frame.2 s hp hg)
        (accrue32_sameAccrual frame.1 s t h))

theorem accrue32_raises_by_at_most_one (deltaTime : F) (s : PlayState F) :
    ((s.accrue32 deltaTime).m_leaderboardPoints = s.m_leaderboardPoints ∨
      (s.accrue32 deltaTime).m_leaderboardPoints = s.m_leaderboardPoints + 1) ∧
    ((s.accrue32 deltaTime).m_skillPoints = s.m_skillPoints ∨
      (s.accrue32 deltaTime).m_skillPoints = s.m_skillPoints + 1) := by
  obtain ⟨-, -, g2, -, g4, -, -, -, -⟩ := accrue32_points deltaTime s
  rw [g2, g4]
  constructor
  · split
    · exact Or.inr rfl
    · exact Or.inl rfl
  · split
    · exact Or.inr rfl
    · exact Or.inl rfl

theorem run32_points_bound (sqrt : F → F) (s0 : PlayState F)
    (z1 : s0.m_leaderboardPoints = 0) (z2 : s0.m_skillPoints = 0)
    (z3 : s0.m_leaderboardTimer = 0) (z4 : s0.m_skillPointTimer = 0)
    (frames : List (F × Draws))
    (hd : ∀ frame ∈ frames, frame.1 = 0 ∨ (1 / 2 : F) ^ 126 ≤ frame.1)
    (ha : s0.allActive32 sqrt frames) :
    ((s0.run32 sqrt frames).m_leaderboardPoints : F) * (1 / 2)
      ≤ (frames.map Prod.fst).sum * (1 + 1 / 2 ^ 24) ^ frames.length ∧
    ((s0.run32 sqrt frames).m_skillPoints : F) * 1
      ≤ (frames.map Prod.fst).sum * (1 + 1 / 2 ^ 24) ^ frames.length := by
  obtain ⟨-, -, r2, -, r4, -⟩ := run32_accrues sqrt frames s0 s0 ha (sameAccrual_refl s0)
  have hdel : ∀ deltaTime ∈ frames.map Prod.fst,
      deltaTime = 0 ∨ (1 / 2 : F) ^ 126 ≤ deltaTime := by
    intro x hx
    obtain ⟨frame, hf, rfl⟩ := List.mem_map.1 hx
    exact hd frame hf
  obtain ⟨b1, b2⟩ := accrueAll32_bound (frames.map Prod.fst) hdel s0 0
    (by rw [z3]) (by rw [z4]) (by rw [z1]) (by rw [z2]) (by rw [z1, z3]; simp)
    (by rw [z2, z4]; simp)
  rw [zero_add, List.length_map] at b1 b2
  rw [r2, r4, mul_one]
  exact ⟨b1, b2⟩

theorem accrueAll32_gameTime_lower (deltas : List F)
    (h : ∀ deltaTime ∈ deltas, deltaTime = 0 ∨ (1 / 2 : F) ^ 126 ≤ deltaTime)
    (s : PlayState F) (G : F) (hG0 : 0 ≤ G) (hG : G ≤ s.m_gameTime) :
    (G + deltas.sum) * (1 - 1 / 2 ^ 24) ^ deltas.length ≤ (s.accrueAll32 deltas).m_gameTime := by
  have hu : (0 : F) < 1 / 2 ^ 24 := by positivity
  have hu' : (1 : F) / 2 ^ 24 ≤ 1 := by
    rw [div_le_one (by positivity)]
    exact one_le_pow₀ (by norm_num)
  induction deltas generalizing s G with
  | nil =>
    simp only [PlayState.accrueAll32, List.foldl_nil, List.sum_nil, add_zero, List.length_nil,
      pow_zero, mul_one]
    exact hG
  | cons deltaTime rest ih =>
    have hd := h deltaTime (List.mem_cons_self _ _)
    have hr : ∀ x ∈ rest, x = 0 ∨ (1 / 2 : F) ^ 126 ≤ x :=
      fun x hx => h x (List.mem_cons_of_mem _ hx)
    have hd0 : 0 ≤ deltaTime := by
      rcases hd with hd | hd
      · rw [hd]
      · exact le_trans (by positivity) hd
    have hrest : 0 ≤ rest.sum := by
      apply List.sum_nonneg
      intro x hx
      rcases hr x hx with hx | hx
      · rw [hx]
      · exact le_trans (by positivity) hx
    have g0 := (accrue32_points deltaTime s).1
    have hl := fadd32_lower s.m_gameTime deltaTime (le_trans hG0 hG) hd
    rw [← g0] at hl
    have key := ih hr (s.accrue32 deltaTime) ((G + deltaTime) * (1 - 1 / 2 ^ 24))
    rw [accrueAll32_cons, List.sum_cons, List.length_cons]
    generalize (1 : F) / 2 ^ 24 = u at hu hu' hl key ⊢
    have hu1 : (0 : F) ≤ 1 - u := by linarith
    have hpow : (0 : F) ≤ (1 - u) ^ rest.length := pow_nonneg hu1 _
    have k := key (mul_nonneg (add_nonneg hG0 hd0) hu1)
      (le_trans (mul_le_mul_of_nonneg_right (by linarith) hu1) hl)
    refine le_trans ?_ k
    rw [pow_succ]
    have x3 := mul_nonneg hrest hu.le
    have : (G + (deltaTime + rest.sum)) * (1 - u) ≤ (G + deltaTime) * (1 - u) + rest.sum := by
      nlinarith
    calc (G + (deltaTime + rest.sum)) * ((1 - u) ^ rest.length * (1 - u))
        = ((G + (deltaTime + rest.sum)) * (1 - u)) * (1 - u) ^ rest.length := by ring
      _ ≤ ((G + deltaTime) * (1 - u) + rest.sum) * (1 - u) ^ rest.length :=
          mul_le_mul_of_nonneg_right this hpow

theorem accrueAll_12_3_seconds (deltaTime : F) (j N : ℕ) (hj : 0 < j)
    (hhalf : (j : F) * deltaTime = 1 / 2) (hT : (N : F) * deltaTime = 123 / 10) :
    ((PlayState.init : PlayState F).accrueAll (List.replicate N deltaTime)).m_gameTime
      = 123 / 10 ∧
    ((PlayState.init : PlayState F).accrueAll (List.replicate N deltaTime)).m_leaderboardPoints
      = 24 ∧
    ((PlayState.init : PlayState F).accrueAll (List.replicate N deltaTime)).m_skillPoints
      = 12 ∧
    ((PlayState.init : PlayState F).accrueAll (List.replicate N deltaTime)).console.countP
      Line.isLeaderboardFire = 24 ∧
    ((PlayState.init : PlayState F).accrueAll (List.replicate N deltaTime)).console.countP
      Line.isSkillFire = 12 ∧
    ((PlayState.init : PlayState F).accrueAll (List.replicate N deltaTime)).console.countP
      Line.isSave = 2 := by
  have hjF : (0 : F) < (j : F) := Nat.cast_pos.2 hj
  have hd : (0 : F) < deltaTime := by
    by_contra hneg
    have : (j : F) * deltaTime ≤ 0 := mul_nonpos_of_nonneg_of_nonpos hjF.le (not_lt.1 hneg)
    linarith
  have hN : 5 * N = 123 * j := by
    have e : ((5 * N : ℕ) : F) * deltaTime = ((123 * j : ℕ) : F) * deltaTime := by
      push_cast
      linarith
    exact_mod_cast mul_right_cancel₀ hd.ne' e
  obtain ⟨q0, -, q2, -, q4, -, q6, q7, q8⟩ := accrueAll_periodic deltaTime hd j (2 * j) (10 * j)
    hj (by omega) (by omega)
    (by rw [sub_mul, hhalf]; linarith)
    (by rw [hhalf])
    (by push_cast; rw [sub_mul, mul_assoc, hhalf]; linarith)
    (by push_cast; rw [mul_assoc, hhalf]; norm_num)
    (by push_cast; rw [sub_mul, mul_assoc, hhalf]; linarith)
    (by push_cast; rw [mul_assoc, hhalf]; norm_num) N
  have d1 : N / j = 24 := by
    apply Nat.div_eq_of_lt_le <;> omega
  have d2 : N / (2 * j) = 12 := by
    apply Nat.div_eq_of_lt_le <;> omega
  have d3 : N / (10 * j) = 2 := by
    apply Nat.div_eq_of_lt_le <;> omega
  rw [q0, q2, q4, q6, q7, q8, d1, d2, d3, hT]
  exact ⟨rfl, rfl, rfl, rfl, rfl, rfl⟩

/-- C4: let `t` be a fresh game advanced by `N` unpaused frames of one length `deltaTime`,
where `j * deltaTime = 0.5 s` for a positive whole `j` and `N * deltaTime = 12.3 s`, either by
the point-system run `accrueAll` or by a run of `Update` whose ticks all start unpaused and
not game over (no collision has ended the game).  Then the game time of `t` is 12.3 s and its
leaderboard timer has fired 24 times, its skill timer 12 times and its save timer twice. -/
theorem fires_after_12_3_seconds (deltaTime : F) (j N : ℕ) (hj : 0 < j)
    (hhalf : (j : F) * deltaTime = 1 / 2) (hT : (N : F) * deltaTime = 123 / 10)
    (t : PlayState F)
    (ht : t = (PlayState.init : PlayState F).accrueAll (List.replicate N deltaTime) ∨
      ∃ (sqrt : F → F) (frames : List (F × Draws)),
        frames.map Prod.fst = List.replicate N deltaTime ∧
        (PlayState.init : PlayState F).allActive sqrt frames ∧
        t = (PlayState.init : PlayState F).run sqrt frames) :
    t.m_gameTime = 123 / 10 ∧
    t.m_leaderboardPoints = 24 ∧
    t.m_skillPoints = 12 ∧
    t.console.countP Line.isLeaderboardFire = 24 ∧
    t.console.countP Line.isSkillFire = 12 ∧
    t.console.countP Line.isSave = 2 := by
  obtain ⟨s0, -, s2, -, s4, -, s6, s7, s8⟩ :=
    sameAccrual_of_run (List.replicate N deltaTime) t ht
  rw [s0, s2, s4, s6, s7, s8]
  exact accrueAll_12_3_seconds deltaTime j N hj hhalf hT

/-- Witness of C4: 123 frames of 0.1 s. -/
theorem fires_after_12_3_seconds_witness :
    ((PlayState.init : PlayState ℚ).accrueAll (List.replicate 123 (1 / 10))).m_gameTime
      = 123 / 10 ∧
    ((PlayState.init : PlayState ℚ).accrueAll (List.replicate 123 (1 / 10))).m_leaderboardPoints
      = 24 ∧
    ((PlayState.init : PlayState ℚ).accrueAll (List.replicate 123 (1 / 10))).m_skillPoints
      = 12 ∧
    ((PlayState.init : PlayState ℚ).accrueAll (List.replicate 123 (1 / 10))).console.countP
      Line.isLeaderboardFire = 24 ∧
    ((PlayState.init : PlayState ℚ).accrueAll (List.replicate 123 (1 / 10))).console.countP
      Line.isSkillFire = 12 ∧
    ((PlayState.init : PlayState ℚ).accrueAll (List.replicate 123 (1 / 10))).console.countP
      Line.isSave = 2 :=
  fires_after_12_3_seconds (1 / 10 : ℚ) 5 123 (by decide) (by decide!) (by decide!) _
    (Or.inl rfl)

end TimerClaims

/-! ## Session start and offline play -/

section SessionStart

variable {F : Type} [LinearOrderedField F] [FloorRing F]

/-- C11, the code at the failing input: after the restart that races its own requests the
failed start answer has reset `m_sessionStarted` while `m_sessionId` still holds `abc`; the
end request that would clear it is dispatched but unanswered. -/
theorem failed_start_leaves_stale_sessionId :
    raceExample.m_sessionStarted = false ∧
    raceExample.m_sessionId = "abc" ∧
    raceExample.queued = [] ∧
    (raceExample.m_authNetworkManager.map
      (fun m => m.dispatched.map (fun request => request.url)))
      = some ["/api/game/session/start", "/api/game/session/end", "/api/game/session/start"] := by
  decide!

theorem onStartSessionResponse_cases (json : String → SessionIdField) (response : HttpResponse)
    (s : PlayState F) :
    (response.success = true ∧ ∃ sessionId, json response.data = SessionIdField.str sessionId ∧
      (s.onStartSessionResponse json response).m_sessionStarted = true ∧
      (s.onStartSessionResponse json response).m_sessionId = sessionId) ∨
    ((response.success = false ∨ ∀ sessionId, json response.data ≠ SessionIdField.str sessionId) ∧
      (s.onStartSessionResponse json response).m_sessionStarted = false ∧
      (s.onStartSessionResponse json response).m_sessionId = s.m_sessionId) := by
  unfold PlayState.onStartSessionResponse
  by_cases h : response.success = true
  · simp only [h, if_true]
    cases hj : json response.data with
    | invalid => right; exact ⟨Or.inr (fun _ h' => by simp at h'), rfl, rfl⟩
    | missing => right; exact ⟨Or.inr (fun _ h' => by simp at h'), rfl, rfl⟩
    | notString => right; exact ⟨Or.inr (fun _ h' => by simp at h'), rfl, rfl⟩
    | str sessionId => left; exact ⟨trivial, sessionId, rfl, rfl, rfl⟩
  · right
    have h' : response.success = false := by simpa using h
    refine ⟨Or.inl h', ?_, ?_⟩ <;> simp [h', PlayState.print]

/-- C12, as stated, fails: a successful answer whose `sessionId` is the empty string makes the
handler set `m_sessionStarted` with an empty `m_sessionId`. -/
theorem empty_sessionId_starts_session :
    ((PlayState.init : PlayState ℚ).onStartSessionResponse exampleJson
      (AuthNetworkManager.httpResponseOf 0 (CurlResult.ok 200 bodyEmptyId))).m_sessionStarted
        = true ∧
    ((PlayState.init : PlayState ℚ).onStartSessionResponse exampleJson
      (AuthNetworkManager.httpResponseOf 0 (CurlResult.ok 200 bodyEmptyId))).m_sessionId
        = "" := by
  decide!

/-- C12, amended: the start-session handler leaves the session started under a non-empty
identifier, the returned one, exactly when the response is successful and its body carries a
non-empty string `sessionId`; it sets `m_sessionStarted` exactly when the response is
successful and its body carries a string `sessionId`, empty or not, and then `m_sessionId` is
that string; for every other response (failure, unparseable body, missing, null or non-string
`sessionId`) it leaves `m_sessionStarted` false. -/
theorem start_handler_outcome (json : String → SessionIdField) (response : HttpResponse)
    (s : PlayState F) :
    (((s.onStartSessionResponse json response).m_sessionStarted = true ∧
        (s.onStartSessionResponse json response).m_sessionId ≠ "") ↔
      (response.success = true ∧ ∃ sessionId, sessionId ≠ "" ∧
        json response.data = SessionIdField.str sessionId)) ∧
    ((s.onStartSessionResponse json response).m_sessionStarted = true ↔
      (response.success = true ∧ ∃ sessionId,
        json response.data = SessionIdField.str sessionId)) ∧
    (∀ sessionId, response.success = true →
      json response.data = SessionIdField.str sessionId →
      (s.onStartSessionResponse json response).m_sessionId = sessionId) ∧
    ((response.success = false ∨
        ∀ sessionId, json response.data ≠ SessionIdField.str sessionId) →
      (s.onStartSessionResponse json response).m_sessionStarted = false) := by
  rcases onStartSessionResponse_cases json response s with
    ⟨hs, sessionId, hj, h1, h2⟩ | ⟨hn, h1, h2⟩
  · refine ⟨?_, ?_, ?_, ?_⟩
    · constructor
      · rintro ⟨-, hne⟩
        exact ⟨hs, sessionId, by rw [← h2]; exact hne, hj⟩
      · rintro ⟨-, i, hi, hji⟩
        have : i = sessionId := by rw [hj] at hji; exact (SessionIdField.str.inj hji).symm
        exact ⟨h1, by rw [h2, ← this]; exact hi⟩
    · exact ⟨fun _ => ⟨hs, sessionId, hj⟩, fun _ => h1⟩
    · intro i _ hji
      have : i = sessionId := by rw [hj] at hji; exact (SessionIdField.str.inj hji).symm
      rw [h2, this]
    · rintro (hf | hf)
      · rw [hs] at hf; exact absurd hf (by decide)
      · exact absurd hj (hf sessionId)
  · have hno : ¬ (response.success = true ∧ ∃ sessionId,
        json response.data = SessionIdField.str sessionId) := by
      rintro ⟨hs, i, hji⟩
      rcases hn with hf | hf
      · rw [hs] at hf; exact absurd hf (by decide)
      · exact hf i hji
    refine ⟨?_, ?_, ?_, ?_⟩
    · constructor
      · rintro ⟨hst, -⟩
        rw [h1] at hst; exact absurd hst (by decide)
      · rintro ⟨hs, i, -, hji⟩
        exact absurd ⟨hs, i, hji⟩ hno
    · constructor
      · intro hst
        rw [h1] at hst; exact absurd hst (by decide)
      · intro h; exact absurd h hno
    · intro i hs hji
      exact absurd ⟨hs, i, hji⟩ hno
    · intro _; exact h1

/-- Witness of C12 amended: the answer that carries `abc` starts the session `abc`; an HTTP
500 leaves it not started. -/
theorem start_handler_outcome_witness :
    ((PlayState.init : PlayState ℚ).onStartSessionResponse exampleJson
      (AuthNetworkManager.httpResponseOf 0 (CurlResult.ok 200 bodyAbc))).m_sessionId = "abc" ∧
    ((PlayState.init : PlayState ℚ).onStartSessionResponse exampleJson
      (AuthNetworkManager.httpResponseOf 0 (CurlResult.ok 500 ""))).m_sessionStarted = false :=
  ⟨(start_handler_outcome exampleJson
      (AuthNetworkManager.httpResponseOf 0 (CurlResult.ok 200 bodyAbc))
      (PlayState.init : PlayState ℚ)).2.2.1 "abc" (by decide!) (by decide!),
   (start_handler_outcome exampleJson
      (AuthNetworkManager.httpResponseOf 0 (CurlResult.ok 500 ""))
      (PlayState.init : PlayState ℚ)).2.2.2 (Or.inl (by decide!))⟩

theorem updatePointSystem_session (deltaTime : F) (s : PlayState F) :
    (s.UpdatePointSystem deltaTime).m_sessionStarted = s.m_sessionStarted ∧
    (s.UpdatePointSystem deltaTime).m_sessionId = s.m_sessionId ∧
    (s.m_authNetworkManager = none →
      (s.UpdatePointSystem deltaTime).m_authNetworkManager = none) := by
  obtain ⟨m, c, h, -⟩ := updatePointSystem_frame deltaTime s
  refine ⟨by rw [h], by rw [h], ?_⟩
  intro hm
  unfold PlayState.UpdatePointSystem
  simp only [PlayState.SaveProgressToServer, PlayState.print, PlayState.SaveGameState, hm]
  split_ifs <;> rfl

theorem settle_session (s : PlayState F) :
    s.settle.m_sessionStarted = s.m_sessionStarted ∧
    s.settle.m_sessionId = s.m_sessionId ∧
    s.settle.m_lives = s.m_lives ∧
    (s.m_authNetworkManager = none → s.settle.m_authNetworkManager = none) := by
  obtain ⟨g, k, m, c, h⟩ := settle_frame s
  refine ⟨by rw [h], by rw [h], by rw [h], ?_⟩
  intro hm
  unfold PlayState.settle
  simp only [PlayState.EndGameSession, PlayState.print, hm]
  split_ifs <;> rfl

theorem update_session (sqrt : F → F) (deltaTime : F) (d : Draws) (s : PlayState F) :
    (s.Update sqrt deltaTime d).m_sessionStarted = s.m_sessionStarted ∧
    (s.Update sqrt deltaTime d).m_sessionId = s.m_sessionId ∧
    (s.m_authNetworkManager = none →
      (s.Update sqrt deltaTime d).m_authNetworkManager = none) := by
  by_cases ha : s.m_paused = false ∧ s.m_showGameOver = false
  · obtain ⟨a1, a2, a3⟩ := updatePointSystem_session deltaTime
      { s.pollNetwork with m_gameTime := s.pollNetwork.m_gameTime + deltaTime }
    have c1 : (s.pollNetwork.accrue deltaTime).m_sessionStarted = s.m_sessionStarted := a1
    have c2 : (s.pollNetwork.accrue deltaTime).m_sessionId = s.m_sessionId := a2
    have c3 : s.m_authNetworkManager = none →
        (s.pollNetwork.accrue deltaTime).m_authNetworkManager = none := fun hm =>
      a3 (by simp [PlayState.pollNetwork, hm])
    obtain ⟨e, p, n, k, g, b, m, c, hu, -⟩ := update_active_frame sqrt deltaTime d s ha.1 ha.2
    refine ⟨by rw [hu]; exact c1, by rw [hu]; exact c2, ?_⟩
    intro hm
    rw [update_of_active sqrt deltaTime d s ha.1 ha.2]
    obtain ⟨e2, n2, p2, k2, cc, hc, -⟩ := checkCollisions_frame sqrt
      ((((s.pollNetwork.accrue deltaTime).spawn d).UpdateEnemies sqrt deltaTime).UpdatePowerUps
        deltaTime)
    have hx : ((((s.pollNetwork.accrue deltaTime).spawn d).UpdateEnemies sqrt
        deltaTime).UpdatePowerUps deltaTime |>.CheckCollisions sqrt).m_authNetworkManager
          = none := by
      rw [hc]
      show ((s.pollNetwork.accrue deltaTime).spawn d).m_authNetworkManager = none
      rw [spawn_frame]
      exact c3 hm
    exact (settle_session _).2.2.2 hx
  · have hi : s.m_paused = true ∨ s.m_showGameOver = true := by
      by_cases hp : s.m_paused = true
      · exact Or.inl hp
      · right
        by_contra hg
        exact ha ⟨by simpa using hp, by simpa using hg⟩
    rw [update_of_inactive sqrt deltaTime d s hi]
    exact ⟨rfl, rfl, fun hm => by simp [PlayState.pollNetwork, hm]⟩

theorem playOp_offline (sqrt : F → F) (op : PlayOp F) (s : PlayState F)
    (hm : s.m_authNetworkManager = none) (hs : s.m_sessionStarted = false) :
    (op.apply sqrt s).m_authNetworkManager = none ∧
    (op.apply sqrt s).m_sessionStarted = false := by
  cases op with
  | tick deltaTime d =>
    obtain ⟨h1, -, h3⟩ := update_session sqrt deltaTime d s
    exact ⟨h3 hm, by
      show (s.Update sqrt deltaTime d).m_sessionStarted = false
      rw [h1]; exact hs⟩
  | saveProgress =>
    show s.SaveProgressToServer.m_authNetworkManager = none ∧
      s.SaveProgressToServer.m_sessionStarted = false
    rw [saveProgressToServer_of_inactive s (Or.inl hs)]
    exact ⟨hm, hs⟩
  | endSession =>
    show s.EndGameSession.m_authNetworkManager = none ∧
      s.EndGameSession.m_sessionStarted = false
    rw [endGameSession_of_inactive s (Or.inl hs)]
    exact ⟨hm, hs⟩

theorem runOps_offline (sqrt : F → F) (ops : List (PlayOp F)) (s : PlayState F)
    (hm : s.m_authNetworkManager = none) (hs : s.m_sessionStarted = false) :
    (s.runOps sqrt ops).m_authNetworkManager = none ∧
    (s.runOps sqrt ops).m_sessionStarted = false := by
  induction ops generalizing s with
  | nil => exact ⟨hm, hs⟩
  | cons op rest ih =>
    obtain ⟨h1, h2⟩ := playOp_offline sqrt op s hm hs
    exact ih (op.apply sqrt s) h1 h2

/-- C13: without a network manager `StartGameSession` changes no data member, it only prints
its warning; and after it, whatever sequence of frame ticks, `SaveProgressToServer` calls and
`EndGameSession` calls follows, the session is not started, there is still no network manager
and so no request is queued.  (The statement holds for every sequence, hence after every
call of a sequence.) -/
theorem offline_session_never_starts (sqrt : F → F) (s : PlayState F)
    (hm : s.m_authNetworkManager = none) (hs : s.m_sessionStarted = false)
    (ops : List (PlayOp F)) :
    s.StartGameSession = { s with console := s.console ++ [Line.noNetworkManager] } ∧
    (s.StartGameSession.runOps sqrt ops).m_sessionStarted = false ∧
    (s.StartGameSession.runOps sqrt ops).m_authNetworkManager = none ∧
    (s.StartGameSession.runOps sqrt ops).queued = [] := by
  have h0 : s.StartGameSession = { s with console := s.console ++ [Line.noNetworkManager] } := by
    simp [PlayState.StartGameSession, hm, PlayState.print]
  obtain ⟨h1, h2⟩ := runOps_offline sqrt ops s.StartGameSession (by rw [h0]; exact hm)
    (by rw [h0]; exact hs)
  refine ⟨h0, h2, h1, ?_⟩
  unfold PlayState.queued
  rw [h1]

/-- Witness of C13: the fresh game without a network manager; a frame, a save, an end. -/
theorem offline_session_never_starts_witness :
    ((offlineExample : PlayState ℚ).StartGameSession.runOps Rat.sqrt
      [PlayOp.tick (1 / 20) Draws.zero, PlayOp.saveProgress, PlayOp.endSession]).m_sessionStarted
        = false ∧
    ((offlineExample : PlayState ℚ).StartGameSession.runOps Rat.sqrt
      [PlayOp.tick (1 / 20) Draws.zero, PlayOp.saveProgress, PlayOp.endSession]).queued = [] :=
  ⟨(offline_session_never_starts Rat.sqrt (offlineExample : PlayState ℚ) rfl rfl
      [PlayOp.tick (1 / 20) Draws.zero, PlayOp.saveProgress, PlayOp.endSession]).2.1,
   (offline_session_never_starts Rat.sqrt (offlineExample : PlayState ℚ) rfl rfl
      [PlayOp.tick (1 / 20) Draws.zero, PlayOp.saveProgress, PlayOp.endSession]).2.2.2⟩

/-- C14: with an active session and a non-negative game time `EndGameSession` appends exactly
one request to the queue, a POST to `/api/game/session/end` whose body carries the current
`sessionId`, score, leaderboard points, skill points and game time, `kills = 0`,
`damageDealt = 0`, `damageTaken = (3 - lives) * 100` and
`waveReached = floor(gameTime / 30) + 1`. -/
theorem end_request_carries_final_stats (s : PlayState F) (m : AuthNetworkManager F)
    (hm : s.m_authNetworkManager = some m) (hs : s.m_sessionStarted = true)
    (hid : s.m_sessionId ≠ "") (h0 : 0 ≤ s.m_gameTime) :
    s.EndGameSession.queued = s.queued ++
      [{ url := "/api/game/session/end", method := "POST",
         body := [("sessionId", JVal.str s.m_sessionId), ("finalScore", JVal.int s.m_score),
           ("leaderboardPointsEarned", JVal.int s.m_leaderboardPoints),
           ("skillPointsEarned", JVal.int s.m_skillPoints),
           ("survivalTime", JVal.num s.m_gameTime),
           ("kills", JVal.int 0), ("damageDealt", JVal.int 0),
           ("damageTaken", JVal.int ((3 - s.m_lives) * 100)),
           ("waveReached", JVal.int (Int.floor (s.m_gameTime / 30) + 1)),
           ("endReason", JVal.str "player_death")],
         httpCallback := some HttpCallback.endSession, isAuthRequest := false }] := by
  rw [endGameSession_queued_of_active s m hm hs hid,
    toInt_of_nonneg (show (0 : F) ≤ s.m_gameTime / 30 by positivity)]

/-- Witness of C14: the acknowledged session `abc` of a fresh game. -/
theorem end_request_carries_final_stats_witness :
    (activeExample : PlayState ℚ).EndGameSession.queued =
      [{ url := "/api/game/session/end", method := "POST",
         body := [("sessionId", JVal.str "abc"), ("finalScore", JVal.int 0),
           ("leaderboardPointsEarned", JVal.int 0), ("skillPointsEarned", JVal.int 0),
           ("survivalTime", JVal.num 0), ("kills", JVal.int 0), ("damageDealt", JVal.int 0),
           ("damageTaken", JVal.int ((3 - 3) * 100)),
           ("waveReached", JVal.int (Int.floor ((0 : ℚ) / 30) + 1)),
           ("endReason", JVal.str "player_death")],
         httpCallback := some HttpCallback.endSession, isAuthRequest := false }] :=
  end_request_carries_final_stats (activeExample : PlayState ℚ)
    { requestQueue := [], dispatched := [] } rfl rfl (by decide) (by decide!)

end SessionStart

/-! ## Request queue -/

section Queue

variable {F : Type} [LinearOrderedField F] [FloorRing F]

theorem queueOp_apply_all (op : QueueOp F) (m : AuthNetworkManager F) :
    (op.apply m).dispatched ++ (op.apply m).requestQueue
      = m.dispatched ++ m.requestQueue ++ op.enqueued ∧
    (op.apply m).dispatched.length
      ≤ m.dispatched.length + (if op.isUpdate then 1 else 0) := by
  cases op with
  | http endpoint method body callback =>
    simp [QueueOp.apply, QueueOp.enqueued, AuthNetworkManager.MakeHttpRequest,
      AuthNetworkManager.empty]
  | auth endpoint jsonBody callback method =>
    simp [QueueOp.apply, QueueOp.enqueued, AuthNetworkManager.MakeAuthRequest,
      AuthNetworkManager.empty]
  | update =>
    cases hq : m.requestQueue with
    | nil =>
      simp [QueueOp.apply, QueueOp.enqueued, AuthNetworkManager.Update,
        AuthNetworkManager.empty, hq, QueueOp.isUpdate]
    | cons request rest =>
      simp [QueueOp.apply, QueueOp.enqueued, AuthNetworkManager.Update,
        AuthNetworkManager.empty, hq, QueueOp.isUpdate]

theorem runOps_all (ops : List (QueueOp F)) (m : AuthNetworkManager F) :
    (m.runOps ops).dispatched ++ (m.runOps ops).requestQueue
      = m.dispatched ++ m.requestQueue ++ ops.flatMap QueueOp.enqueued ∧
    (m.runOps ops).dispatched.length ≤ m.dispatched.length + ops.countP QueueOp.isUpdate := by
  induction ops generalizing m with
  | nil => simp [AuthNetworkManager.runOps]
  | cons op rest ih =>
    obtain ⟨h1, h2⟩ := queueOp_apply_all op m
    obtain ⟨k1, k2⟩ := ih (op.apply m)
    have e : m.runOps (op :: rest) = (op.apply m).runOps rest := rfl
    rw [e, k1, h1]
    refine ⟨by simp [List.flatMap_cons, List.append_assoc], ?_⟩
    rw [List.countP_cons]
    by_cases hu : op.isUpdate = true
    · simp only [hu, if_true] at h2 ⊢
      omega
    · simp only [hu, if_false] at h2 ⊢
      omega

/-- C15: `MakeHttpRequest` and `MakeAuthRequest` append one request to the queue and dispatch
nothing; `Update` on an empty queue does nothing and on a non-empty queue removes the oldest
request and dispatches it; hence after any sequence of these calls on a fresh manager the
dispatched requests followed by the waiting ones are the enqueued requests in enqueue order,
the dispatched requests are a prefix of the enqueued ones, and there are no more dispatched
requests than `Update` calls. -/
theorem request_queue_is_fifo (ops : List (QueueOp F)) :
    (∀ (m : AuthNetworkManager F) endpoint method body callback,
      (m.MakeHttpRequest endpoint method body callback).dispatched = m.dispatched ∧
      (m.MakeHttpRequest endpoint method body callback).requestQueue = m.requestQueue ++
        [{ url := endpoint, method := method, body := body, httpCallback := some callback,
           isAuthRequest := false }]) ∧
    (∀ (m : AuthNetworkManager F) endpoint jsonBody callback method,
      (m.MakeAuthRequest endpoint jsonBody callback method).dispatched = m.dispatched ∧
      (m.MakeAuthRequest endpoint jsonBody callback method).requestQueue = m.requestQueue ++
        [{ url := endpoint, method := method, body := jsonBody,
           authCallback := some callback, isAuthRequest := true }]) ∧
    (∀ done : List (AuthRequest F),
      AuthNetworkManager.Update { requestQueue := [], dispatched := done }
        = { requestQueue := [], dispatched := done }) ∧
    (∀ (done : List (AuthRequest F)) request rest,
      AuthNetworkManager.Update { requestQueue := request :: rest, dispatched := done }
        = { requestQueue := rest, dispatched := done ++ [request] }) ∧
    ((AuthNetworkManager.empty : AuthNetworkManager F).runOps ops).dispatched
      ++ ((AuthNetworkManager.empty : AuthNetworkManager F).runOps ops).requestQueue
      = ops.flatMap QueueOp.enqueued ∧
    ((AuthNetworkManager.empty : AuthNetworkManager F).runOps ops).dispatched
      <+: ops.flatMap QueueOp.enqueued ∧
    ((AuthNetworkManager.empty : AuthNetworkManager F).runOps ops).dispatched.length
      ≤ ops.countP QueueOp.isUpdate := by
  obtain ⟨h1, h2⟩ := runOps_all ops (AuthNetworkManager.empty : AuthNetworkManager F)
  have h1' : ((AuthNetworkManager.empty : AuthNetworkManager F).runOps ops).dispatched
      ++ ((AuthNetworkManager.empty : AuthNetworkManager F).runOps ops).requestQueue
      = ops.flatMap QueueOp.enqueued := by
    rw [h1]; simp [AuthNetworkManager.empty]
  refine ⟨fun _ _ _ _ _ => ⟨rfl, rfl⟩, fun _ _ _ _ _ => ⟨rfl, rfl⟩, fun _ => rfl,
    fun _ _ _ => rfl, h1', ?_, ?_⟩
  · rw [← h1']; exact List.prefix_append _ _
  · simpa [AuthNetworkManager.empty] using h2

/-- C16: for a non-auth request whose transport succeeded with HTTP status `c` and body `b`
the response built for the callback has `success = (200 <= c < 300)`, `statusCode = c`,
`data = b`, and the error `HTTP ` followed by the decimal of `c` outside 200..299 and the
empty error inside; for a failed transport it has `success = false` and the transport error.
Two statuses are spelled out: 404 gives `HTTP 404`, 200 gives no error. -/
theorem http_response_of_transport (indeterminate c : Int) (b e : String) :
    (AuthNetworkManager.httpResponseOf indeterminate (CurlResult.ok c b)).success
      = decide (200 ≤ c ∧ c < 300) ∧
    (AuthNetworkManager.httpResponseOf indeterminate (CurlResult.ok c b)).statusCode = c ∧
    (AuthNetworkManager.httpResponseOf indeterminate (CurlResult.ok c b)).data = b ∧
    (AuthNetworkManager.httpResponseOf indeterminate (CurlResult.ok c b)).error
      = (if 200 ≤ c ∧ c < 300 then "" else "HTTP " ++ toString c) ∧
    (AuthNetworkManager.httpResponseOf indeterminate (CurlResult.failed e)).success = false ∧
    (AuthNetworkManager.httpResponseOf indeterminate (CurlResult.failed e)).error = e ∧
    (AuthNetworkManager.httpResponseOf indeterminate (CurlResult.ok 404 b)).error
      = "HTTP 404" ∧
    (AuthNetworkManager.httpResponseOf indeterminate (CurlResult.ok 200 b)).error = "" := by
  refine ⟨rfl, rfl, rfl, ?_, rfl, rfl, ?_, ?_⟩
  · unfold AuthNetworkManager.httpResponseOf
    by_cases h : 200 ≤ c ∧ c < 300
    · simp [h]
    · simp [h]
  · rfl
  · rfl

end Queue

/-! ## Frozen simulation -/

section Frozen

variable {F : Type} [LinearOrderedField F] [FloorRing F]

/-- C18: while paused or game over `Update` changes nothing but the network manager, on which
it runs `AuthNetworkManager::Update`: game time, score, lives, both point totals, the three
timers, both entity lists and the saved snapshot are as before, for every frame time. -/
theorem update_frozen_when_paused_or_over (sqrt : F → F) (deltaTime : F) (d : Draws)
    (s : PlayState F) (h : s.m_paused = true ∨ s.m_showGameOver = true) :
    s.Update sqrt deltaTime d
      = { s with m_authNetworkManager := s.m_authNetworkManager.map AuthNetworkManager.Update } ∧
    (s.Update sqrt deltaTime d).m_gameTime = s.m_gameTime ∧
    (s.Update sqrt deltaTime d).m_score = s.m_score ∧
    (s.Update sqrt deltaTime d).m_lives = s.m_lives ∧
    (s.Update sqrt deltaTime d).m_leaderboardPoints = s.m_leaderboardPoints ∧
    (s.Update sqrt deltaTime d).m_skillPoints = s.m_skillPoints ∧
    (s.Update sqrt deltaTime d).m_leaderboardTimer = s.m_leaderboardTimer ∧
    (s.Update sqrt deltaTime d).m_skillPointTimer = s.m_skillPointTimer ∧
    (s.Update sqrt deltaTime d).m_saveTimer = s.m_saveTimer ∧
    (s.Update sqrt deltaTime d).m_enemies = s.m_enemies ∧
    (s.Update sqrt deltaTime d).m_powerUps = s.m_powerUps ∧
    (s.Update sqrt deltaTime d).m_savedGameTime = s.m_savedGameTime ∧
    (s.Update sqrt deltaTime d).m_savedScore = s.m_savedScore ∧
    (s.Update sqrt deltaTime d).m_savedLeaderboardPoints = s.m_savedLeaderboardPoints ∧
    (s.Update sqrt deltaTime d).m_savedSkillPoints = s.m_savedSkillPoints ∧
    (s.Update sqrt deltaTime d).m_savedEnemies = s.m_savedEnemies ∧
    (s.Update sqrt deltaTime d).m_savedPowerUps = s.m_savedPowerUps := by
  rw [update_of_inactive sqrt deltaTime d s h]
  exact ⟨rfl, rfl, rfl, rfl, rfl, rfl, rfl, rfl, rfl, rfl, rfl, rfl, rfl, rfl, rfl, rfl, rfl⟩

/-- Witness of C18: the paused fresh game and a frame of 50 ms. -/
theorem update_frozen_when_paused_or_over_witness :
    ((pausedExample : PlayState ℚ).Update Rat.sqrt (1 / 20) Draws.zero).m_gameTime = 0 ∧
    ((pausedExample : PlayState ℚ).Update Rat.sqrt (1 / 20) Draws.zero).m_saveTimer = 0 :=
  ⟨(update_frozen_when_paused_or_over Rat.sqrt (1 / 20) Draws.zero
      (pausedExample : PlayState ℚ) (Or.inl rfl)).2.1,
   (update_frozen_when_paused_or_over Rat.sqrt (1 / 20) Draws.zero
      (pausedExample : PlayState ℚ) (Or.inl rfl)).2.2.2.2.2.2.2.2.1⟩

end Frozen

/-! ## Collisions with enemies -/

section Collisions

variable {F : Type} [LinearOrderedField F] [FloorRing F]

theorem checkEnemies_explicit (sqrt : F → F) (l : List (Enemy F)) (s : PlayState F) :
    (checkEnemies sqrt s l).m_enemies = l.map (fun e =>
      if (e.active && CircleCollision sqrt s.m_playerX s.m_playerY 8 e.x e.y (e.size / 2)) = true
      then { e with active := false } else e) ∧
    (checkEnemies sqrt s l).m_lives = s.m_lives - (l.countP (fun e =>
      e.active && CircleCollision sqrt s.m_playerX s.m_playerY 8 e.x e.y (e.size / 2)) : ℕ) := by
  induction l generalizing s with
  | nil => simp [checkEnemies]
  | cons enemy rest ih =>
    unfold checkEnemies
    by_cases ha : enemy.active = true
    · by_cases hc :
        CircleCollision sqrt s.m_playerX s.m_playerY 8 enemy.x enemy.y (enemy.size / 2) = true
      · obtain ⟨h1, h2⟩ := ih
          (PlayState.print (Line.hitByEnemy (s.m_lives - 1)) { s with m_lives := s.m_lives - 1 })
        simp only [ha, hc, Bool.not_true, Bool.false_eq_true, if_false, if_true]
        refine ⟨?_, ?_⟩
        · show _ :: (checkEnemies sqrt _ rest).m_enemies = _
          rw [h1]
          simp [ha, hc, PlayState.print]
        · show (checkEnemies sqrt _ rest).m_lives = _
          rw [h2]
          simp [ha, hc, PlayState.print, List.countP_cons]
          ring
      · obtain ⟨h1, h2⟩ := ih s
        simp only [ha, hc, Bool.not_true, Bool.false_eq_true, if_false]
        refine ⟨?_, ?_⟩
        · show _ :: (checkEnemies sqrt _ rest).m_enemies = _
          rw [h1]
          simp [ha, hc]
        · show (checkEnemies sqrt _ rest).m_lives = _
          rw [h2]
          simp [ha, hc, List.countP_cons]
    · obtain ⟨h1, h2⟩ := ih s
      have ha' : enemy.active = false := by simpa using ha
      simp only [ha', Bool.not_false, if_true]
      refine ⟨?_, ?_⟩
      · show _ :: (checkEnemies sqrt _ rest).m_enemies = _
        rw [h1]
        simp [ha']
      · show (checkEnemies sqrt _ rest).m_lives = _
        rw [h2]
        simp [ha', List.countP_cons]

theorem checkCollisions_enemies (sqrt : F → F) (s : PlayState F) :
    (s.CheckCollisions sqrt).m_enemies = (checkEnemies sqrt s s.m_enemies).m_enemies ∧
    (s.CheckCollisions sqrt).m_lives = (checkEnemies sqrt s s.m_enemies).m_lives := by
  obtain ⟨p, k, c2, h2⟩ := checkPowerUps_frame sqrt (checkEnemies sqrt s s.m_enemies).m_powerUps
    (checkEnemies sqrt s s.m_enemies)
  unfold PlayState.CheckCollisions
  simp only [h2]
  exact ⟨trivial, trivial⟩

/-- C20: over the reals `CheckCollisions` turns `active` off in exactly those enemies that are
active and whose centre is closer to the cursor than `8 + size / 2`, changes no other field
of any enemy, keeps the list in order and in full, and takes one life per such enemy. -/
theorem checkCollisions_hits_overlapping_enemies (s : PlayState ℝ) :
    (s.CheckCollisions Real.sqrt).m_enemies = s.m_enemies.map (fun e =>
      if e.active = true ∧ dist (point s.m_playerX s.m_playerY) (point e.x e.y) < 8 + e.size / 2
      then { e with active := false } else e) ∧
    (s.CheckCollisions Real.sqrt).m_lives = s.m_lives - (s.m_enemies.countP (fun e =>
      decide (e.active = true ∧
        dist (point s.m_playerX s.m_playerY) (point e.x e.y) < 8 + e.size / 2)) : ℕ) := by
  obtain ⟨h1, h2⟩ := checkCollisions_enemies Real.sqrt s
  obtain ⟨e1, e2⟩ := checkEnemies_explicit Real.sqrt s.m_enemies s
  have key : ∀ e : Enemy ℝ,
      ((e.active && CircleCollision Real.sqrt s.m_playerX s.m_playerY 8 e.x e.y (e.size / 2))
        = true) ↔
      (e.active = true ∧
        dist (point s.m_playerX s.m_playerY) (point e.x e.y) < 8 + e.size / 2) := by
    intro e
    rw [euclid_dist]
    simp [CircleCollision]
  rw [h1, h2, e1, e2]
  constructor
  · apply List.map_congr_left
    intro e _
    by_cases h : e.active = true ∧
        dist (point s.m_playerX s.m_playerY) (point e.x e.y) < 8 + e.size / 2
    · rw [if_pos h, if_pos ((key e).2 h)]
    · rw [if_neg h, if_neg (fun h' => h ((key e).1 h'))]
  · congr 2
    apply List.countP_congr
    intro e _
    simp only [decide_eq_true_eq]
    exact key e

end Collisions

/-! ## Game over and the checkpoint -/

section GameOver

variable {F : Type} [LinearOrderedField F] [FloorRing F]

theorem snapshotExists_print (l : Line F) (s : PlayState F) :
    (s.print l).snapshotExists = Line.snapshotAfter s.snapshotExists l := by
  simp [PlayState.snapshotExists, PlayState.print, List.foldl_append]

theorem checkEnemies_snapshot (sqrt : F → F) (l : List (Enemy F)) (s : PlayState F) :
    (checkEnemies sqrt s l).snapshotExists = s.snapshotExists := by
  induction l generalizing s with
  | nil => rfl
  | cons enemy rest ih =>
    unfold checkEnemies
    split
    · exact ih s
    · split
      · show (checkEnemies sqrt _ rest).snapshotExists = _
        rw [ih, snapshotExists_print]
        rfl
      · exact ih s

theorem checkPowerUps_snapshot (sqrt : F → F) (l : List (PowerUp F)) (s : PlayState F) :
    (checkPowerUps sqrt s l).snapshotExists = s.snapshotExists := by
  induction l generalizing s with
  | nil => rfl
  | cons powerUp rest ih =>
    unfold checkPowerUps
    split
    · exact ih s
    · split
      · show (checkPowerUps sqrt _ rest).snapshotExists = _
        rw [ih, snapshotExists_print]
        rfl
      · exact ih s

theorem endGameSession_snapshot (s : PlayState F) :
    s.EndGameSession.snapshotExists = s.snapshotExists := by
  unfold PlayState.EndGameSession
  split
  · rw [snapshotExists_print]; rfl
  · split
    · rw [snapshotExists_print]; rfl
    · show (PlayState.print _ s).snapshotExists = _
      rw [snapshotExists_print]; rfl

theorem saveProgressToServer_snapshot (s : PlayState F) :
    s.SaveProgressToServer.snapshotExists = s.snapshotExists := by
  unfold PlayState.SaveProgressToServer
  split
  · rw [snapshotExists_print]; rfl
  · split
    · rw [snapshotExists_print]; rfl
    · show (PlayState.print _ s).snapshotExists = _
      rw [snapshotExists_print]; rfl

theorem startGameSession_snapshot (s : PlayState F) :
    s.StartGameSession.snapshotExists = s.snapshotExists := by
  unfold PlayState.StartGameSession
  split
  · rw [snapshotExists_print]; rfl
  · show (PlayState.print _ s).snapshotExists = _
    rw [snapshotExists_print]; rfl

theorem settle_of_alive (s : PlayState F) (hl : ¬ s.m_lives ≤ 0) :
    ∃ score, s.settle = { s with m_score := score } := by
  unfold PlayState.settle
  simp only [hl, if_false]
  exact ⟨_, rfl⟩

theorem settle_of_dead (s : PlayState F) (hl : s.m_lives ≤ 0) :
    ∃ score m c, s.settle = { s with
        m_score := score
        m_showGameOver := true
        m_canContinue := decide (s.m_savedGameTime > 0)
        m_authNetworkManager := m
        console := c } ∧
      List.foldl Line.snapshotAfter false c = s.snapshotExists := by
  obtain ⟨score, hscore⟩ : ∃ score : Int, score =
      toInt (s.m_gameTime * 25) + (s.m_enemies.length : Int) * 10 + s.m_leaderboardPoints * 2 :=
    ⟨_, rfl⟩
  have hs := endGameSession_snapshot { s with
    m_score := score
    m_showGameOver := true
    m_canContinue := decide (s.m_savedGameTime > 0) }
  obtain ⟨m, c, he⟩ := endGameSession_frame { s with
    m_score := score
    m_showGameOver := true
    m_canContinue := decide (s.m_savedGameTime > 0) }
  rw [he] at hs
  have hc : List.foldl Line.snapshotAfter false c = s.snapshotExists := hs
  unfold PlayState.settle
  simp only [hl, if_true, ← hscore, he, PlayState.print]
  split
  · refine ⟨_, _, _, rfl, ?_⟩
    simp only [List.foldl_append, List.foldl_cons, List.foldl_nil, hc, Line.snapshotAfter]
  · refine ⟨_, _, _, rfl, ?_⟩
    simp only [List.foldl_append, List.foldl_cons, List.foldl_nil, hc, Line.snapshotAfter]

theorem settle_gameOver (s : PlayState F) :
    s.settle.snapshotExists = s.snapshotExists ∧
    s.settle.m_savedGameTime = s.m_savedGameTime ∧
    s.settle.m_lives = s.m_lives ∧
    (s.m_lives ≤ 0 → s.settle.m_showGameOver = true ∧
      s.settle.m_canContinue = decide (s.m_savedGameTime > 0)) ∧
    (¬ s.m_lives ≤ 0 → s.settle.m_showGameOver = s.m_showGameOver ∧
      s.settle.m_canContinue = s.m_canContinue) := by
  by_cases hl : s.m_lives ≤ 0
  · obtain ⟨score, m, c, h, hc⟩ := settle_of_dead s hl
    rw [h]
    exact ⟨hc, rfl, rfl, fun _ => ⟨rfl, rfl⟩, fun h' => absurd hl h'⟩
  · obtain ⟨score, h⟩ := settle_of_alive s hl
    rw [h]
    exact ⟨rfl, rfl, rfl, fun h' => absurd h' hl, fun _ => ⟨rfl, rfl⟩⟩

theorem updatePointSystem_snapshot (deltaTime : F) (s : PlayState F) :
    (s.UpdatePointSystem deltaTime).snapshotExists
      = (if 5 ≤ s.m_saveTimer + deltaTime then true else s.snapshotExists) := by
  unfold PlayState.UpdatePointSystem
  by_cases h1 : 1 / 2 ≤ s.m_leaderboardTimer + deltaTime <;>
  by_cases h2 : 1 ≤ s.m_skillPointTimer + deltaTime <;>
  by_cases h3 : 5 ≤ s.m_saveTimer + deltaTime <;>
  simp only [ge_iff_le, h1, h2, h3, if_true, if_false, PlayState.SaveGameState,
    PlayState.SaveProgressToServer, PlayState.print, PlayState.snapshotExists]
  all_goals first
    | rfl
    | simp [List.foldl_append, Line.snapshotAfter]

theorem accrue_snapshot (deltaTime : F) (s : PlayState F) :
    (s.accrue deltaTime).snapshotExists
      = (if 5 ≤ s.m_saveTimer + deltaTime then true else s.snapshotExists) ∧
    (s.accrue deltaTime).m_savedGameTime
      = (if 5 ≤ s.m_saveTimer + deltaTime then s.m_gameTime + deltaTime
         else s.m_savedGameTime) := by
  constructor
  · exact updatePointSystem_snapshot deltaTime { s with m_gameTime := s.m_gameTime + deltaTime }
  · unfold PlayState.accrue
    obtain ⟨m, c, h, -⟩ := updatePointSystem_frame deltaTime
      { s with m_gameTime := s.m_gameTime + deltaTime }
    rw [h]

theorem checkCollisions_snapshot (sqrt : F → F) (s : PlayState F) :
    (s.CheckCollisions sqrt).snapshotExists = s.snapshotExists := by
  unfold PlayState.CheckCollisions
  show (checkPowerUps sqrt _ _).snapshotExists = _
  rw [checkPowerUps_snapshot, checkEnemies_snapshot]

theorem preSettle_frame (sqrt : F → F) (deltaTime : F) (d : Draws) (a : PlayState F) :
    ∃ e p n k c, (((a.spawn d).UpdateEnemies sqrt deltaTime).UpdatePowerUps deltaTime
        |>.CheckCollisions sqrt)
        = { a with m_enemies := e, m_powerUps := p, m_lives := n, m_score := k, console := c } ∧
      List.foldl Line.snapshotAfter false c = a.snapshotExists := by
  have hs := checkCollisions_snapshot sqrt
    (((a.spawn d).UpdateEnemies sqrt deltaTime).UpdatePowerUps deltaTime)
  obtain ⟨e, n, p, k, c, h, -⟩ := checkCollisions_frame sqrt
    (((a.spawn d).UpdateEnemies sqrt deltaTime).UpdatePowerUps deltaTime)
  rw [h] at hs
  refine ⟨e, p, n, k, c, ?_, ?_⟩
  · rw [h, spawn_frame]
    rfl
  · rw [spawn_frame] at hs
    exact hs

theorem update_gameOver (sqrt : F → F) (deltaTime : F) (d : Draws) (s : PlayState F)
    (hp : s.m_paused = false) (hg : s.m_showGameOver = false) :
    (s.Update sqrt deltaTime d).snapshotExists
      = (if 5 ≤ s.m_saveTimer + deltaTime then true else s.snapshotExists) ∧
    (s.Update sqrt deltaTime d).m_savedGameTime
      = (if 5 ≤ s.m_saveTimer + deltaTime then s.m_gameTime + deltaTime
         else s.m_savedGameTime) ∧
    (s.Update sqrt deltaTime d).m_saveTimer
      = (if 5 ≤ s.m_saveTimer + deltaTime then 0 else s.m_saveTimer + deltaTime) ∧
    ((s.Update sqrt deltaTime d).m_showGameOver = true
      ↔ (s.Update sqrt deltaTime d).m_lives ≤ 0) ∧
    ((s.Update sqrt deltaTime d).m_lives ≤ 0 → (s.Update sqrt deltaTime d).m_canContinue
      = decide ((s.Update sqrt deltaTime d).m_savedGameTime > 0)) := by
  obtain ⟨e, p, n, k, c, h, hc⟩ := preSettle_frame sqrt deltaTime d (s.pollNetwork.accrue deltaTime)
  obtain ⟨m, c0, ha, -⟩ := updatePointSystem_frame deltaTime
    { s.pollNetwork with m_gameTime := s.pollNetwork.m_gameTime + deltaTime }
  obtain ⟨a1, a2⟩ := accrue_snapshot deltaTime s.pollNetwork
  have a3 : (s.pollNetwork.accrue deltaTime).m_saveTimer
      = (if 5 ≤ s.m_saveTimer + deltaTime then 0 else s.m_saveTimer + deltaTime) := by
    unfold PlayState.accrue
    rw [ha]
    rfl
  have a4 : (s.pollNetwork.accrue deltaTime).m_showGameOver = false := by
    unfold PlayState.accrue
    rw [ha]
    exact hg
  obtain ⟨g1, g2, g3, g4, g5⟩ := settle_gameOver
    (((s.pollNetwork.accrue deltaTime).spawn d).UpdateEnemies sqrt deltaTime
      |>.UpdatePowerUps deltaTime |>.CheckCollisions sqrt)
  obtain ⟨g, b, m2, c2, g6⟩ := settle_frame
    (((s.pollNetwork.accrue deltaTime).spawn d).UpdateEnemies sqrt deltaTime
      |>.UpdatePowerUps deltaTime |>.CheckCollisions sqrt)
  rw [update_of_active sqrt deltaTime d s hp hg]
  refine ⟨?_, ?_, ?_, ?_, ?_⟩
  · rw [g1, h]
    exact hc.trans a1
  · rw [g2, h]
    exact a2
  · rw [g6, h]
    exact a3
  · rw [g3]
    constructor
    · intro hgo
      by_contra hl
      rw [(g5 hl).1, h] at hgo
      have : (s.pollNetwork.accrue deltaTime).m_showGameOver = true := hgo
      rw [a4] at this
      exact Bool.false_ne_true this
    · intro hl
      exact (g4 hl).1
  · rw [g3, g2]
    intro hl
    exact (g4 hl).2

theorem callback_snapshot (json : String → SessionIdField) (callback : HttpCallback)
    (r : HttpResponse) (s : PlayState F) :
    (callback.run json r s).snapshotExists = s.snapshotExists ∧
    (callback.run json r s).m_saveTimer = s.m_saveTimer ∧
    (callback.run json r s).m_savedGameTime = s.m_savedGameTime := by
  cases callback
  · simp only [HttpCallback.run, PlayState.onStartSessionResponse]
    split
    · split <;>
        exact ⟨by simp [PlayState.snapshotExists, PlayState.print, List.foldl_append,
          Line.snapshotAfter], rfl, rfl⟩
    · exact ⟨by simp [PlayState.snapshotExists, PlayState.print, List.foldl_append,
        Line.snapshotAfter], rfl, rfl⟩
  · simp only [HttpCallback.run, PlayState.onSaveProgressResponse]
    split <;>
      exact ⟨by simp [PlayState.snapshotExists, PlayState.print, List.foldl_append,
        Line.snapshotAfter], rfl, rfl⟩
  · simp only [HttpCallback.run, PlayState.onEndSessionResponse]
    split <;>
      exact ⟨by simp [PlayState.snapshotExists, PlayState.print, List.foldl_append,
        Line.snapshotAfter], rfl, rfl⟩
  · exact ⟨rfl, rfl, rfl⟩

theorem restartGame_snapshot (s : PlayState F) :
    s.RestartGame.snapshotExists = false ∧ s.RestartGame.m_saveTimer = 0 := by
  unfold PlayState.RestartGame
  simp only []
  constructor
  · rw [startGameSession_snapshot, snapshotExists_print]
    rfl
  · split
    · obtain ⟨m2, c2, h2⟩ := startGameSession_frame (PlayState.print Line.gameRestarted
        { s.EndGameSession with
          m_gameTime := 0, m_score := 0, m_lives := 3, m_leaderboardPoints := 0,
          m_skillPoints := 0, m_leaderboardTimer := 0, m_skillPointTimer := 0, m_saveTimer := 0,
          m_enemies := [], m_powerUps := [], m_savedGameTime := 0, m_savedScore := 0,
          m_savedLeaderboardPoints := 0, m_savedSkillPoints := 0, m_savedEnemies := [],
          m_savedPowerUps := [], m_showGameOver := false, m_paused := false,
          m_canContinue := false })
      rw [h2]
      rfl
    · obtain ⟨m2, c2, h2⟩ := startGameSession_frame (PlayState.print Line.gameRestarted
        { s with
          m_gameTime := 0, m_score := 0, m_lives := 3, m_leaderboardPoints := 0,
          m_skillPoints := 0, m_leaderboardTimer := 0, m_skillPointTimer := 0, m_saveTimer := 0,
          m_enemies := [], m_powerUps := [], m_savedGameTime := 0, m_savedScore := 0,
          m_savedLeaderboardPoints := 0, m_savedSkillPoints := 0, m_savedEnemies := [],
          m_savedPowerUps := [], m_showGameOver := false, m_paused := false,
          m_canContinue := false })
      rw [h2]
      rfl

theorem handleEvent_frame (event : Event) (s : PlayState F) :
    ∃ px py p m, s.HandleEvent event
      = { s with m_playerX := px, m_playerY := py, m_paused := p, m_showPauseMenu := m } := by
  unfold PlayState.HandleEvent
  cases event with
  | keyEscape =>
    simp only []
    split
    · exact ⟨_, _, _, _, rfl⟩
    · exact ⟨_, _, _, _, rfl⟩
  | mouseMotion x y =>
    simp only []
    split
    · exact ⟨_, _, _, _, rfl⟩
    · exact ⟨_, _, _, _, rfl⟩
  | other => exact ⟨_, _, _, _, rfl⟩

theorem renderUI_preserves (P : PlayState F → Prop)
    (hresume : ∀ s, P s → P { s with m_paused := false, m_showPauseMenu := false })
    (hrestart : ∀ s, P s → P s.RestartGame)
    (hrestore : ∀ s, P s → P s.RestoreGameState)
    (clicked : Option Button) (s : PlayState F) (h : P s) : P (s.RenderUI clicked) := by
  have hA : P (if s.m_showPauseMenu then
      (if clicked = some Button.pauseRestart then
        (if clicked = some Button.resume then
          { s with m_paused := false, m_showPauseMenu := false } else s).RestartGame
       else (if clicked = some Button.resume then
          { s with m_paused := false, m_showPauseMenu := false } else s))
      else s) := by
    split
    · split
      · split
        · exact hrestart _ (hresume _ h)
        · exact hrestart _ h
      · split
        · exact hresume _ h
        · exact h
    · exact h
  have hB : ∀ t : PlayState F, P t → P (if t.m_showGameOver then
      (if clicked = some Button.gameOverRestart then
        (if t.m_canContinue then
          (if clicked = some Button.continueFromSave then t.RestoreGameState else t)
         else t).RestartGame
       else (if t.m_canContinue then
          (if clicked = some Button.continueFromSave then t.RestoreGameState else t)
         else t))
      else t) := by
    intro t ht
    split
    · split
      · split
        · split
          · exact hrestart _ (hrestore _ ht)
          · exact hrestart _ ht
        · exact hrestart _ ht
      · split
        · split
          · exact hrestore _ ht
          · exact ht
        · exact ht
    · exact ht
  exact hB _ hA

theorem onEnter_frame (s : PlayState F) :
    s.OnEnter.snapshotExists = s.snapshotExists ∧
    ∃ m c, s.OnEnter = { s with m_authNetworkManager := m, console := c } := by
  unfold PlayState.OnEnter
  simp only []
  constructor
  · rw [startGameSession_snapshot, snapshotExists_print, snapshotExists_print,
      snapshotExists_print]
    rfl
  · obtain ⟨m, c, h⟩ := startGameSession_frame
      (PlayState.print Line.pressEsc (PlayState.print Line.useMouse
        (PlayState.print Line.startingGameplay s)))
    rw [h]
    exact ⟨_, _, rfl⟩

theorem gameReachable_snapshot (sqrt : F → F) (json : String → SessionIdField)
    (s : PlayState F) (h : GameReachable sqrt json s) :
    0 ≤ s.m_gameTime ∧ 0 ≤ s.m_savedGameTime ∧ s.m_saveTimer < 5 ∧
    (0 < s.m_savedGameTime ↔ s.snapshotExists = true) := by
  induction h with
  | init => simp [PlayState.init, PlayState.snapshotExists]
  | setToken s token _ ih =>
    unfold PlayState.SetAuthToken
    split
    · exact ih
    · refine ⟨ih.1, ih.2.1, ih.2.2.1, ?_⟩
      rw [snapshotExists_print]
      exact ih.2.2.2
  | enter s _ ih =>
    obtain ⟨a, m, c, b⟩ := onEnter_frame s
    rw [a, b]
    exact ih
  | event s event _ ih =>
    obtain ⟨px, py, p, m, b⟩ := handleEvent_frame event s
    rw [b]
    exact ih
  | tick s deltaTime d hr hd ih =>
    obtain ⟨h0, h0', h1, h2⟩ := ih
    by_cases ha : s.m_paused = false ∧ s.m_showGameOver = false
    · obtain ⟨u1, u2, u3, -, -⟩ := update_gameOver sqrt deltaTime d s ha.1 ha.2
      obtain ⟨u0, -⟩ := update_accrues sqrt deltaTime d s ha.1 ha.2
      obtain ⟨g0, -⟩ := accrue_points deltaTime s
      rw [u1, u2, u3, u0, g0]
      by_cases c5 : 5 ≤ s.m_saveTimer + deltaTime
      · simp only [c5, if_true]
        have hpos : 0 < deltaTime := by linarith
        exact ⟨by linarith, by linarith, by norm_num, by simp; linarith⟩
      · simp only [c5, if_false]
        exact ⟨by linarith, h0', lt_of_not_le c5, h2⟩
    · have hi : s.m_paused = true ∨ s.m_showGameOver = true := by
        by_cases hp : s.m_paused = true
        · exact Or.inl hp
        · right
          by_contra hg
          exact ha ⟨by simpa using hp, by simpa using hg⟩
      rw [update_of_inactive sqrt deltaTime d s hi]
      exact ⟨h0, h0', h1, h2⟩
  | render s clicked _ ih =>
    apply renderUI_preserves (fun t : PlayState F => 0 ≤ t.m_gameTime ∧ 0 ≤ t.m_savedGameTime ∧
      t.m_saveTimer < 5 ∧ (0 < t.m_savedGameTime ↔ t.snapshotExists = true))
    · intro t ht
      exact ht
    · intro t _
      obtain ⟨a, b⟩ := restartGame_snapshot t
      obtain ⟨g, c, -⟩ := restartGame_frame t
      rw [a, b, c, g]
      simp
    · intro t ht
      obtain ⟨t0, t1, t2, t3⟩ := ht
      refine ⟨t1, t1, t2, ?_⟩
      unfold PlayState.RestoreGameState
      rw [snapshotExists_print]
      exact t3
    · exact ih
  | response s callback r _ ih =>
    obtain ⟨a, b, c⟩ := callback_snapshot json callback r s
    obtain ⟨i, b', c', e⟩ := callback_frame json callback r s
    have hg : (callback.run json r s).m_gameTime = s.m_gameTime := by rw [e]
    rw [a, b, c, hg]
    exact ih

theorem gameReachable_run (sqrt : F → F) (json : String → SessionIdField)
    (frames : List (F × Draws)) (hd : ∀ frame ∈ frames, 0 ≤ frame.1) (s : PlayState F)
    (h : GameReachable sqrt json s) : GameReachable sqrt json (s.run sqrt frames) := by
  induction frames generalizing s with
  | nil => exact h
  | cons frame rest ih =>
    exact ih (fun f hf => hd f (List.mem_cons_of_mem _ hf)) _
      (GameReachable.tick s frame.1 frame.2 h (hd frame (List.mem_cons_self _ _)))

/-- Claim C19.  In every state that the game reaches from construction through
`SetAuthToken`, `OnEnter`, input events, `RenderUI` frames with their button clicks, ticks
with a non-negative frame time and response deliveries, an unpaused tick ends with
`m_showGameOver` set exactly when `m_lives <= 0` at the end of the tick; and when it is set,
`m_canContinue` is true exactly when a checkpoint exists, that is when `SaveGameState` has run
since construction or since the last `RestartGame`. -/
theorem game_over_iff_no_lives_left (sqrt : F → F) (json : String → SessionIdField)
    (s : PlayState F) (h : GameReachable sqrt json s) (deltaTime : F) (hd : 0 ≤ deltaTime)
    (d : Draws) (hp : s.m_paused = false) (hg : s.m_showGameOver = false) :
    ((s.Update sqrt deltaTime d).m_showGameOver = true
      ↔ (s.Update sqrt deltaTime d).m_lives ≤ 0) ∧
    ((s.Update sqrt deltaTime d).m_showGameOver = true →
      ((s.Update sqrt deltaTime d).m_canContinue = true
        ↔ (s.Update sqrt deltaTime d).snapshotExists = true)) := by
  obtain ⟨-, -, -, u4, u5⟩ := update_gameOver sqrt deltaTime d s hp hg
  obtain ⟨-, -, -, r2⟩ :=
    gameReachable_snapshot sqrt json _ (GameReachable.tick s deltaTime d h hd)
  refine ⟨u4, fun hgo => ?_⟩
  rw [u5 (u4.1 hgo), ← r2]
  simp

/-- Witness of C19: the tick that takes the last life.  The play state has its token and is
entered, the player holds the cursor at `(640, 0)` and has lost two lives; in the next frame
of 50 ms a third enemy spawns above the cursor and hits it.  The tick ends game over, no
checkpoint exists yet and no continue is offered. -/
theorem game_over_iff_no_lives_left_witness :
    (lastLifeExample.Update Rat.sqrt (1 / 20) hitDraws).m_lives = 0 ∧
    (lastLifeExample.Update Rat.sqrt (1 / 20) hitDraws).m_showGameOver = true ∧
    ((lastLifeExample.Update Rat.sqrt (1 / 20) hitDraws).m_canContinue = true
      ↔ (lastLifeExample.Update Rat.sqrt (1 / 20) hitDraws).snapshotExists = true) ∧
    (lastLifeExample.Update Rat.sqrt (1 / 20) hitDraws).m_canContinue = false :=
  have hgo : (lastLifeExample.Update Rat.sqrt (1 / 20) hitDraws).m_showGameOver = true := by
    decide!
  ⟨by decide!, hgo,
   (game_over_iff_no_lives_left Rat.sqrt exampleJson lastLifeExample
      (gameReachable_run Rat.sqrt exampleJson _ (by decide!) _
        (GameReachable.event _ _
          (GameReachable.enter _ (GameReachable.setToken _ _ GameReachable.init))))
      (1 / 20) (by norm_num) hitDraws (by decide!) (by decide!)).2 hgo,
   by decide!⟩

end GameOver

/-! ## Auth responses -/

section Auth

theorem authResponseOf_ok (parse : String → Option Json) (indeterminate c : Int)
    (data : String) :
    (AuthNetworkManager.authResponseOf parse indeterminate (CurlResult.ok c data)).success
      = decide (200 ≤ c ∧ c < 300) ∧
    (AuthNetworkManager.authResponseOf parse indeterminate (CurlResult.ok c data)).error
      = (if decide (200 ≤ c ∧ c < 300) = false ∧
            (AuthNetworkManager.ParseAuthResponse parse indeterminate data).error.isEmpty = true
          then "HTTP " ++ toString c
          else (AuthNetworkManager.ParseAuthResponse parse indeterminate data).error) := by
  unfold AuthNetworkManager.authResponseOf
  by_cases hc : 200 ≤ c ∧ c < 300
  · simp [hc]
  · by_cases he : (AuthNetworkManager.ParseAuthResponse parse indeterminate data).error.isEmpty
        = true
    · simp [hc, he]
    · simp [hc, he]

/-- Claim C17 fails in the code.  The body `not json` does not parse, the transport succeeds:
with status 200 the `AuthResponse` handed to the callback has `success = true`, next to the
error text `Failed to parse server response`.  `ParseAuthResponse` leaves `success` false, and
line 171 of `Update` overwrites it with the status test.  With status 500 the response is the
one the claim describes; for every status `c` the flag is `200 <= c < 300`. -/
theorem unparseable_auth_body_passes_as_success :
    (AuthNetworkManager.ParseAuthResponse exampleParse 0 "not json").success = false ∧
    (AuthNetworkManager.authResponseOf exampleParse 0 (CurlResult.ok 200 "not json")).success
      = true ∧
    (AuthNetworkManager.authResponseOf exampleParse 0 (CurlResult.ok 200 "not json")).error
      = "Failed to parse server response" ∧
    (AuthNetworkManager.authResponseOf exampleParse 0 (CurlResult.ok 200 "not json")).token
      = "" ∧
    (AuthNetworkManager.authResponseOf exampleParse 0 (CurlResult.ok 500 "not json")).success
      = false ∧
    (AuthNetworkManager.authResponseOf exampleParse 0 (CurlResult.ok 500 "not json")).error
      = "Failed to parse server response" ∧
    (∀ c : Int,
      (AuthNetworkManager.authResponseOf exampleParse 0 (CurlResult.ok c "not json")).success
        = decide (200 ≤ c ∧ c < 300) ∧
      (AuthNetworkManager.authResponseOf exampleParse 0 (CurlResult.ok c "not json")).error
        = "Failed to parse server response") := by
  refine ⟨by decide, by decide, by decide, by decide, by decide, by decide, fun c => ?_⟩
  obtain ⟨h1, h2⟩ := authResponseOf_ok exampleParse 0 c "not json"
  have hp : (AuthNetworkManager.ParseAuthResponse exampleParse 0 "not json").error
      = "Failed to parse server response" := by decide
  refine ⟨h1, ?_⟩
  rw [h2, hp]
  have he : ("Failed to parse server response" : String).isEmpty = false := by decide
  simp [he]

end Auth

/-! ## Purge of inactive entities -/

section Purge

variable {F : Type} [LinearOrderedField F] [FloorRing F]

theorem update_powerUps_active (sqrt : F → F) (deltaTime : F) (d : Draws) (s : PlayState F)
    (hp : s.m_paused = false) (hg : s.m_showGameOver = false) :
    ∀ p ∈ (s.Update sqrt deltaTime d).m_powerUps, p.active = true := by
  obtain ⟨g, k, m, c, h⟩ := settle_frame
    ((((s.pollNetwork.accrue deltaTime).spawn d).UpdateEnemies sqrt deltaTime).UpdatePowerUps
        deltaTime |>.CheckCollisions sqrt)
  rw [update_of_active sqrt deltaTime d s hp hg, h]
  intro p hmem
  have hmem' : p ∈ ((((s.pollNetwork.accrue deltaTime).spawn d).UpdateEnemies sqrt
      deltaTime).UpdatePowerUps deltaTime |>.CheckCollisions sqrt).m_powerUps := hmem
  unfold PlayState.CheckCollisions at hmem'
  simp only [List.mem_filter] at hmem'
  exact hmem'.2

/-- Claim C21 fails in the code for enemies.  An enemy that hits the cursor is marked inactive
by `CheckCollisions`, which erases the inactive power-ups only: at the end of the tick the
enemy is still in `m_enemies` with `active = false`, it counts 10 in the score of that tick,
and it is erased by `UpdateEnemies` in the next tick.  For power-ups the claim holds after
every unpaused tick. -/
theorem hit_enemy_stays_in_list_after_tick :
    collidingExample.m_paused = false ∧ collidingExample.m_showGameOver = false ∧
    (collidingExample.Update Rat.sqrt (1 / 100) Draws.zero).m_enemies
      = [{ x := 643, y := 364, vx := -60, vy := -80, type := 0, active := false, size := 20 }] ∧
    (collidingExample.Update Rat.sqrt (1 / 100) Draws.zero).m_lives = 2 ∧
    (collidingExample.Update Rat.sqrt (1 / 100) Draws.zero).m_score = 22 ∧
    (collidingExample.Update Rat.sqrt (1 / 100) Draws.zero).m_paused = false ∧
    (collidingExample.Update Rat.sqrt (1 / 100) Draws.zero).m_showGameOver = false ∧
    ((collidingExample.Update Rat.sqrt (1 / 100) Draws.zero).Update Rat.sqrt (1 / 100)
      Draws.zero).m_enemies = [] ∧
    (∀ (sqrt : ℚ → ℚ) (deltaTime : ℚ) (d : Draws) (s : PlayState ℚ),
      s.m_paused = false → s.m_showGameOver = false →
      ∀ p ∈ (s.Update sqrt deltaTime d).m_powerUps, p.active = true) := by
  refine ⟨rfl, rfl, ?_, ?_, ?_, ?_, ?_, ?_, ?_⟩
  · decide!
  · decide!
  · decide!
  · decide!
  · decide!
  · decide!
  · intro sqrt deltaTime d s hp hg
    exact update_powerUps_active sqrt deltaTime d s hp hg

end Purge

/-! ## Checkpoints -/

section Checkpoint

variable {F : Type} [LinearOrderedField F] [FloorRing F]

theorem update_saved (sqrt : F → F) (deltaTime : F) (d : Draws) (s : PlayState F)
    (hp : s.m_paused = false) (hg : s.m_showGameOver = false) :
    (s.Update sqrt deltaTime d).m_savedGameTime
      = (if 5 ≤ s.m_saveTimer + deltaTime then s.m_gameTime + deltaTime
         else s.m_savedGameTime) ∧
    (s.Update sqrt deltaTime d).m_savedScore
      = (if 5 ≤ s.m_saveTimer + deltaTime then s.m_score else s.m_savedScore) ∧
    (s.Update sqrt deltaTime d).m_savedLeaderboardPoints
      = (if 5 ≤ s.m_saveTimer + deltaTime then (s.Update sqrt deltaTime d).m_leaderboardPoints
         else s.m_savedLeaderboardPoints) ∧
    (s.Update sqrt deltaTime d).m_savedSkillPoints
      = (if 5 ≤ s.m_saveTimer + deltaTime then (s.Update sqrt deltaTime d).m_skillPoints
         else s.m_savedSkillPoints) ∧
    (s.Update sqrt deltaTime d).m_savedEnemies
      = (if 5 ≤ s.m_saveTimer + deltaTime then s.m_enemies else s.m_savedEnemies) ∧
    (s.Update sqrt deltaTime d).m_savedPowerUps
      = (if 5 ≤ s.m_saveTimer + deltaTime then s.m_powerUps else s.m_savedPowerUps) ∧
    (s.Update sqrt deltaTime d).m_saveTimer
      = (if 5 ≤ s.m_saveTimer + deltaTime then 0 else s.m_saveTimer + deltaTime) ∧
    (s.Update sqrt deltaTime d).console.countP Line.isSave
      = s.console.countP Line.isSave + (if 5 ≤ s.m_saveTimer + deltaTime then 1 else 0) := by
  obtain ⟨e, p, n, k, g, b, m, c, hu, -⟩ := update_active_frame sqrt deltaTime d s hp hg
  obtain ⟨m0, c0, ha, -⟩ := updatePointSystem_frame deltaTime
    { s.pollNetwork with m_gameTime := s.pollNetwork.m_gameTime + deltaTime }
  obtain ⟨-, -, -, -, -, -, -, -, s8⟩ := update_sameAccrual sqrt deltaTime d s hp hg
  obtain ⟨-, -, -, -, -, -, -, -, a8⟩ := accrue_points deltaTime s
  refine ⟨?_, ?_, ?_, ?_, ?_, ?_, ?_, ?_⟩
  · rw [hu]; unfold PlayState.accrue; rw [ha]; rfl
  · rw [hu]; unfold PlayState.accrue; rw [ha]; rfl
  · rw [hu]; unfold PlayState.accrue; rw [ha]; rfl
  · rw [hu]; unfold PlayState.accrue; rw [ha]; rfl
  · rw [hu]; unfold PlayState.accrue; rw [ha]; rfl
  · rw [hu]; unfold PlayState.accrue; rw [ha]; rfl
  · rw [hu]; unfold PlayState.accrue; rw [ha]; rfl
  · rw [s8, a8]

theorem update_keeps_snapshot (sqrt : F → F) (deltaTime : F) (d : Draws) (s : PlayState F) :
    s.console.countP Line.isSave ≤ (s.Update sqrt deltaTime d).console.countP Line.isSave ∧
    ((s.Update sqrt deltaTime d).console.countP Line.isSave = s.console.countP Line.isSave →
      (s.Update sqrt deltaTime d).m_savedGameTime = s.m_savedGameTime ∧
      (s.Update sqrt deltaTime d).m_savedScore = s.m_savedScore ∧
      (s.Update sqrt deltaTime d).m_savedLeaderboardPoints = s.m_savedLeaderboardPoints ∧
      (s.Update sqrt deltaTime d).m_savedSkillPoints = s.m_savedSkillPoints ∧
      (s.Update sqrt deltaTime d).m_savedEnemies = s.m_savedEnemies ∧
      (s.Update sqrt deltaTime d).m_savedPowerUps = s.m_savedPowerUps) := by
  by_cases ha : s.m_paused = false ∧ s.m_showGameOver = false
  · obtain ⟨u1, u2, u3, u4, u5, u6, -, u8⟩ := update_saved sqrt deltaTime d s ha.1 ha.2
    by_cases h5 : 5 ≤ s.m_saveTimer + deltaTime
    · rw [if_pos h5] at u8
      exact ⟨by omega, fun h => by omega⟩
    · rw [if_neg h5] at u1 u2 u3 u4 u5 u6 u8
      exact ⟨by omega, fun _ => ⟨u1, u2, u3, u4, u5, u6⟩⟩
  · have hi : s.m_paused = true ∨ s.m_showGameOver = true := by
      by_cases hp : s.m_paused = true
      · exact Or.inl hp
      · right
        by_contra hg
        exact ha ⟨by simpa using hp, by simpa using hg⟩
    rw [update_of_inactive sqrt deltaTime d s hi]
    exact ⟨le_rfl, fun _ => ⟨rfl, rfl, rfl, rfl, rfl, rfl⟩⟩

theorem run_keeps_snapshot (sqrt : F → F) (frames : List (F × Draws)) (s : PlayState F) :
    s.console.countP Line.isSave ≤ (s.run sqrt frames).console.countP Line.isSave ∧
    ((s.run sqrt frames).console.countP Line.isSave = s.console.countP Line.isSave →
      (s.run sqrt frames).m_savedGameTime = s.m_savedGameTime ∧
      (s.run sqrt frames).m_savedScore = s.m_savedScore ∧
      (s.run sqrt frames).m_savedLeaderboardPoints = s.m_savedLeaderboardPoints ∧
      (s.run sqrt frames).m_savedSkillPoints = s.m_savedSkillPoints ∧
      (s.run sqrt frames).m_savedEnemies = s.m_savedEnemies ∧
      (s.run sqrt frames).m_savedPowerUps = s.m_savedPowerUps) := by
  induction frames generalizing s with
  | nil => exact ⟨le_rfl, fun _ => ⟨rfl, rfl, rfl, rfl, rfl, rfl⟩⟩
  | cons frame rest ih =>
    obtain ⟨a1, a2⟩ := update_keeps_snapshot sqrt frame.1 frame.2 s
    obtain ⟨b1, b2⟩ := ih (s.Update sqrt frame.1 frame.2)
    have hrun : s.run sqrt (frame :: rest) = (s.Update sqrt frame.1 frame.2).run sqrt rest := rfl
    rw [hrun]
    refine ⟨a1.trans b1, fun h => ?_⟩
    obtain ⟨c1, c2, c3, c4, c5, c6⟩ := b2 (by omega)
    obtain ⟨d1, d2, d3, d4, d5, d6⟩ := a2 (by omega)
    exact ⟨c1.trans d1, c2.trans d2, c3.trans d3, c4.trans d4, c5.trans d5, c6.trans d6⟩

/-- Claim C22.  Take any state, run `SaveGameState`, then any run of frame ticks in which no
further snapshot is taken (no new `Game state saved` line).  `RestoreGameState` then sets game
time, score, both point totals and both entity lists to the values they had when
`SaveGameState` ran, whatever the snapshot held before and whatever the ticks did, sets the
lives to 3 and clears `m_showGameOver` and `m_paused`. -/
theorem restore_returns_to_last_snapshot (sqrt : F → F) (s : PlayState F)
    (frames : List (F × Draws))
    (h : (s.SaveGameState.run sqrt frames).console.countP Line.isSave
      = s.SaveGameState.console.countP Line.isSave) :
    (s.SaveGameState.run sqrt frames).RestoreGameState.m_gameTime = s.m_gameTime ∧
    (s.SaveGameState.run sqrt frames).RestoreGameState.m_score = s.m_score ∧
    (s.SaveGameState.run sqrt frames).RestoreGameState.m_leaderboardPoints
      = s.m_leaderboardPoints ∧
    (s.SaveGameState.run sqrt frames).RestoreGameState.m_skillPoints = s.m_skillPoints ∧
    (s.SaveGameState.run sqrt frames).RestoreGameState.m_enemies = s.m_enemies ∧
    (s.SaveGameState.run sqrt frames).RestoreGameState.m_powerUps = s.m_powerUps ∧
    (s.SaveGameState.run sqrt frames).RestoreGameState.m_lives = 3 ∧
    (s.SaveGameState.run sqrt frames).RestoreGameState.m_showGameOver = false ∧
    (s.SaveGameState.run sqrt frames).RestoreGameState.m_paused = false := by
  obtain ⟨c1, c2, c3, c4, c5, c6⟩ := (run_keeps_snapshot sqrt frames s.SaveGameState).2 h
  exact ⟨c1, c2, c3, c4, c5, c6, rfl, rfl, rfl⟩

/-- Witness of C22: a snapshot of the fresh game with session `abc`, then two frames. -/
theorem restore_returns_to_last_snapshot_witness :
    ((activeExample : PlayState ℚ).SaveGameState.run Rat.sqrt
      [(1 / 100, Draws.zero), (1 / 100, Draws.zero)]).RestoreGameState.m_gameTime = 0 ∧
    ((activeExample : PlayState ℚ).SaveGameState.run Rat.sqrt
      [(1 / 100, Draws.zero), (1 / 100, Draws.zero)]).RestoreGameState.m_lives = 3 :=
  ⟨(restore_returns_to_last_snapshot Rat.sqrt (activeExample : PlayState ℚ)
      [(1 / 100, Draws.zero), (1 / 100, Draws.zero)] (by decide!)).1,
   (restore_returns_to_last_snapshot Rat.sqrt (activeExample : PlayState ℚ)
      [(1 / 100, Draws.zero), (1 / 100, Draws.zero)] (by decide!)).2.2.2.2.2.2.1⟩

end Checkpoint

/-! ## Enemy motion and culling -/

section Motion

variable {F : Type} [LinearOrderedField F] [FloorRing F]

theorem stepEnemy_active (sqrt : F → F) (playerX playerY deltaTime : F) (e : Enemy F) :
    (stepEnemy sqrt playerX playerY deltaTime e).active
      = (e.active && decide (
          -100 ≤ (stepEnemy sqrt playerX playerY deltaTime e).x ∧
          (stepEnemy sqrt playerX playerY deltaTime e).x ≤ 1380 ∧
          -100 ≤ (stepEnemy sqrt playerX playerY deltaTime e).y ∧
          (stepEnemy sqrt playerX playerY deltaTime e).y ≤ 820)) := by
  unfold stepEnemy
  by_cases ha : e.active = true
  · simp only [ha, Bool.not_true, Bool.false_eq_true, if_false, Bool.true_and]
    split <;> rename_i hd <;> split <;> rename_i hc
    all_goals
      first
      | (simp only [ha]
         rcases hc with hc | hc | hc | hc <;> simp [hc, not_le.2 hc])
      | (simp only [not_or, not_lt] at hc
         simp [ha, hc.1, hc.2.1, hc.2.2.1, hc.2.2.2])
  · have ha' : e.active = false := by simpa using ha
    simp [ha']

/-- Claim C24.  `UpdateEnemies` keeps, in their order, exactly the enemies that were active
before the pass and whose position after the move satisfies `-100 <= x <= 1380` and
`-100 <= y <= 820`, each in its moved form; every other enemy is removed, and every enemy
that is left is active. -/
theorem updateEnemies_keeps_active_on_screen (sqrt : F → F) (deltaTime : F) (s : PlayState F) :
    (s.UpdateEnemies sqrt deltaTime).m_enemies
      = (s.m_enemies.filter (fun e => e.active && decide (
          -100 ≤ (stepEnemy sqrt s.m_playerX s.m_playerY deltaTime e).x ∧
          (stepEnemy sqrt s.m_playerX s.m_playerY deltaTime e).x ≤ 1380 ∧
          -100 ≤ (stepEnemy sqrt s.m_playerX s.m_playerY deltaTime e).y ∧
          (stepEnemy sqrt s.m_playerX s.m_playerY deltaTime e).y ≤ 820))).map
        (stepEnemy sqrt s.m_playerX s.m_playerY deltaTime) ∧
    (∀ e ∈ (s.UpdateEnemies sqrt deltaTime).m_enemies, e.active = true) := by
  constructor
  · unfold PlayState.UpdateEnemies
    simp only [List.filter_map]
    congr 1
    apply List.filter_congr
    intro e _
    exact stepEnemy_active sqrt s.m_playerX s.m_playerY deltaTime e
  · intro e he
    unfold PlayState.UpdateEnemies at he
    simp only [List.mem_filter] at he
    exact he.2

theorem stepEnemy_of_active (sqrt : F → F) (playerX playerY deltaTime : F) (e : Enemy F)
    (ha : e.active = true) :
    (stepEnemy sqrt playerX playerY deltaTime e).vx
      = (if sqrt ((playerX - e.x) * (playerX - e.x) + (playerY - e.y) * (playerY - e.y)) > 0
         then e.vx + ((playerX - e.x) / sqrt ((playerX - e.x) * (playerX - e.x)
            + (playerY - e.y) * (playerY - e.y))) * 20 * deltaTime
         else e.vx) ∧
    (stepEnemy sqrt playerX playerY deltaTime e).vy
      = (if sqrt ((playerX - e.x) * (playerX - e.x) + (playerY - e.y) * (playerY - e.y)) > 0
         then e.vy + ((playerY - e.y) / sqrt ((playerX - e.x) * (playerX - e.x)
            + (playerY - e.y) * (playerY - e.y))) * 20 * deltaTime
         else e.vy) ∧
    (stepEnemy sqrt playerX playerY deltaTime e).x
      = e.x + (stepEnemy sqrt playerX playerY deltaTime e).vx * deltaTime ∧
    (stepEnemy sqrt playerX playerY deltaTime e).y
      = e.y + (stepEnemy sqrt playerX playerY deltaTime e).vy * deltaTime := by
  unfold stepEnemy
  simp only [ha, Bool.not_true, Bool.false_eq_true, if_false]
  split <;> split <;> exact ⟨rfl, rfl, rfl, rfl⟩

/-- Claim C25.  Over the reals, the loop body of `UpdateEnemies` takes an active enemy at
`(x, y)` with velocity `(vx, vy)`, the player at `(playerX, playerY)` and `dist` the distance
between the two: when `dist > 0` the new velocity is the old one plus
`20 * deltaTime * (player - enemy) / dist`, when `dist = 0` the velocity is unchanged and
nothing is divided; the new position is the old one plus `deltaTime` times the new
velocity.  `UpdateEnemies` applies this body to every enemy before it erases the inactive
ones. -/
theorem enemy_steers_toward_player (playerX playerY deltaTime : ℝ) (e : Enemy ℝ)
    (ha : e.active = true) :
    (0 < dist (point playerX playerY) (point e.x e.y) →
      (stepEnemy Real.sqrt playerX playerY deltaTime e).vx
        = e.vx + 20 * deltaTime * (playerX - e.x) / dist (point playerX playerY) (point e.x e.y) ∧
      (stepEnemy Real.sqrt playerX playerY deltaTime e).vy
        = e.vy + 20 * deltaTime * (playerY - e.y)
            / dist (point playerX playerY) (point e.x e.y)) ∧
    (dist (point playerX playerY) (point e.x e.y) = 0 →
      (stepEnemy Real.sqrt playerX playerY deltaTime e).vx = e.vx ∧
      (stepEnemy Real.sqrt playerX playerY deltaTime e).vy = e.vy) ∧
    (stepEnemy Real.sqrt playerX playerY deltaTime e).x
      = e.x + deltaTime * (stepEnemy Real.sqrt playerX playerY deltaTime e).vx ∧
    (stepEnemy Real.sqrt playerX playerY deltaTime e).y
      = e.y + deltaTime * (stepEnemy Real.sqrt playerX playerY deltaTime e).vy ∧
    (∀ s : PlayState ℝ, (s.UpdateEnemies Real.sqrt deltaTime).m_enemies
      = (s.m_enemies.map (stepEnemy Real.sqrt s.m_playerX s.m_playerY deltaTime)).filter
          (fun enemy => enemy.active)) := by
  obtain ⟨h1, h2, h3, h4⟩ := stepEnemy_of_active Real.sqrt playerX playerY deltaTime e ha
  rw [← euclid_dist] at h1 h2
  refine ⟨fun hd => ?_, fun hd => ?_, ?_, ?_, fun s => rfl⟩
  · rw [h1, h2, if_pos hd, if_pos hd]
    constructor <;> ring
  · rw [h1, h2, hd]
    simp
  · rw [h3]; ring
  · rw [h4]; ring

/-- Witness of C25: an enemy 5 units from the cursor, a frame of 10 ms. -/
theorem enemy_steers_toward_player_witness :
    (stepEnemy Real.sqrt 640 360 (1 / 100)
      { x := 643, y := 364, vx := 0, vy := 0, type := 0, active := true, size := 20 }).x
      = 643 + 1 / 100 * (stepEnemy Real.sqrt 640 360 (1 / 100)
          { x := 643, y := 364, vx := 0, vy := 0, type := 0, active := true, size := 20 }).vx :=
  (enemy_steers_toward_player 640 360 (1 / 100)
    { x := 643, y := 364, vx := 0, vy := 0, type := 0, active := true, size := 20 } rfl).2.2.1

end Motion

/-! ## Restart -/

section Restart

variable {F : Type} [LinearOrderedField F] [FloorRing F]

/-- Claim C26.  `RestartGame`, on a play state that has its network manager, sets game time,
score, both point totals, the three timers and the four saved scalars to 0, empties the live
and the saved entity lists, sets the lives to 3, clears `m_showGameOver`, `m_paused` and
`m_canContinue`, and appends to the queue the end-session request of the old session exactly
when a session is active (started, identifier non-empty), followed by exactly one
start-session request. -/
theorem restartGame_resets_and_requeues (s : PlayState F) (m : AuthNetworkManager F)
    (hm : s.m_authNetworkManager = some m) :
    s.RestartGame.m_gameTime = 0 ∧ s.RestartGame.m_score = 0 ∧
    s.RestartGame.m_leaderboardPoints = 0 ∧ s.RestartGame.m_skillPoints = 0 ∧
    s.RestartGame.m_leaderboardTimer = 0 ∧ s.RestartGame.m_skillPointTimer = 0 ∧
    s.RestartGame.m_saveTimer = 0 ∧
    s.RestartGame.m_savedGameTime = 0 ∧ s.RestartGame.m_savedScore = 0 ∧
    s.RestartGame.m_savedLeaderboardPoints = 0 ∧ s.RestartGame.m_savedSkillPoints = 0 ∧
    s.RestartGame.m_enemies = [] ∧ s.RestartGame.m_powerUps = [] ∧
    s.RestartGame.m_savedEnemies = [] ∧ s.RestartGame.m_savedPowerUps = [] ∧
    s.RestartGame.m_lives = 3 ∧
    s.RestartGame.m_showGameOver = false ∧ s.RestartGame.m_paused = false ∧
    s.RestartGame.m_canContinue = false ∧
    s.RestartGame.queued = s.queued ++
      (if s.m_sessionStarted = true ∧ s.m_sessionId ≠ "" then
        [{ url := "/api/game/session/end", method := "POST",
           body := [("sessionId", JVal.str s.m_sessionId), ("finalScore", JVal.int s.m_score),
             ("leaderboardPointsEarned", JVal.int s.m_leaderboardPoints),
             ("skillPointsEarned", JVal.int s.m_skillPoints),
             ("survivalTime", JVal.num s.m_gameTime),
             ("kills", JVal.int 0), ("damageDealt", JVal.int 0),
             ("damageTaken", JVal.int ((3 - s.m_lives) * 100)),
             ("waveReached", JVal.int (toInt (s.m_gameTime / 30) + 1)),
             ("endReason", JVal.str "player_death")],
           httpCallback := some HttpCallback.endSession, isAuthRequest := false }]
       else []) ++
      [{ url := "/api/game/session/start", method := "POST",
         body := [("gameMode", JVal.str "normal")],
         httpCallback := some HttpCallback.startSession, isAuthRequest := false }] := by
  by_cases hs : s.m_sessionStarted = true
  · by_cases hid : s.m_sessionId = ""
    · simp [PlayState.RestartGame, PlayState.StartGameSession, PlayState.print,
        PlayState.queued, hm, hs, hid, isEmpty_empty, AuthNetworkManager.StartGameSession,
        AuthNetworkManager.MakeHttpRequest]
    · have hid' : s.m_sessionId.isEmpty = false := by
        rw [Bool.eq_false_iff]; intro h; exact hid ((String.isEmpty_iff _).1 h)
      simp [PlayState.RestartGame, PlayState.EndGameSession, PlayState.StartGameSession,
        PlayState.print, PlayState.queued, hm, hs, hid, hid',
        AuthNetworkManager.EndGameSession, AuthNetworkManager.StartGameSession,
        AuthNetworkManager.MakeHttpRequest]
  · have hs' : s.m_sessionStarted = false := by simpa using hs
    simp [PlayState.RestartGame, PlayState.StartGameSession, PlayState.print,
      PlayState.queued, hm, hs', AuthNetworkManager.StartGameSession,
      AuthNetworkManager.MakeHttpRequest]

/-- Witness of C26: the restart of a game whose session `abc` is active. -/
theorem restartGame_resets_and_requeues_witness :
    (activeExample : PlayState ℚ).RestartGame.m_lives = 3 ∧
    ((activeExample : PlayState ℚ).RestartGame.queued.map (fun request => request.url))
      = ["/api/game/session/end", "/api/game/session/start"] :=
  ⟨(restartGame_resets_and_requeues (activeExample : PlayState ℚ)
      { requestQueue := [], dispatched := [] } rfl).2.2.2.2.2.2.2.2.2.2.2.2.2.2.2.1,
   by
    rw [(restartGame_resets_and_requeues (activeExample : PlayState ℚ)
      { requestQueue := [], dispatched := [] } rfl).2.2.2.2.2.2.2.2.2.2.2.2.2.2.2.2.2.2.2]
    decide⟩

end Restart

/-! ## Email registration -/

section Registration

variable {F : Type} [LinearOrderedField F] [FloorRing F]

/-- Claim C27.  `OnEmailRegister` enqueues a request, one GET to the email check, exactly when
the form is valid: the username has at least 3 chars, the email is non-empty and contains
`@`, the password has at least 6 chars and equals the confirmation (lengths as
`std::string::length` counts them).  Otherwise, a password mismatch included, the manager and
its queue are as before and the error message is set to a non-empty text. -/
theorem register_validates_before_any_request (s : AuthChoiceState F) :
    ((3 ≤ s.m_username.utf8ByteSize ∧ s.m_email ≠ "" ∧ s.m_email.toList.contains '@' = true ∧
        6 ≤ s.m_password.utf8ByteSize ∧ s.m_password = s.m_confirmPassword) →
      s.OnEmailRegister.m_authNetworkManager.requestQueue
        = s.m_authNetworkManager.requestQueue ++
          [{ url := "/api/auth/check-email?email=" ++ s.m_email, method := "GET", body := [],
             httpCallback := some HttpCallback.emailCheck, isAuthRequest := false }] ∧
      s.OnEmailRegister.m_authNetworkManager.dispatched = s.m_authNetworkManager.dispatched) ∧
    (¬ (3 ≤ s.m_username.utf8ByteSize ∧ s.m_email ≠ "" ∧
        s.m_email.toList.contains '@' = true ∧
        6 ≤ s.m_password.utf8ByteSize ∧ s.m_password = s.m_confirmPassword) →
      s.OnEmailRegister.m_authNetworkManager = s.m_authNetworkManager ∧
      s.OnEmailRegister.m_errorMessage ≠ "") := by
  have e0 : s.m_email.isEmpty = true ↔ s.m_email = "" := String.isEmpty_iff _
  constructor
  · rintro ⟨v1, v2, v3, v4, v5⟩
    have w2 : s.m_email.isEmpty = false := by
      rw [Bool.eq_false_iff]; exact fun h => v2 (e0.1 h)
    have c1 : ¬ s.m_username.utf8ByteSize < 3 := by omega
    have c3 : ¬ s.m_password.utf8ByteSize < 6 := by omega
    have c2 : ¬ (s.m_email.isEmpty || !s.m_email.toList.contains '@') = true := by
      rw [w2, v3]; decide
    have c4 : ¬ (s.m_password != s.m_confirmPassword) = true := by
      rw [v5]; simp
    have hv : s.ValidateEmailForm = (true, s) := by
      unfold AuthChoiceState.ValidateEmailForm
      rw [if_neg c1, if_neg c2, if_neg c3, if_neg c4]
    have hr : s.OnEmailRegister = s.CheckEmailAndRegister := by
      unfold AuthChoiceState.OnEmailRegister
      rw [hv]
      rfl
    rw [hr]
    exact ⟨rfl, rfl⟩
  · intro h
    unfold AuthChoiceState.OnEmailRegister AuthChoiceState.ValidateEmailForm
    by_cases h1 : s.m_username.utf8ByteSize < 3
    · simp only [h1, if_true, Bool.false_eq_true, if_false]
      exact ⟨trivial, by decide⟩
    · by_cases h2 : (s.m_email.isEmpty || !s.m_email.toList.contains '@') = true
      · simp only [h1, h2, if_true, Bool.false_eq_true, if_false]
        exact ⟨trivial, by decide⟩
      · by_cases h3 : s.m_password.utf8ByteSize < 6
        · simp only [h1, h2, h3, if_true, Bool.false_eq_true, if_false]
          exact ⟨trivial, by decide⟩
        · by_cases h4 : (s.m_password != s.m_confirmPassword) = true
          · simp only [h1, h2, h3, h4, if_true, Bool.false_eq_true, if_false]
            exact ⟨trivial, by decide⟩
          · exfalso
            apply h
            simp only [Bool.or_eq_true, Bool.not_eq_true', not_or, Bool.not_eq_true,
              Bool.not_eq_false] at h2
            refine ⟨by omega, fun he => ?_, h2.2, by omega, by simpa using h4⟩
            rw [e0.2 he] at h2
            exact absurd h2.1 (by decide)

/-- Witness of C27: a valid form enqueues the email check, a password mismatch enqueues
nothing and sets the error message. -/
theorem register_validates_before_any_request_witness :
    (filledForm.OnEmailRegister.m_authNetworkManager.requestQueue.map
      (fun request => request.url)) = ["/api/auth/check-email?email=alice@example.org"] ∧
    mismatchedForm.OnEmailRegister.m_authNetworkManager.requestQueue = [] ∧
    mismatchedForm.OnEmailRegister.m_errorMessage ≠ "" :=
  ⟨by
    rw [((register_validates_before_any_request filledForm).1 (by decide)).1]
    decide,
   congrArg AuthNetworkManager.requestQueue
    ((register_validates_before_any_request mismatchedForm).2 (by decide)).1,
   ((register_validates_before_any_request mismatchedForm).2 (by decide)).2⟩

end Registration

/-! ## Point totals against game time -/

section PointBounds

variable {F : Type} [LinearOrderedField F] [FloorRing F]

theorem restartGame_points (s : PlayState F) :
    s.RestartGame.m_gameTime = 0 ∧ s.RestartGame.m_leaderboardPoints = 0 ∧
    s.RestartGame.m_skillPoints = 0 ∧ s.RestartGame.m_leaderboardTimer = 0 ∧
    s.RestartGame.m_skillPointTimer = 0 := by
  unfold PlayState.RestartGame
  simp only []
  split
  · obtain ⟨m2, c2, h2⟩ := startGameSession_frame (PlayState.print Line.gameRestarted
      { s.EndGameSession with
        m_gameTime := 0, m_score := 0, m_lives := 3, m_leaderboardPoints := 0,
        m_skillPoints := 0, m_leaderboardTimer := 0, m_skillPointTimer := 0, m_saveTimer := 0,
        m_enemies := [], m_powerUps := [], m_savedGameTime := 0, m_savedScore := 0,
        m_savedLeaderboardPoints := 0, m_savedSkillPoints := 0, m_savedEnemies := [],
        m_savedPowerUps := [], m_showGameOver := false, m_paused := false,
        m_canContinue := false })
    rw [h2]
    exact ⟨rfl, rfl, rfl, rfl, rfl⟩
  · obtain ⟨m2, c2, h2⟩ := startGameSession_frame (PlayState.print Line.gameRestarted
      { s with
        m_gameTime := 0, m_score := 0, m_lives := 3, m_leaderboardPoints := 0,
        m_skillPoints := 0, m_leaderboardTimer := 0, m_skillPointTimer := 0, m_saveTimer := 0,
        m_enemies := [], m_powerUps := [], m_savedGameTime := 0, m_savedScore := 0,
        m_savedLeaderboardPoints := 0, m_savedSkillPoints := 0, m_savedEnemies := [],
        m_savedPowerUps := [], m_showGameOver := false, m_paused := false,
        m_canContinue := false })
    rw [h2]
    exact ⟨rfl, rfl, rfl, rfl, rfl⟩

/-- C28, as stated, fails in the float arithmetic of the code.  The float `0.02f` is
`5368709 / 2^28`; after 50 unpaused frames of it from a fresh game the float game time is
`16777209 / 2^24 = 0.99999958`, below 1, so `floor(gameTime / 0.5) = 1`, while the leaderboard
timer has fired on the 25th and on the 50th frame: `m_leaderboardPoints = 2`.  At the frame
cap `0.05f = 13421773 / 2^28`: after 30 frames the game time is `12582909 / 2^23 = 1.4999996`
with 3 leaderboard points, where the floor is 2. -/
theorem float_points_exceed_floor_of_game_time :
    frame20ms = 5368709 / 268435456 ∧
    ((PlayState.init : PlayState ℚ).accrueAll32 (List.replicate 50 frame20ms)).m_gameTime
      = 16777209 / 16777216 ∧
    ((PlayState.init : PlayState ℚ).accrueAll32
      (List.replicate 50 frame20ms)).m_leaderboardPoints = 2 ∧
    Int.floor (((PlayState.init : PlayState ℚ).accrueAll32
      (List.replicate 50 frame20ms)).m_gameTime / (1 / 2)) = 1 ∧
    roundF32 ((50 : ℚ) / 1000) = 13421773 / 268435456 ∧
    ((PlayState.init : PlayState ℚ).accrueAll32
      (List.replicate 30 (roundF32 (50 / 1000)))).m_gameTime = 12582909 / 8388608 ∧
    ((PlayState.init : PlayState ℚ).accrueAll32
      (List.replicate 30 (roundF32 (50 / 1000)))).m_leaderboardPoints = 3 ∧
    Int.floor (((PlayState.init : PlayState ℚ).accrueAll32
      (List.replicate 30 (roundF32 (50 / 1000)))).m_gameTime / (1 / 2)) = 2 := by
  decide!

/-- C28, amended, in the float arithmetic of the code.  Start from a fresh game or from the
state `RestartGame` leaves, and run `n` ticks of `Update32` that all start unpaused and not
game over, with frame times that are 0 or at least `2^-126`; let `T` be their exact sum.  At
the end of the run `T * (1 - 2^-24)^n <= m_gameTime`,
`m_leaderboardPoints * 0.5 <= T * (1 + 2^-24)^n` and `m_skillPoints * 1.0 <= T * (1 + 2^-24)^n`,
and one more unpaused tick leaves each of the two totals as it is or raises it by 1. -/
theorem points_bounded_by_elapsed_time (sqrt : F → F) (s0 : PlayState F)
    (h0 : s0 = PlayState.init ∨ ∃ t : PlayState F, s0 = t.RestartGame)
    (frames : List (F × Draws))
    (hd : ∀ frame ∈ frames, frame.1 = 0 ∨ (1 / 2 : F) ^ 126 ≤ frame.1)
    (ha : s0.allActive32 sqrt frames) :
    (frames.map Prod.fst).sum * (1 - 1 / 2 ^ 24) ^ frames.length
      ≤ (s0.run32 sqrt frames).m_gameTime ∧
    ((s0.run32 sqrt frames).m_leaderboardPoints : F) * (1 / 2)
      ≤ (frames.map Prod.fst).sum * (1 + 1 / 2 ^ 24) ^ frames.length ∧
    ((s0.run32 sqrt frames).m_skillPoints : F) * 1
      ≤ (frames.map Prod.fst).sum * (1 + 1 / 2 ^ 24) ^ frames.length ∧
    (∀ (deltaTime : F) (d : Draws), (s0.run32 sqrt frames).m_paused = false →
      (s0.run32 sqrt frames).m_showGameOver = false →
      (((s0.run32 sqrt frames).Update32 sqrt deltaTime d).m_leaderboardPoints
          = (s0.run32 sqrt frames).m_leaderboardPoints ∨
        ((s0.run32 sqrt frames).Update32 sqrt deltaTime d).m_leaderboardPoints
          = (s0.run32 sqrt frames).m_leaderboardPoints + 1) ∧
      (((s0.run32 sqrt frames).Update32 sqrt deltaTime d).m_skillPoints
          = (s0.run32 sqrt frames).m_skillPoints ∨
        ((s0.run32 sqrt frames).Update32 sqrt deltaTime d).m_skillPoints
          = (s0.run32 sqrt frames).m_skillPoints + 1)) := by
  have hz : s0.m_gameTime = 0 ∧ s0.m_leaderboardPoints = 0 ∧ s0.m_skillPoints = 0 ∧
      s0.m_leaderboardTimer = 0 ∧ s0.m_skillPointTimer = 0 := by
    rcases h0 with h0 | ⟨t, h0⟩
    · rw [h0]; exact ⟨rfl, rfl, rfl, rfl, rfl⟩
    · rw [h0]; exact restartGame_points t
  obtain ⟨z0, z1, z2, z3, z4⟩ := hz
  obtain ⟨b1, b2⟩ := run32_points_bound sqrt s0 z1 z2 z3 z4 frames hd ha
  obtain ⟨r0, -⟩ := run32_accrues sqrt frames s0 s0 ha (sameAccrual_refl s0)
  have hdel : ∀ deltaTime ∈ frames.map Prod.fst,
      deltaTime = 0 ∨ (1 / 2 : F) ^ 126 ≤ deltaTime := by
    intro x hx
    obtain ⟨frame, hf, rfl⟩ := List.mem_map.1 hx
    exact hd frame hf
  have hg := accrueAll32_gameTime_lower (frames.map Prod.fst) hdel s0 0 le_rfl (by rw [z0])
  rw [zero_add, List.length_map, ← r0] at hg
  refine ⟨hg, b1, b2, ?_⟩
  intro deltaTime d hp hgo
  obtain ⟨-, -, u2, -, u4, -⟩ :=
    update32_sameAccrual sqrt deltaTime d (s0.run32 sqrt frames) hp hgo
  rw [u2, u4]
  exact accrue32_raises_by_at_most_one deltaTime (s0.run32 sqrt frames)

/-- Witness of C28 amended: one frame of 0.5 s from a fresh game. -/
theorem points_bounded_by_elapsed_time_witness :
    (([((1 : ℚ) / 2, Draws.zero)] : List (ℚ × Draws)).map Prod.fst).sum
        * (1 - 1 / 2 ^ 24) ^ ([((1 : ℚ) / 2, Draws.zero)] : List (ℚ × Draws)).length
      ≤ ((PlayState.init : PlayState ℚ).run32 Rat.sqrt [(1 / 2, Draws.zero)]).m_gameTime ∧
    (((PlayState.init : PlayState ℚ).run32 Rat.sqrt [(1 / 2, Draws.zero)]).m_leaderboardPoints
        : ℚ) * (1 / 2)
      ≤ (([((1 : ℚ) / 2, Draws.zero)] : List (ℚ × Draws)).map Prod.fst).sum
        * (1 + 1 / 2 ^ 24) ^ ([((1 : ℚ) / 2, Draws.zero)] : List (ℚ × Draws)).length :=
  ⟨(points_bounded_by_elapsed_time Rat.sqrt (PlayState.init : PlayState ℚ) (Or.inl rfl)
      [(1 / 2, Draws.zero)] (by decide!) ⟨rfl, rfl, trivial⟩).1,
   (points_bounded_by_elapsed_time Rat.sqrt (PlayState.init : PlayState ℚ) (Or.inl rfl)
      [(1 / 2, Draws.zero)] (by decide!) ⟨rfl, rfl, trivial⟩).2.1⟩

end PointBounds

/-! ## Pause menu -/

section PauseMenu

/-- Claim C29 fails in the code.  ESC in a fresh game pauses it and opens the pause menu; a
click on `Restart Game` in that menu runs `RestartGame`, which clears `m_paused` and leaves
`m_showPauseMenu` set: the pause menu stays on screen while the game runs again, and the next
tick advances the game time under it.  `Resume` and ESC set the two members together. -/
theorem restart_from_pause_menu_keeps_menu_open :
    UiReachable Rat.sqrt menuRestartExample ∧
    ((PlayState.init : PlayState ℚ).HandleEvent Event.keyEscape).m_paused = true ∧
    ((PlayState.init : PlayState ℚ).HandleEvent Event.keyEscape).m_showPauseMenu = true ∧
    menuRestartExample.m_paused = false ∧
    menuRestartExample.m_showPauseMenu = true ∧
    (menuRestartExample.Update Rat.sqrt (1 / 100) Draws.zero).m_gameTime = 1 / 100 ∧
    (menuRestartExample.Update Rat.sqrt (1 / 100) Draws.zero).m_showPauseMenu = true ∧
    (menuRestartExample.Update Rat.sqrt (1 / 100) Draws.zero).m_paused = false ∧
    (((PlayState.init : PlayState ℚ).HandleEvent Event.keyEscape).RenderUI
      (some Button.resume)).m_paused = false ∧
    (((PlayState.init : PlayState ℚ).HandleEvent Event.keyEscape).RenderUI
      (some Button.resume)).m_showPauseMenu = false := by
  refine ⟨?_, ?_, ?_, ?_, ?_, ?_, ?_, ?_, ?_, ?_⟩
  · exact UiReachable.render _ _ (UiReachable.escape _ UiReachable.init)
  all_goals decide!

end PauseMenu

end CursorCrisis
